import Mathlib

/-! TOYOPUC client: frame codec, command catalog and client pipeline.

A shallow embedding of `toyopuc/tcpclient.go`, `toyopuc/client.go` and
`toyopuc/toyopuc.go`.

Conventions of the embedding:

* an octet (`byte`), a `uint16` and an `int` are natural numbers; where Go
  arithmetic wraps, the wrap is written out (`% 256`, `% 65536`);
* a `[]byte` is a `List Nat`; `make([]byte, n)` is `n` zeros; a `nil` slice
  and an empty slice are both `[]`;
* a Go call either returns normally, returns a non-nil `error`, or stops with
  a run-time panic (index or slice bound out of range): the three
  constructors of `Res`;
* the calls a client operation makes on its `Packager` and `Transporter` are
  recorded, in order, in the `calls` field of `Run`.
-/

namespace Toyopuc

/-! ## Constants (`toyopuc.go`, `tcpclient.go`) -/

def RequestFTByte : Nat := 0x00
def ResponseFTByte : Nat := 0x80

def FunSequentialProgramReadWord : Nat := 0x18
def FunSequentialProgramWriteWord : Nat := 0x19
def FunIOReadWord : Nat := 0x1C
def FunIOWriteWord : Nat := 0x1D
def FunIOReadByte : Nat := 0x1E
def FunIOWriteByte : Nat := 0x1F
def FunIOReadBit : Nat := 0x20
def FunIOWriteBit : Nat := 0x21
def FunIOReadMultipointWord : Nat := 0x22
def FunIOWriteMultipointWord : Nat := 0x23
def FunIOReadMultipointByte : Nat := 0x24
def FunIOWriteMultipointByte : Nat := 0x25
def FunIOReadMultipointBit : Nat := 0x26
def FunIOWriteMultipointBit : Nat := 0x27
def FunProgramExpansionReadWord : Nat := 0x90
def FunProgramExpansionWriteWord : Nat := 0x91
def FunDataExpansionReadWord : Nat := 0x94
def FunDateExpansionWriteWord : Nat := 0x95
def FunDataExpansionReadByte : Nat := 0x96
def FunDataExpansionWriteByte : Nat := 0x97
def FunDataExpansionReadMultipoint : Nat := 0x98

def tcpHeaderSize : Nat := 0x04
def tcpMaxLength : Nat := 0x200

/-! ## Errors and results -/

/-- The `error` values of the package. The first four are the `fmt.Errorf`
values of `client.go`, the next two those of `tcpPackager.Verify`, then the
function-code error of `client.send`, the `toyopucError` built by
`responseError`, and last any error handed back by a `Transporter`. -/
inductive GoError where
  /-- Format "toyopuc: quantity '%v' must be between '%v' and '%v',". -/
  | quantity (q lo hi : Nat)
  /-- Format "toyopuc: the quantity of addresses must be equal to the quantity
  of values, address quantity: '%v' ,value quantity: '%v'". -/
  | quantityMismatch (quantityAddr quantityVal : Nat)
  /-- Format "toyopuc: address quantity '%v' must be between '%v' and '%v',". -/
  | addressQuantity (q lo hi : Nat)
  /-- Format "toyopuc: data quantity '%v' must be between '%v' and '%v',". -/
  | dataQuantity (q lo hi : Nat)
  /-- Text "toyopuc: FT error". -/
  | ftError
  /-- Text "toyopuc: response data length error". -/
  | lengthError
  /-- Text "toyopuc: function code error". -/
  | functionCode
  /-- The `toyopucError` struct. -/
  | exception (FunctionCode ExceptionCode : Nat)
  /-- An error of the transport layer (dial, write, read, framing). -/
  | transport (msg : String)
  deriving DecidableEq, Repr

/-- Outcome of a Go call: a normal return, a returned `error`, or a run-time
panic. -/
inductive Res (α : Type) where
  | ok (a : α)
  | err (e : GoError)
  | panic
  deriving DecidableEq, Repr

/-- Sequencing: the continuation runs only after a normal return. -/
def Res.bind {α β : Type} (r : Res α) (f : α → Res β) : Res β :=
  match r with
  | .ok a => f a
  | .err e => .err e
  | .panic => .panic

/-! ## Slices -/

/-- The Go expression `make([]byte, n)`. -/
def make (n : Nat) : List Nat := List.replicate n 0

/-- The Go statement `b[i] = v`; panics when `i` is out of range. -/
def setIndex {α : Type} (b : List α) (i : Nat) (v : α) : Res (List α) :=
  if i < b.length then .ok (b.set i v) else .panic

/-- The Go expression `b[i]`; panics when `i` is out of range. -/
def index (b : List Nat) (i : Nat) : Res Nat :=
  match b[i]? with
  | some v => .ok v
  | none => .panic

/-- The Go call `binary.LittleEndian.PutUint16(b[off:], v)` for a `uint16`
value `v`: `b[off] = byte(v)`, `b[off+1] = byte(v >> 8)`; panics unless both
octets are in range. -/
def PutUint16 (b : List Nat) (off v : Nat) : Res (List Nat) :=
  if off + 2 ≤ b.length then .ok ((b.set off (v % 256)).set (off + 1) (v / 256 % 256))
  else .panic

/-- The Go call `binary.LittleEndian.Uint16` on the two octets `b0`, `b1`:
`uint16(b0) | uint16(b1)<<8`. -/
def Uint16 (b0 b1 : Nat) : Nat := b0 + 256 * b1

/-- The Go call `copy(dst[off:], src)`: panics when `off` exceeds `len(dst)`,
otherwise overwrites `min(len(dst)-off, len(src))` octets from `off` on. -/
def copy (dst : List Nat) (off : Nat) (src : List Nat) : Res (List Nat) :=
  if off ≤ dst.length then
    .ok (dst.take off ++ src.take (dst.length - off) ++ dst.drop (off + src.length))
  else .panic

/-- The Go loop `for i, v := range xs { body }` over a buffer `d`, started at
index `i`; a panic in the body ends the loop. -/
def rangeLoop {α β : Type} (body : Nat → α → β → Res β) :
    Nat → List α → β → Res β
  | _, [], d => .ok d
  | i, v :: vs, d =>
    match body i v d with
    | .ok d1 => rangeLoop body (i + 1) vs d1
    | .err e => .err e
    | .panic => .panic

/-! ## Protocol data unit and frame codec (`toyopuc.go`, `tcpclient.go`) -/

/-- The struct `ProtocolDataUnit`. -/
structure ProtocolDataUnit where
  FunctionCode : Nat
  Data : List Nat
  Response : Nat
  deriving DecidableEq, Repr

/-- The struct `tcpPackager`. -/
structure tcpPackager where
  RequestFT : Nat
  ResponseFTByte : Nat
  deriving DecidableEq, Repr

/-- The method `tcpPackager.Encode` (tcpclient.go:61-71). Its `err` result is
never assigned. -/
def tcpPackager.Encode (toyopuc : tcpPackager) (pdu : ProtocolDataUnit) : Res (List Nat) :=
  let adu := make (tcpHeaderSize + 1 + pdu.Data.length)
  (setIndex adu 0 toyopuc.RequestFT).bind fun adu =>
  (setIndex adu 1 0x00).bind fun adu =>
  let length := pdu.Data.length + 1
  (PutUint16 adu 2 (length % 65536)).bind fun adu =>
  (setIndex adu tcpHeaderSize pdu.FunctionCode).bind fun adu =>
  (copy adu (tcpHeaderSize + 1) pdu.Data).bind fun adu =>
  .ok adu

/-- The method `tcpPackager.Verify` (tcpclient.go:75-88). The slice
expression `aduResponse[2:4]` is taken to panic on a response of fewer than 4
octets (a slice whose capacity equals its length). -/
def tcpPackager.Verify (toyopuc : tcpPackager) (_aduRequest aduResponse : List Nat) :
    Res Unit :=
  (index aduResponse 0).bind fun ft =>
  if ft ≠ toyopuc.ResponseFTByte then .err .ftError
  else
    (index aduResponse 2).bind fun b0 =>
    (index aduResponse 3).bind fun b1 =>
    let length := Uint16 b0 b1
    if length ≠ (aduResponse.drop tcpHeaderSize).length then .err .lengthError
    else .ok ()

/-- The method `tcpPackager.Decode` (tcpclient.go:98-107). Its `err` result is
never assigned; `adu[4]` and `adu[1]` are unguarded index expressions. -/
def tcpPackager.Decode (_toyopuc : tcpPackager) (adu : List Nat) : Res ProtocolDataUnit :=
  (index adu 4).bind fun fc =>
  (index adu 1).bind fun rc =>
  .ok { FunctionCode := fc
        Response := rc
        Data := if adu.length > tcpHeaderSize + 1 then adu.drop (tcpHeaderSize + 1) else [] }

/-! ## Payload builders (`client.go`:539-681) -/

/-- The function `dataBlock` (client.go:542-548). -/
def dataBlock (value : List Nat) : Res (List Nat) :=
  let data := make (2 * value.length)
  rangeLoop (fun i v data => PutUint16 data (i * 2) v) 0 value data

/-- The function `dataBlockSuffix` (client.go:552-563). -/
def dataBlockSuffix (suffix : List Nat) (address : Nat) : Res (List Nat) :=
  let data := make (2 + suffix.length * 2)
  (PutUint16 data 0 address).bind fun data =>
  let suffixList := make (2 * suffix.length)
  (rangeLoop (fun k v suffixList => PutUint16 suffixList (k * 2) v) 0 suffix suffixList).bind
    fun suffixList =>
  (copy data 2 suffixList).bind fun data =>
  .ok data

/-- The function `dataBlockSuffixByte` (client.go:567-573). -/
def dataBlockSuffixByte (suffix : List Nat) (address : Nat) : Res (List Nat) :=
  let data := make (2 + suffix.length)
  (PutUint16 data 0 address).bind fun data =>
  (copy data 2 suffix).bind fun data =>
  .ok data

/-- The function `dataBlockSuffixBit` (client.go:577-583). -/
def dataBlockSuffixBit (suffix : Nat) (address : Nat) : Res (List Nat) :=
  let data := make 3
  (PutUint16 data 0 address).bind fun data =>
  (setIndex data 2 suffix).bind fun data =>
  .ok data

/-- The function `dataBlockList` (client.go:587-593). -/
def dataBlockList (value : List Nat) : Res (List Nat) :=
  let data := make (2 * value.length)
  rangeLoop (fun i v data => PutUint16 data (i * 2) v) 0 value data

/-- The function `dataBlockAVList` (client.go:597-604). -/
def dataBlockAVList (address value : List Nat) : Res (List Nat) :=
  let data := make (2 * value.length * 2)
  rangeLoop
    (fun i v data =>
      (PutUint16 data (i * 4) v).bind fun data =>
      (index value i).bind fun vi =>
      PutUint16 data (i * 4 + 2) vi)
    0 address data

/-- The function `dataBlockAVByteList` (client.go:608-615). -/
def dataBlockAVByteList (address : List Nat) (value : List Nat) : Res (List Nat) :=
  let data := make (3 * value.length)
  rangeLoop
    (fun i v data =>
      (PutUint16 data (i * 3) v).bind fun data =>
      (index value i).bind fun vi =>
      setIndex data (i * 3 + 2) vi)
    0 address data

/-- The function `dataBlockExpansion` (client.go:619-626). -/
def dataBlockExpansion (no : Nat) (value : List Nat) : Res (List Nat) :=
  let data := make (2 * value.length + 1)
  (setIndex data 0 no).bind fun data =>
  rangeLoop (fun i v data => PutUint16 data (i * 2 + 1) v) 0 value data

/-- The function `dataBlockExpansionSuffix` (client.go:630-641). -/
def dataBlockExpansionSuffix (no : Nat) (suffix : List Nat) (address : Nat) :
    Res (List Nat) :=
  let data := make (2 + suffix.length * 2 + 1)
  (setIndex data 0 no).bind fun data =>
  (PutUint16 data 1 address).bind fun data =>
  let suffixList := make (2 * suffix.length)
  (rangeLoop (fun k v suffixList => PutUint16 suffixList (k * 2) v) 0 suffix suffixList).bind
    fun suffixList =>
  (copy data 3 suffixList).bind fun data =>
  .ok data

/-- The function `dataBlockExpansionSuffixByte` (client.go:645-652). -/
def dataBlockExpansionSuffixByte (no : Nat) (suffix : List Nat) (address : Nat) :
    Res (List Nat) :=
  let data := make (2 + suffix.length + 1)
  (setIndex data 0 no).bind fun data =>
  (PutUint16 data 1 address).bind fun data =>
  (copy data 3 suffix).bind fun data =>
  .ok data

/-- One of the three loops of `dataBlockExpansionSuffixMultipoint`
(client.go:662-666, 667-671, 672-676): `buf[k*3] = v` and then
`PutUint16(buf[k*3+1:], addr[k])` for each `k, v` of `no`. -/
def multipointLoop (no addr : List Nat) : Res (List Nat) :=
  let buf := make (3 * no.length)
  rangeLoop
    (fun k v buf =>
      (setIndex buf (k * 3) v).bind fun buf =>
      (index addr k).bind fun ak =>
      PutUint16 buf (k * 3 + 1) ak)
    0 no buf

/-- The function `dataBlockExpansionSuffixMultipoint` (client.go:656-681). -/
def dataBlockExpansionSuffixMultipoint (numBit numByte numWord : Nat)
    (bitNo bitAddr bytesNo bytesAddr wordNo wordAddr : List Nat) : Res (List Nat) :=
  let data := make (3 + bitNo.length + 2 * bitAddr.length + bytesNo.length
    + 2 * bytesAddr.length + wordNo.length + 2 * wordAddr.length)
  (setIndex data 0 numBit).bind fun data =>
  (setIndex data 1 numByte).bind fun data =>
  (setIndex data 2 numWord).bind fun data =>
  (multipointLoop bitNo bitAddr).bind fun suffixBit =>
  (multipointLoop bytesNo bytesAddr).bind fun suffixByte =>
  (multipointLoop wordNo wordAddr).bind fun suffixWord =>
  (copy data 3 suffixBit).bind fun data =>
  (copy data (3 + suffixBit.length) suffixByte).bind fun data =>
  (copy data (3 + suffixBit.length + suffixByte.length) suffixWord).bind fun data =>
  .ok data

/-! ## Client (`client.go`:8-537, 684-690) -/

/-- The interface `Packager`. -/
structure Packager where
  Encode : ProtocolDataUnit → Res (List Nat)
  Decode : List Nat → Res ProtocolDataUnit
  Verify : List Nat → List Nat → Res Unit

/-- The interface `Transporter`. -/
structure Transporter where
  Send : List Nat → Res (List Nat)

/-- The struct `client`. -/
structure client where
  packager : Packager
  transporter : Transporter

/-- The method set of `tcpPackager` seen through the interface `Packager`. -/
def tcpPackager.toPackager (p : tcpPackager) : Packager :=
  { Encode := p.Encode, Decode := p.Decode, Verify := p.Verify }

/-- The function `NewClient2`. -/
def NewClient2 (packager : Packager) (transporter : Transporter) : client :=
  { packager := packager, transporter := transporter }

/-- The packager of `NewTCPClientHandler`: the default frame-type markers. -/
def defaultPackager : tcpPackager :=
  { RequestFT := RequestFTByte, ResponseFTByte := ResponseFTByte }

/-- A call made on the `Packager` or the `Transporter` of a client. -/
inductive Call where
  | Encode (pdu : ProtocolDataUnit)
  | Send (aduRequest : List Nat)
  | Verify (aduRequest aduResponse : List Nat)
  | Decode (adu : List Nat)
  deriving DecidableEq, Repr

/-- A client call: the calls it made on its packager and transporter, in
order, and its outcome. An outcome `err e` stands for the Go results
`(zero value, e)`. -/
structure Run (α : Type) where
  calls : List Call
  res : Res α

/-- The function `responseError` (client.go:684-690). -/
def responseError (response : ProtocolDataUnit) : GoError :=
  let FunctionCode := response.FunctionCode
  let ExceptionCode := if response.Response ≠ 0 then response.Response else 0
  .exception FunctionCode ExceptionCode

/-- The method `client.send` (client.go:509-537). On a function-code mismatch
`err` is assigned but the method goes on to the status check, which
overwrites it when the status is nonzero. -/
def client.send (toyopuc : client) (request : ProtocolDataUnit) : Run ProtocolDataUnit :=
  match toyopuc.packager.Encode request with
  | .panic => ⟨[.Encode request], .panic⟩
  | .err e => ⟨[.Encode request], .err e⟩
  | .ok aduRequest =>
    match toyopuc.transporter.Send aduRequest with
    | .panic => ⟨[.Encode request, .Send aduRequest], .panic⟩
    | .err e => ⟨[.Encode request, .Send aduRequest], .err e⟩
    | .ok aduResponse =>
      match toyopuc.packager.Verify aduRequest aduResponse with
      | .panic =>
        ⟨[.Encode request, .Send aduRequest, .Verify aduRequest aduResponse], .panic⟩
      | .err e =>
        ⟨[.Encode request, .Send aduRequest, .Verify aduRequest aduResponse], .err e⟩
      | .ok () =>
        let calls := [Call.Encode request, .Send aduRequest,
          .Verify aduRequest aduResponse, .Decode aduResponse]
        match toyopuc.packager.Decode aduResponse with
        | .panic => ⟨calls, .panic⟩
        | .err e => ⟨calls, .err e⟩
        | .ok response =>
          let err : Option GoError :=
            if response.FunctionCode ≠ request.FunctionCode then some .functionCode else none
          if response.Response ≠ 0x00 then ⟨calls, .err (responseError response)⟩
          else
            match err with
            | some e => ⟨calls, .err e⟩
            | none => ⟨calls, .ok response⟩

/-- The common tail of the operations: build the payload, send the request,
hand the response to `after`. A panic while the payload is built ends the call
before any packager or transporter call. -/
def client.request {α : Type} (toyopuc : client) (FunctionCode : Nat)
    (Data : Res (List Nat)) (after : ProtocolDataUnit → Res α) : Run α :=
  match Data with
  | .panic => ⟨[], .panic⟩
  | .err e => ⟨[], .err e⟩
  | .ok data =>
    let r := toyopuc.send { FunctionCode := FunctionCode, Data := data, Response := 0 }
    match r.res with
    | .panic => ⟨r.calls, .panic⟩
    | .err e => ⟨r.calls, .err e⟩
    | .ok response => ⟨r.calls, after response⟩

/-! ### The operations of the interface `Client` (`client.go`:29-503)

Every operation first checks its quantity, then builds the payload, then calls
`send`. The `fmt.Println(r)` of `WriteIOByte`, `WriteIOBit` and
`WriteDataExpansionByte` only writes to standard output and is left out. -/

/-- The method `client.ReadSequentialProgramWord` (client.go:32-51). -/
def client.ReadSequentialProgramWord (toyopuc : client) (address quantity : Nat) : Run (List Nat) :=
  if quantity < 1 ∨ quantity > 0x200 then ⟨[], .err (.quantity quantity 1 0x200)⟩
  else toyopuc.request FunSequentialProgramReadWord (dataBlock [address, quantity])
    fun response => .ok response.Data

/-- The method `client.WriteSequentialProgramWord` (client.go:56-72). -/
def client.WriteSequentialProgramWord (toyopuc : client) (address : Nat) (value : List Nat) :
    Run Unit :=
  let quantity := value.length
  if quantity < 1 ∨ quantity > 0x200 then ⟨[], .err (.quantity quantity 1 0x200)⟩
  else toyopuc.request FunSequentialProgramWriteWord (dataBlockSuffix value address) fun _ => .ok ()

/-- The method `client.ReadIOWord` (client.go:77-96). -/
def client.ReadIOWord (toyopuc : client) (address quantity : Nat) : Run (List Nat) :=
  if quantity < 1 ∨ quantity > 0x200 then ⟨[], .err (.quantity quantity 1 0x200)⟩
  else toyopuc.request FunIOReadWord (dataBlock [address, quantity])
    fun response => .ok response.Data

/-- The method `client.WriteIOWord` (client.go:101-116). -/
def client.WriteIOWord (toyopuc : client) (address : Nat) (value : List Nat) : Run Unit :=
  let quantity := value.length
  if quantity < 1 ∨ quantity > 0x200 then ⟨[], .err (.quantity quantity 1 0x200)⟩
  else toyopuc.request FunIOWriteWord (dataBlockSuffix value address) fun _ => .ok ()

/-- The method `client.ReadIOByte` (client.go:121-138). -/
def client.ReadIOByte (toyopuc : client) (address quantity : Nat) : Run (List Nat) :=
  if quantity < 1 ∨ quantity > 0x200 then ⟨[], .err (.quantity quantity 1 0x200)⟩
  else toyopuc.request FunIOReadByte (dataBlock [address, quantity])
    fun response => .ok response.Data

/-- The method `client.WriteIOByte` (client.go:143-159). -/
def client.WriteIOByte (toyopuc : client) (address : Nat) (value : List Nat) : Run Unit :=
  let quantity := value.length
  if quantity < 1 ∨ quantity > 0x200 then ⟨[], .err (.quantity quantity 1 0x200)⟩
  else toyopuc.request FunIOWriteByte (dataBlockSuffixByte value address) fun _ => .ok ()

/-- The method `client.ReadIOBit` (client.go:164-179): no quantity check; `response.Data[0]` is an
unguarded index expression. -/
def client.ReadIOBit (toyopuc : client) (address : Nat) : Run Bool :=
  toyopuc.request FunIOReadBit (dataBlock [address]) fun response =>
    (index response.Data 0).bind fun b => .ok (decide (b = 1))

/-- The method `client.WriteIOBit` (client.go:184-195): no quantity check. -/
def client.WriteIOBit (toyopuc : client) (address value : Nat) : Run Unit :=
  toyopuc.request FunIOWriteBit (dataBlockSuffixBit value address) fun _ => .ok ()

/-- The method `client.ReadIOMultipointWord` (client.go:200-220). -/
def client.ReadIOMultipointWord (toyopuc : client) (address : List Nat) : Run (List Nat) :=
  let quantity := address.length
  if quantity < 1 ∨ quantity > 0x80 then ⟨[], .err (.quantity quantity 1 0x80)⟩
  else toyopuc.request FunIOReadMultipointWord (dataBlockList address)
    fun response => .ok response.Data

/-- The method `client.WriteIOMultipointWord` (client.go:225-245). -/
def client.WriteIOMultipointWord (toyopuc : client) (address value : List Nat) : Run Unit :=
  let quantityAddr := address.length
  let quantityVal := value.length
  if quantityAddr ≠ quantityVal then ⟨[], .err (.quantityMismatch quantityAddr quantityVal)⟩
  else if quantityAddr < 1 ∨ quantityAddr > 0x80 ∨ quantityVal < 1 ∨ quantityVal > 0x80 then
    ⟨[], .err (.quantity quantityVal 1 0x80)⟩
  else toyopuc.request FunIOWriteMultipointWord (dataBlockAVList address value) fun _ => .ok ()

/-- The method `client.ReadIOMultipointByte` (client.go:250-268). -/
def client.ReadIOMultipointByte (toyopuc : client) (address : List Nat) : Run (List Nat) :=
  let quantity := address.length
  if quantity < 1 ∨ quantity > 0x80 then ⟨[], .err (.quantity quantity 1 0x80)⟩
  else toyopuc.request FunIOReadMultipointByte (dataBlockList address)
    fun response => .ok response.Data

/-- The method `client.WriteIOMultipointByte` (client.go:273-293). -/
def client.WriteIOMultipointByte (toyopuc : client) (address value : List Nat) : Run Unit :=
  let quantityAddr := address.length
  let quantityVal := value.length
  if quantityAddr ≠ quantityVal then ⟨[], .err (.quantityMismatch quantityAddr quantityVal)⟩
  else if quantityAddr < 1 ∨ quantityAddr > 0x80 ∨ quantityVal < 1 ∨ quantityVal > 0x80 then
    ⟨[], .err (.quantity quantityVal 1 0x80)⟩
  else toyopuc.request FunIOWriteMultipointByte (dataBlockAVByteList address value) fun _ => .ok ()

/-- The method `client.ReadIOMultipointBit` (client.go:298-321): the result is a fresh `[]bool` of
the payload's length (all `false`), set to `true` at each `k` whose octet is 1. -/
def client.ReadIOMultipointBit (toyopuc : client) (address : List Nat) : Run (List Bool) :=
  let quantity := address.length
  if quantity < 1 ∨ quantity > 0x80 then ⟨[], .err (.quantity quantity 1 0x80)⟩
  else toyopuc.request FunIOReadMultipointBit (dataBlockList address) fun response =>
    let results := List.replicate response.Data.length false
    rangeLoop (fun k v results => if v = 1 then setIndex results k true else .ok results)
      0 response.Data results

/-- The method `client.WriteIOMultipointBit` (client.go:326-346). -/
def client.WriteIOMultipointBit (toyopuc : client) (address value : List Nat) : Run Unit :=
  let quantityAddr := address.length
  let quantityVal := value.length
  if quantityAddr ≠ quantityVal then ⟨[], .err (.quantityMismatch quantityAddr quantityVal)⟩
  else if quantityAddr < 1 ∨ quantityAddr > 0x80 ∨ quantityVal < 1 ∨ quantityVal > 0x80 then
    ⟨[], .err (.quantity quantityVal 1 0x80)⟩
  else toyopuc.request FunIOWriteMultipointBit (dataBlockAVByteList address value) fun _ => .ok ()

/-- The method `client.ReadProgramExpansionWord` (client.go:351-370). -/
def client.ReadProgramExpansionWord (toyopuc : client) (no address quantity : Nat) :
    Run (List Nat) :=
  if quantity < 1 ∨ quantity > 0x200 then ⟨[], .err (.quantity quantity 1 0x200)⟩
  else toyopuc.request FunProgramExpansionReadWord (dataBlockExpansion no [address, quantity])
    fun response => .ok response.Data

/-- The method `client.WriteProgramExpansionWord` (client.go:375-390). -/
def client.WriteProgramExpansionWord (toyopuc : client) (no address : Nat) (value : List Nat) :
    Run Unit :=
  let quantity := value.length
  if quantity < 1 ∨ quantity > 0x200 then ⟨[], .err (.quantity quantity 1 0x200)⟩
  else toyopuc.request FunProgramExpansionWriteWord (dataBlockExpansionSuffix no value address)
    fun _ => .ok ()

/-- The method `client.ReadDataExpansionWord` (client.go:395-414). -/
def client.ReadDataExpansionWord (toyopuc : client) (no address quantity : Nat) : Run (List Nat) :=
  if quantity < 1 ∨ quantity > 0x200 then ⟨[], .err (.quantity quantity 1 0x200)⟩
  else toyopuc.request FunDataExpansionReadWord (dataBlockExpansion no [address, quantity])
    fun response => .ok response.Data

/-- The method `client.WriteDataExpansionWord` (client.go:419-434). -/
def client.WriteDataExpansionWord (toyopuc : client) (no address : Nat) (value : List Nat) :
    Run Unit :=
  let quantity := value.length
  if quantity < 1 ∨ quantity > 0x200 then ⟨[], .err (.quantity quantity 1 0x200)⟩
  else toyopuc.request FunDateExpansionWriteWord (dataBlockExpansionSuffix no value address)
    fun _ => .ok ()

/-- The method `client.ReadDataExpansionByte` (client.go:439-456). -/
def client.ReadDataExpansionByte (toyopuc : client) (no address quantity : Nat) : Run (List Nat) :=
  if quantity < 1 ∨ quantity > 0x400 then ⟨[], .err (.quantity quantity 1 0x400)⟩
  else toyopuc.request FunDataExpansionReadByte (dataBlockExpansion no [address, quantity])
    fun response => .ok response.Data

/-- The method `client.WriteDataExpansionByte` (client.go:461-477). -/
def client.WriteDataExpansionByte (toyopuc : client) (no address : Nat) (value : List Nat) :
    Run Unit :=
  let quantity := value.length
  if quantity < 1 ∨ quantity > 0x400 then ⟨[], .err (.quantity quantity 1 0x400)⟩
  else toyopuc.request FunDataExpansionWriteByte (dataBlockExpansionSuffixByte no value address)
    fun _ => .ok ()

/-- The method `client.ReadDataExpansionMultipoint` (client.go:482-503).
`numBit`, `numByte`, `numWord`, `quantity` and `dataQuantity` are of type
`byte`: every sum and product is taken modulo 256. -/
def client.ReadDataExpansionMultipoint (toyopuc : client) (numBit numByte numWord : Nat)
    (bitNo bitAddr bytesNo bytesAddr wordNo wordAddr : List Nat) : Run (List Nat) :=
  let quantity := ((numBit + numByte) % 256 + numWord) % 256
  if quantity < 1 ∨ quantity > 176 then ⟨[], .err (.addressQuantity quantity 1 176)⟩
  else
    let dataQuantity := ((numBit / 8 + numByte) % 256 + numWord * 2 % 256) % 256
    if dataQuantity < 1 ∨ dataQuantity > 128 then
      ⟨[], .err (.dataQuantity dataQuantity 1 128)⟩
    else
      toyopuc.request FunDataExpansionReadMultipoint
        (dataBlockExpansionSuffixMultipoint numBit numByte numWord bitNo bitAddr bytesNo
          bytesAddr wordNo wordAddr)
        fun response => .ok response.Data

/-! ## Payload layouts, as the specification words them -/

/-- The little-endian octets of a list of 16-bit values, in list order:
`[value(16)]×N`. -/
def leWords : List Nat → List Nat
  | [] => []
  | v :: vs => v % 256 :: v / 256 % 256 :: leWords vs

/-- The multipoint word-write layout `[address(16), value(16)]×N`, interleaved
per point. -/
def avWords : List Nat → List Nat → List Nat
  | a :: as, v :: vs => a % 256 :: a / 256 % 256 :: v % 256 :: v / 256 % 256 :: avWords as vs
  | _, _ => []

/-- The multipoint byte-write layout `[address(16), value(8)]×N`, interleaved
per point. -/
def avBytes : List Nat → List Nat → List Nat
  | a :: as, v :: vs => a % 256 :: a / 256 % 256 :: v :: avBytes as vs
  | _, _ => []

/-- The entries of one kind in the expansion multipoint layout:
`kind(8)+address(16)` per point, in list order. -/
def kindAddrs : List Nat → List Nat → List Nat
  | k :: ks, a :: as => k :: a % 256 :: a / 256 % 256 :: kindAddrs ks as
  | _, _ => []

/-- A client call was turned down before any call on the packager or the
transporter: it returned an error and the call record is empty. -/
def Run.rejected {α : Type} (r : Run α) : Prop :=
  r.calls = [] ∧ ∃ e, r.res = .err e

/-- A client call passed its checks: it went on to hand a command to the
packager's `Encode`. -/
def Run.accepted {α : Type} (r : Run α) : Prop :=
  ∃ pdu rest, r.calls = Call.Encode pdu :: rest

/-- A client call is governed by the check `ok`: it is accepted exactly when
`ok` holds and rejected exactly when `ok` fails. -/
def Run.checkedBy {α : Type} (r : Run α) (ok : Prop) : Prop :=
  (r.accepted ↔ ok) ∧ (r.rejected ↔ ¬ ok)

/-- The number of `Encode` calls in a call record. -/
def encodeCount (calls : List Call) : Nat :=
  (calls.filter fun c => match c with | .Encode _ => true | _ => false).length

/-- The number of `Send` calls in a call record. -/
def sendCount (calls : List Call) : Nat :=
  (calls.filter fun c => match c with | .Send _ => true | _ => false).length

/-- A client call failed ahead of all I/O: it returned an error, and neither the
packager's `Encode` nor the transporter's `Send` was called. -/
def Run.failedBeforeEncode {α : Type} (r : Run α) : Prop :=
  (∃ e, r.res = .err e) ∧ encodeCount r.calls = 0 ∧ sendCount r.calls = 0

/-- A stub transporter that answers every request with the frame `resp`. -/
def stubTransporter (resp : List Nat) : Transporter :=
  { Send := fun _ => .ok resp }

/-- A client with the default packager over the stub transporter. -/
def stubClient (resp : List Nat) : client :=
  NewClient2 defaultPackager.toPackager (stubTransporter resp)

/-! ## Exception codes and the error text (`toyopuc.go`:49-148) -/

def ExceptionCodeHardwareAbnormalityOfCPU : Nat := 0x11
def ExceptionCodeIllegalENQ : Nat := 0x20
def ExceptionCodeAbnormalTransmissionQuantity : Nat := 0x21
def ExceptionCodeIllegalCommandCode : Nat := 0x23
def ExceptionCodeIllegalSubcommandCode : Nat := 0x24
def ExceptionCodeIllegalDataByteInCommandFormat : Nat := 0x25
def ExceptionCodeIllegalNumberOfFunctionCallOperands : Nat := 0x26
def ExceptionCodeWriteForbiddenInArea : Nat := 0x31
def ExceptionCodeDisableCommandWithStopDuration : Nat := 0x32
def ExceptionCodeDebugFunctionWithNotDebugMode : Nat := 0x33
def ExceptionCodeNoAccessByAccessProhibitionSetting : Nat := 0x34
def ExceptionCodeCannotExecWithoutPermission : Nat := 0x35
def ExceptionCodeCannotExecWithoutPermissionByOtherDeviceSet : Nat := 0x36
def ExceptionCodeNoResetAfterWriteIOParams : Nat := 0x39
def ExceptionCodeUnenforceableCommandWithSeriousFault : Nat := 0x3C
def ExceptionCodeConflictWithOtherCommand : Nat := 0x3D
def ExceptionCodeConnotExecWithReset : Nat := 0x3E
def ExceptionCodeConnotExecWithStopStatus : Nat := 0x3F
def ExceptionCodeAddressNotInRange : Nat := 0x40
def ExceptionCodeNumOutOfRange : Nat := 0x41
def ExceptionCodeDataOtherThanSpecified : Nat := 0x42
def ExceptionCodeErrorInOperandFunctionCall : Nat := 0x43
def ExceptionCodeCommandWithOutTimerCounter : Nat := 0x52
def ExceptionCodeNoAnswer : Nat := 0x66
def ExceptionCodeCommandNotUsed : Nat := 0x70
def ExceptionCodeDataModeNoAnswer : Nat := 0x72
def ExceptionCodeCommandCannotProceed : Nat := 0x73

/-- The struct `toyopucError`. -/
structure toyopucError where
  FunctionCode : Nat
  ExceptionCode : Nat
  deriving DecidableEq, Repr

/-- The `switch e.ExceptionCode` of `toyopucError.Error` (toyopuc.go:91-146):
the cases are tried in source order, the `default` case is last. -/
def exceptionName (code : Nat) : String :=
  if code = ExceptionCodeHardwareAbnormalityOfCPU then
    "hardware abnormality of CPU"
  else if code = ExceptionCodeIllegalENQ then
    "ENQ connot be 5"
  else if code = ExceptionCodeAbnormalTransmissionQuantity then
    "abnormal transmission quantity"
  else if code = ExceptionCodeIllegalCommandCode then
    "illegal command code"
  else if code = ExceptionCodeIllegalSubcommandCode then
    "illegal subcommand code"
  else if code = ExceptionCodeIllegalDataByteInCommandFormat then
    "Illegal data byte in command format"
  else if code = ExceptionCodeIllegalNumberOfFunctionCallOperands then
    "number of illegal function call operands"
  else if code = ExceptionCodeWriteForbiddenInArea then
    "an attempt was made to write in an area where writing is prohibited in " ++
    "a sequential operation"
  else if code = ExceptionCodeDisableCommandWithStopDuration then
    "during the stop duration, a disable command is sent"
  else if code = ExceptionCodeDebugFunctionWithNotDebugMode then
    "although not in debug mode, a debug function call was attempted"
  else if code = ExceptionCodeNoAccessByAccessProhibitionSetting then
    "access is prohibited through access prohibition setting"
  else if code = ExceptionCodeCannotExecWithoutPermission then
    "because the execution permission is set, it cannot be executed"
  else if code = ExceptionCodeCannotExecWithoutPermissionByOtherDeviceSet then
    "since the execution permission is set through other devices, it cannot " ++
    "be executed"
  else if code = ExceptionCodeNoResetAfterWriteIOParams then
    "after I/O point parameters and I / O allocated point parameters are " ++
    "written, try to start scanning without resetting"
  else if code = ExceptionCodeUnenforceableCommandWithSeriousFault then
    "during a serious failure, an unenforceable command was issued"
  else if code = ExceptionCodeConflictWithOtherCommand then
    "the command cannot be executed because a reset is in progress"
  else if code = ExceptionCodeConnotExecWithReset then
    "in the command execution of other factors, the processing will " ++
    "conflict, so it is not executable"
  else if code = ExceptionCodeConnotExecWithStopStatus then
    "the command cannot be executed because it is stopped"
  else if code = ExceptionCodeAddressNotInRange then
    "the address is not in the range due to reading and writing commands, " ++
    "or the address + data quantity of the command deviates from the " ++
    "address range"
  else if code = ExceptionCodeNumOutOfRange then
    "the number of words or bytes is out of range"
  else if code = ExceptionCodeErrorInOperandFunctionCall then
    "there is an error in the operand of the function call"
  else if code = ExceptionCodeCommandWithOutTimerCounter then
    "although the timer and counter are not used, the commands of reading " ++
    "and writing the set value and current value are still sent"
  else if code = ExceptionCodeNoAnswer then
    "there is no response from the link module of the link No. and station " ++
    "number specified by the relay command. (the specified link module does " ++
    "not exist or the power supply is off, or the line is abnormal, etc.)"
  else if code = ExceptionCodeCommandNotUsed then
    "the module of link No. specified by the relay command cannot be used " ++
    "(the error of the specified link No. or the exception of the link " ++
    "module)"
  else if code = ExceptionCodeDataModeNoAnswer then
    "there is no response from the link module of the link No. and station " ++
    "number specified by the relay command. (the specified link module does " ++
    "not exist or the power supply is off, or the line is abnormal, etc.)"
  else if code = ExceptionCodeCommandCannotProceed then
    "since multiple relay commands are repeatedly sent to the same link " ++
    "module in the CPU module, the command processing cannot be carried " ++
    "out. (please send the command again)"
  else "unknown"

/-- The case labels of the `switch` of `toyopucError.Error`, in source order. -/
def exceptionCases : List Nat :=
  [ExceptionCodeHardwareAbnormalityOfCPU, ExceptionCodeIllegalENQ,
   ExceptionCodeAbnormalTransmissionQuantity, ExceptionCodeIllegalCommandCode,
   ExceptionCodeIllegalSubcommandCode, ExceptionCodeIllegalDataByteInCommandFormat,
   ExceptionCodeIllegalNumberOfFunctionCallOperands, ExceptionCodeWriteForbiddenInArea,
   ExceptionCodeDisableCommandWithStopDuration, ExceptionCodeDebugFunctionWithNotDebugMode,
   ExceptionCodeNoAccessByAccessProhibitionSetting,
   ExceptionCodeCannotExecWithoutPermission,
   ExceptionCodeCannotExecWithoutPermissionByOtherDeviceSet,
   ExceptionCodeNoResetAfterWriteIOParams,
   ExceptionCodeUnenforceableCommandWithSeriousFault, ExceptionCodeConflictWithOtherCommand,
   ExceptionCodeConnotExecWithReset, ExceptionCodeConnotExecWithStopStatus,
   ExceptionCodeAddressNotInRange, ExceptionCodeNumOutOfRange,
   ExceptionCodeErrorInOperandFunctionCall, ExceptionCodeCommandWithOutTimerCounter,
   ExceptionCodeNoAnswer, ExceptionCodeCommandNotUsed, ExceptionCodeDataModeNoAnswer,
   ExceptionCodeCommandCannotProceed]

/-- The method `toyopucError.Error` (toyopuc.go:89-148): the format
"toyopuc: exception '%v' (%s), function '%v'" over the exception code, the
name found by the `switch`, and the function code; `%v` prints an octet in
decimal. -/
def toyopucError.Error (e : toyopucError) : String :=
  let name := exceptionName e.ExceptionCode
  "toyopuc: exception '" ++ toString e.ExceptionCode ++ "' (" ++ name ++ "), function '"
    ++ toString e.FunctionCode ++ "'"

/-- The frames handed to the transporter's `Send` in a call record, in order. -/
def sentFrames : List Call → List (List Nat)
  | [] => []
  | .Send aduRequest :: rest => aduRequest :: sentFrames rest
  | _ :: rest => sentFrames rest

/-- A structurally valid response frame, as the specification words it: octet
0 is the configured response marker, the frame carries the 4-octet header and
the operation code, and the little-endian length field at offsets 2..3 equals
the number of octets after the header. -/
def StructurallyValid (p : tcpPackager) (resp : List Nat) : Prop :=
  resp[0]? = some p.ResponseFTByte ∧ 5 ≤ resp.length
    ∧ resp.getD 2 0 + 256 * resp.getD 3 0 = resp.length - 4

/-! ## Connection manager (`tcpclient.go`:109-267)

The network is a parameter of the embedding: a connection `Conn` says what its
calls return (the errors of `SetDeadline`, `Write` and `Close`, the octets the
peer delivers), `dial` is the outcome of `net.Dialer.Dial`, `now` is the
reading of the clock (`time.Now`), a `time.Duration` and a `time.Time` are
integers (nanoseconds). The calls made on the network are recorded, in order,
as `NetEvent`s. The mutex `mu` is not part of the state: every method below is
one atomic step. The logger only writes text and is left out. -/

/-- The error `io.EOF`, by its text. -/
def EOF : GoError := .transport "EOF"

/-- The error `io.ErrUnexpectedEOF`, by its text. -/
def ErrUnexpectedEOF : GoError := .transport "unexpected EOF"

/-- A `net.Conn` as the transporter uses it. -/
structure Conn where
  /-- The identity of the socket handle. -/
  handle : Nat
  /-- The error `SetDeadline` returns, if any. -/
  deadlineErr : Option GoError
  /-- The error `Write` returns, if any. -/
  writeErr : Option GoError
  /-- The octets the peer delivers, not yet read. -/
  incoming : List Nat
  /-- The error a `Read` returns once the octets of `incoming` are used up:
  `io.EOF` when the peer has closed the stream, a timeout error when the
  deadline passes first. -/
  readErr : GoError
  /-- The error `Close` returns, if any. -/
  closeErr : Option GoError
  deriving DecidableEq, Repr

/-- A call on the network. -/
inductive NetEvent where
  | Dial
  | SetDeadline (deadline : Option Int)
  | Write (adu : List Nat)
  /-- A call `io.ReadFull(conn, buf)` with `len(buf) = n`. -/
  | ReadFull (n : Nat)
  /-- The call `conn.Read` of `flush`. -/
  | Flush
  | Close (handle : Nat)
  deriving DecidableEq, Repr

/-- The struct `tcpTransporter` (tcpclient.go:110-125); `closeTimer` holds the
duration the timer was last armed for, `none` for a `nil` timer. -/
structure tcpTransporter where
  Address : String
  Timeout : Int
  IdleTimeout : Int
  conn : Option Conn
  closeTimer : Option Int
  lastActivity : Int
  deriving DecidableEq, Repr

/-- A method call on the transporter: the state it leaves, the network calls
it made, and its outcome. -/
structure Step (α : Type) where
  state : tcpTransporter
  events : List NetEvent
  res : Res α

/-- The connection state of the specification: Connected when the transporter
holds a socket handle. -/
def tcpTransporter.Connected (t : tcpTransporter) : Prop := t.conn ≠ none

/-- The connection state of the specification: Disconnected when the socket
handle is `nil`. -/
def tcpTransporter.Disconnected (t : tcpTransporter) : Prop := t.conn = none

/-- The method `tcpTransporter.connect` (tcpclient.go:192-202). -/
def tcpTransporter.connect (dial : Res Conn) (toyopuc : tcpTransporter) : Step Unit :=
  match toyopuc.conn with
  | none =>
    match dial with
    | .ok conn => ⟨{ toyopuc with conn := some conn }, [.Dial], .ok ()⟩
    | .err e => ⟨toyopuc, [.Dial], .err e⟩
    | .panic => ⟨toyopuc, [.Dial], .panic⟩
  | some _ => ⟨toyopuc, [], .ok ()⟩

/-- The method `tcpTransporter.Connect` (tcpclient.go:185-190): `connect`
under the mutex. -/
def tcpTransporter.Connect (dial : Res Conn) (toyopuc : tcpTransporter) : Step Unit :=
  toyopuc.connect dial

/-- The method `tcpTransporter.close` (tcpclient.go:246-252). -/
def tcpTransporter.close (toyopuc : tcpTransporter) : Step Unit :=
  match toyopuc.conn with
  | some conn =>
    ⟨{ toyopuc with conn := none }, [.Close conn.handle],
      match conn.closeErr with
      | some e => .err e
      | none => .ok ()⟩
  | none => ⟨toyopuc, [], .ok ()⟩

/-- The method `tcpTransporter.Close` (tcpclient.go:216-221): `close` under
the mutex. -/
def tcpTransporter.Close (toyopuc : tcpTransporter) : Step Unit :=
  toyopuc.close

/-- The method `tcpTransporter.startCloseTimer` (tcpclient.go:204-213):
`time.AfterFunc` on a `nil` timer and `Reset` on an existing one both arm it
for `IdleTimeout`. -/
def tcpTransporter.startCloseTimer (toyopuc : tcpTransporter) : tcpTransporter :=
  if toyopuc.IdleTimeout ≤ 0 then toyopuc
  else
    match toyopuc.closeTimer with
    | none => { toyopuc with closeTimer := some toyopuc.IdleTimeout }
    | some _ => { toyopuc with closeTimer := some toyopuc.IdleTimeout }

/-- The call `io.ReadFull(conn, buf)` with `len(buf) = n`: the next `n` octets
of the peer. When fewer arrive it reads them and returns the error of the
`Read` that found no more, `io.ErrUnexpectedEOF` in place of `io.EOF` when at
least one octet was read. -/
def Conn.ReadFull (conn : Conn) (n : Nat) : Res (List Nat) × Conn :=
  if n ≤ conn.incoming.length then
    (.ok (conn.incoming.take n), { conn with incoming := conn.incoming.drop n })
  else
    (.err (if conn.incoming ≠ [] ∧ conn.readErr = EOF then ErrUnexpectedEOF else conn.readErr),
      { conn with incoming := [] })

/-- The method `tcpTransporter.flush` (tcpclient.go:225-237) on a buffer of
`n` octets: `SetReadDeadline(time.Now())`, then one `Read`. With the deadline
already reached the `Read` returns a timeout error at once, which `flush`
drops, and takes no octet: what is pending stays on the connection. -/
def Conn.flush (conn : Conn) (_n : Nat) : Conn :=
  conn

/-- The error of `Send` for a zero length field: format
"toyopuc: length in response header '%v' must not be zero". -/
def errLengthZero (length : Nat) : GoError :=
  .transport ("toyopuc: length in response header '" ++ toString length
    ++ "' must not be zero")

/-- The error of `Send` for a length field too large: format
"toyopuc: length in response header '%v' must not greater than '%v'" over the
length and `tcpMaxLength-tcpHeaderSize+1`. -/
def errLengthTooLarge (length : Nat) : GoError :=
  .transport ("toyopuc: length in response header '" ++ toString length
    ++ "' must not greater than '" ++ toString (tcpMaxLength - tcpHeaderSize + 1) ++ "'")

/-- The part of `tcpTransporter.Send` after the header is read
(tcpclient.go:159-180), on the receive buffer `data` (an array of
`tcpMaxLength` octets holding the header): the two checks on the declared
length, then `length += tcpHeaderSize`, the slice `data[tcpHeaderSize:length]`
(which panics when `length` exceeds the array), the read of the body into it,
and the result `data[:length]`. -/
def tcpTransporter.readBody (toyopuc : tcpTransporter) (conn : Conn) (data : List Nat)
    (events : List NetEvent) : Step (List Nat) :=
  match index data 2, index data 3 with
  | .ok b0, .ok b1 =>
    let length := Uint16 b0 b1
    if length ≤ 0 then
      ⟨{ toyopuc with conn := some (conn.flush data.length) }, events ++ [.Flush],
        .err (errLengthZero length)⟩
    else if length > tcpMaxLength - (tcpHeaderSize - 1) then
      ⟨{ toyopuc with conn := some (conn.flush data.length) }, events ++ [.Flush],
        .err (errLengthTooLarge length)⟩
    else
      let length := length + tcpHeaderSize
      if length > data.length then ⟨{ toyopuc with conn := some conn }, events, .panic⟩
      else
        match conn.ReadFull (length - tcpHeaderSize) with
        | (.ok body, conn) =>
          let data := data.take tcpHeaderSize ++ body ++ data.drop length
          ⟨{ toyopuc with conn := some conn },
            events ++ [.ReadFull (length - tcpHeaderSize)], .ok (data.take length)⟩
        | (.err e, conn) =>
          ⟨{ toyopuc with conn := some conn },
            events ++ [.ReadFull (length - tcpHeaderSize)], .err e⟩
        | (.panic, conn) =>
          ⟨{ toyopuc with conn := some conn },
            events ++ [.ReadFull (length - tcpHeaderSize)], .panic⟩
  | _, _ => ⟨{ toyopuc with conn := some conn }, events, .panic⟩

/-- The method `tcpTransporter.Send` (tcpclient.go:129-181) at time `now`. -/
def tcpTransporter.Send (now : Int) (dial : Res Conn) (toyopuc : tcpTransporter)
    (aduRequest : List Nat) : Step (List Nat) :=
  let c := toyopuc.connect dial
  match c.res with
  | .err e => ⟨c.state, c.events, .err e⟩
  | .panic => ⟨c.state, c.events, .panic⟩
  | .ok () =>
    let toyopuc : tcpTransporter := { c.state with lastActivity := now }
    let toyopuc : tcpTransporter := toyopuc.startCloseTimer
    let timeout : Option Int :=
      if toyopuc.Timeout > (0 : Int) then some (toyopuc.lastActivity + toyopuc.Timeout) else none
    match toyopuc.conn with
    | none => ⟨toyopuc, c.events, .panic⟩
    | some conn =>
      match conn.deadlineErr with
      | some e => ⟨toyopuc, c.events ++ [.SetDeadline timeout], .err e⟩
      | none =>
        match conn.writeErr with
        | some e => ⟨toyopuc, c.events ++ [.SetDeadline timeout, .Write aduRequest], .err e⟩
        | none =>
          let data := make tcpMaxLength
          match conn.ReadFull tcpHeaderSize with
          | (.err e, conn) =>
            ⟨{ toyopuc with conn := some conn },
              c.events ++ [.SetDeadline timeout, .Write aduRequest, .ReadFull tcpHeaderSize],
              .err e⟩
          | (.panic, conn) =>
            ⟨{ toyopuc with conn := some conn },
              c.events ++ [.SetDeadline timeout, .Write aduRequest, .ReadFull tcpHeaderSize],
              .panic⟩
          | (.ok header, conn) =>
            let data := header ++ data.drop tcpHeaderSize
            toyopuc.readBody conn data
              (c.events ++ [.SetDeadline timeout, .Write aduRequest, .ReadFull tcpHeaderSize])

/-- The transporter `NewTCPClientHandler` builds (tcpclient.go:31-39): not
connected, no timer, the default timeouts of 10 s and 60 s. -/
def NewTCPTransporter (address : String) : tcpTransporter :=
  { Address := address, Timeout := 10 * 1000000000, IdleTimeout := 60 * 1000000000,
    conn := none, closeTimer := none, lastActivity := 0 }

/-- A connection without failures whose peer delivers the octets `incoming`
and then closes the stream. -/
def peerConn (incoming : List Nat) : Conn :=
  { handle := 1, deadlineErr := none, writeErr := none, incoming := incoming,
    readErr := EOF, closeErr := none }

/-- The interface `Transporter` over a `tcpTransporter` in a given state, for
one call of `Send` at time `now`. -/
def tcpTransporter.toTransporter (now : Int) (dial : Res Conn) (toyopuc : tcpTransporter) :
    Transporter :=
  { Send := fun aduRequest => (toyopuc.Send now dial aduRequest).res }

/-- The state `Send` works on once connected (tcpclient.go:138-139): the
activity time recorded and the idle timer armed. -/
def tcpTransporter.touched (now : Int) (t : tcpTransporter) : tcpTransporter :=
  ({ t with lastActivity := now } : tcpTransporter).startCloseTimer

/-- A transporter with the default timeouts, connected to a peer that delivers
the octets `incoming`. -/
def connectedTransporter (incoming : List Nat) : tcpTransporter :=
  { NewTCPTransporter "plc:1025" with conn := some (peerConn incoming) }

/-! ## Stores made by the multipoint write builders

`dataBlockAVList` and `dataBlockAVByteList` once more, with every store to the
output buffer recorded: the buffer is carried together with the list of the
offsets stored to so far, in program order. `PutUint16` stores to two offsets,
an index assignment to one. -/

/-- A buffer together with the offsets stored to so far, in program order. -/
structure Traced where
  data : List Nat
  writes : List Nat
  deriving DecidableEq, Repr

/-- The Go call `binary.LittleEndian.PutUint16(b[off:], v)` with its two
stores, to `off` and to `off + 1`, recorded. -/
def tracedPutUint16 (b : Traced) (off v : Nat) : Res Traced :=
  (PutUint16 b.data off v).bind fun data =>
  .ok { data := data, writes := b.writes ++ [off, off + 1] }

/-- The Go statement `b[i] = v` with its store recorded. -/
def tracedSetIndex (b : Traced) (i v : Nat) : Res Traced :=
  (setIndex b.data i v).bind fun data => .ok { data := data, writes := b.writes ++ [i] }

/-- The function `dataBlockAVList` (client.go:597-604) with its stores
recorded. -/
def dataBlockAVListTraced (address value : List Nat) : Res Traced :=
  let data : Traced := { data := make (2 * value.length * 2), writes := [] }
  rangeLoop
    (fun i v data =>
      (tracedPutUint16 data (i * 4) v).bind fun data =>
      (index value i).bind fun vi =>
      tracedPutUint16 data (i * 4 + 2) vi)
    0 address data

/-- The function `dataBlockAVByteList` (client.go:608-615) with its stores
recorded. -/
def dataBlockAVByteListTraced (address : List Nat) (value : List Nat) : Res Traced :=
  let data : Traced := { data := make (3 * value.length), writes := [] }
  rangeLoop
    (fun i v data =>
      (tracedPutUint16 data (i * 3) v).bind fun data =>
      (index value i).bind fun vi =>
      tracedSetIndex data (i * 3 + 2) vi)
    0 address data

/-- A traced run stored to every octet of its output buffer exactly once: each
offset of the buffer occurs once among the stores, and no store is to an
offset outside the buffer. -/
def Traced.wroteEachOnce (r : Traced) : Prop :=
  (∀ k, k < r.data.length → r.writes.count k = 1) ∧ ∀ k ∈ r.writes, k < r.data.length

/-- The length field of a frame: the little-endian 16-bit value at offsets
2..3. -/
def lengthField (adu : List Nat) : Nat := Uint16 (adu.getD 2 0) (adu.getD 3 0)

end Toyopuc

namespace Toyopuc

/-! ## Frame codec: closed forms -/

theorem make_five_add (n : Nat) :
    make (tcpHeaderSize + 1 + n) = 0 :: 0 :: 0 :: 0 :: 0 :: List.replicate n 0 := by
  have h : tcpHeaderSize + 1 + n = n + 5 := by simp [tcpHeaderSize]; omega
  rw [h]; rfl

/-- Closed form of `Encode`: the five header octets, then the payload. -/
theorem Encode_eq (p : tcpPackager) (pdu : ProtocolDataUnit) :
    p.Encode pdu = .ok (p.RequestFT :: 0 :: (pdu.Data.length + 1) % 65536 % 256
      :: (pdu.Data.length + 1) % 65536 / 256 % 256 :: pdu.FunctionCode :: pdu.Data) := by
  unfold tcpPackager.Encode
  rw [make_five_add]
  simp [setIndex, PutUint16, copy, Res.bind, tcpHeaderSize]
  omega

/-- Closed form of `Decode` on a frame of at least 5 octets. -/
theorem Decode_cons (p : tcpPackager) (b0 b1 b2 b3 b4 : Nat) (rest : List Nat) :
    p.Decode (b0 :: b1 :: b2 :: b3 :: b4 :: rest)
      = .ok { FunctionCode := b4, Data := rest, Response := b1 } := by
  cases rest <;> simp [tcpPackager.Decode, index, Res.bind, tcpHeaderSize]

theorem exists_cons_four {l : List Nat} (h : 4 ≤ l.length) :
    ∃ a b c d r, l = a :: b :: c :: d :: r := by
  match l, h with
  | a :: b :: c :: d :: r, _ => exact ⟨a, b, c, d, r, rfl⟩

theorem exists_cons_five {l : List Nat} (h : 5 ≤ l.length) :
    ∃ a b c d e r, l = a :: b :: c :: d :: e :: r := by
  match l, h with
  | a :: b :: c :: d :: e :: r, _ => exact ⟨a, b, c, d, e, r, rfl⟩

/-- The method `Decode` has no error result. -/
theorem Decode_ne_err (p : tcpPackager) (adu : List Nat) (e : GoError) :
    p.Decode adu ≠ .err e := by
  cases h4 : adu[4]? <;> cases h1 : adu[1]? <;>
    simp [tcpPackager.Decode, index, Res.bind, h4, h1]

/-- Closed form of `Verify` on a response of at least 4 octets. -/
theorem Verify_cons (p : tcpPackager) (req : List Nat) (ft st lo hi : Nat) (body : List Nat) :
    p.Verify req (ft :: st :: lo :: hi :: body)
      = if ft ≠ p.ResponseFTByte then .err .ftError
        else if lo + 256 * hi ≠ body.length then .err .lengthError else .ok () := by
  simp [tcpPackager.Verify, index, Res.bind, Uint16, tcpHeaderSize]

/-! ## Buffer writes and the payload builders: closed forms -/

theorem set_append_cons {α : Type} (pre post : List α) (x v : α) :
    (pre ++ x :: post).set pre.length v = pre ++ v :: post := by
  induction pre with
  | nil => rfl
  | cons a pre ih => simp [ih]

theorem setIndex_append {α : Type} (pre post : List α) (x v : α) (off : Nat)
    (h : off = pre.length) :
    setIndex (pre ++ x :: post) off v = .ok (pre ++ v :: post) := by
  subst h
  unfold setIndex
  rw [if_pos (by simp), set_append_cons]

theorem PutUint16_append (pre post : List Nat) (x y off v : Nat) (h : off = pre.length) :
    PutUint16 (pre ++ x :: y :: post) off v = .ok (pre ++ v % 256 :: v / 256 % 256 :: post) := by
  subst h
  have h1 : (pre ++ x :: y :: post).set pre.length (v % 256) = pre ++ v % 256 :: y :: post :=
    set_append_cons pre (y :: post) x _
  have h2 : (pre ++ v % 256 :: y :: post).set (pre.length + 1) (v / 256 % 256)
      = pre ++ v % 256 :: v / 256 % 256 :: post := by
    simp
  unfold PutUint16
  rw [if_pos (by simp), h1, h2]

theorem index_append_cons (pre post : List Nat) (x i : Nat) (h : i = pre.length) :
    index (pre ++ x :: post) i = .ok x := by
  subst h
  have hx : (pre ++ x :: post)[pre.length]? = some x := by
    induction pre with
    | nil => simp
    | cons a pre ih => simpa using ih
  simp [index, hx]

theorem setIndex_zero {α : Type} (x v : α) (post : List α) :
    setIndex (x :: post) 0 v = .ok (v :: post) := by
  simp [setIndex]

theorem PutUint16_zero (x y v : Nat) (post : List Nat) :
    PutUint16 (x :: y :: post) 0 v = .ok (v % 256 :: v / 256 % 256 :: post) := by
  simp [PutUint16]

theorem PutUint16_one (a x y v : Nat) (post : List Nat) :
    PutUint16 (a :: x :: y :: post) 1 v = .ok (a :: v % 256 :: v / 256 % 256 :: post) := by
  simp [PutUint16]

theorem copy_full (dst src : List Nat) (off : Nat) (h : dst.length = off + src.length) :
    copy dst off src = .ok (dst.take off ++ src) := by
  unfold copy
  rw [if_pos (by omega)]
  have h1 : dst.length - off = src.length := by omega
  have h2 : List.drop (off + src.length) dst = [] := by
    rw [List.drop_eq_nil_iff]; omega
  simp [h1, h2]

theorem length_leWords (vs : List Nat) : (leWords vs).length = 2 * vs.length := by
  induction vs with
  | nil => rfl
  | cons v vs ih => simp [leWords, ih]; omega

theorem exists_cons_of_length_succ {α : Type} {l : List α} {n : Nat} (h : l.length = n + 1) :
    ∃ x r, l = x :: r ∧ r.length = n := by
  cases l with
  | nil => simp at h
  | cons x r => exact ⟨x, r, rfl, by simpa using h⟩

/-- The loop `for i, v := range vs { PutUint16(d[i*2+c:], v) }` fills the part
of the buffer after the first `i*2+c` octets with the words of `vs`. -/
theorem wordLoop_eq (c : Nat) (vs : List Nat) : ∀ (i : Nat) (pre post : List Nat),
    pre.length = i * 2 + c → post.length = 2 * vs.length →
    rangeLoop (fun i v d => PutUint16 d (i * 2 + c) v) i vs (pre ++ post)
      = .ok (pre ++ leWords vs) := by
  induction vs with
  | nil =>
    intro i pre post _ hpost
    have : post = [] := List.length_eq_zero.mp (by simpa using hpost)
    subst this
    simp [rangeLoop, leWords]
  | cons v vs ih =>
    intro i pre post hpre hpost
    obtain ⟨x, post1, rfl, h1⟩ :=
      exists_cons_of_length_succ (l := post) (n := 2 * vs.length + 1)
        (by simp at hpost; omega)
    obtain ⟨y, post2, rfl, h2⟩ := exists_cons_of_length_succ h1
    unfold rangeLoop
    rw [PutUint16_append pre post2 x y _ v hpre.symm]
    have key := ih (i + 1) (pre ++ [v % 256, v / 256 % 256]) post2
      (by simp; omega) h2
    simpa [leWords] using key

theorem make_length (n : Nat) : (make n).length = n := by simp [make]

theorem make_succ (n : Nat) : make (n + 1) = 0 :: make n := by
  simp [make, List.replicate_succ]

/-- Closed form of `dataBlock`: it never panics. -/
theorem dataBlock_eq (value : List Nat) : dataBlock value = .ok (leWords value) := by
  have key := wordLoop_eq 0 value 0 [] (make (2 * value.length)) (by simp) (make_length _)
  simpa [dataBlock] using key

/-- Closed form of `dataBlockList`: it never panics. -/
theorem dataBlockList_eq (value : List Nat) : dataBlockList value = .ok (leWords value) := by
  have key := wordLoop_eq 0 value 0 [] (make (2 * value.length)) (by simp) (make_length _)
  simpa [dataBlockList] using key

/-- Closed form of `dataBlockSuffix`: it never panics. -/
theorem dataBlockSuffix_eq (suffix : List Nat) (address : Nat) :
    dataBlockSuffix suffix address
      = .ok (address % 256 :: address / 256 % 256 :: leWords suffix) := by
  have key := wordLoop_eq 0 suffix 0 [] (make (2 * suffix.length)) (by simp) (make_length _)
  have key1 : rangeLoop (fun k v suffixList => PutUint16 suffixList (k * 2) v) 0 suffix
      (make (2 * suffix.length)) = .ok (leWords suffix) := by simpa using key
  have hm : make (2 + suffix.length * 2) = 0 :: 0 :: make (suffix.length * 2) := by
    rw [show 2 + suffix.length * 2 = suffix.length * 2 + 1 + 1 by omega, make_succ, make_succ]
  unfold dataBlockSuffix
  simp only []
  rw [hm, PutUint16_zero, key1]
  simp only [Res.bind]
  rw [copy_full _ _ _ (by simp [make_length, length_leWords]; omega)]
  simp

/-- Closed form of `dataBlockSuffixByte`: it never panics. -/
theorem dataBlockSuffixByte_eq (suffix : List Nat) (address : Nat) :
    dataBlockSuffixByte suffix address = .ok (address % 256 :: address / 256 % 256 :: suffix) := by
  have hm : make (2 + suffix.length) = 0 :: 0 :: make suffix.length := by
    rw [show 2 + suffix.length = suffix.length + 1 + 1 by omega, make_succ, make_succ]
  unfold dataBlockSuffixByte
  simp only []
  rw [hm, PutUint16_zero]
  simp only [Res.bind]
  rw [copy_full _ _ _ (by simp [make_length]; omega)]
  simp

/-- Closed form of `dataBlockSuffixBit`: it never panics. -/
theorem dataBlockSuffixBit_eq (suffix address : Nat) :
    dataBlockSuffixBit suffix address = .ok [address % 256, address / 256 % 256, suffix] := by
  simp [dataBlockSuffixBit, make, List.replicate, PutUint16, setIndex, Res.bind]

/-- Closed form of `dataBlockExpansion`: it never panics. -/
theorem dataBlockExpansion_eq (no : Nat) (value : List Nat) :
    dataBlockExpansion no value = .ok (no :: leWords value) := by
  have key := wordLoop_eq 1 value 0 [no] (make (2 * value.length)) (by simp) (make_length _)
  unfold dataBlockExpansion
  simp only []
  rw [make_succ, setIndex_zero]
  simpa [Res.bind] using key

/-- Closed form of `dataBlockExpansionSuffix`: it never panics. -/
theorem dataBlockExpansionSuffix_eq (no : Nat) (suffix : List Nat) (address : Nat) :
    dataBlockExpansionSuffix no suffix address
      = .ok (no :: address % 256 :: address / 256 % 256 :: leWords suffix) := by
  have key := wordLoop_eq 0 suffix 0 [] (make (2 * suffix.length)) (by simp) (make_length _)
  have key1 : rangeLoop (fun k v suffixList => PutUint16 suffixList (k * 2) v) 0 suffix
      (make (2 * suffix.length)) = .ok (leWords suffix) := by simpa using key
  have hm : make (2 + suffix.length * 2 + 1) = 0 :: 0 :: 0 :: make (suffix.length * 2) := by
    rw [show 2 + suffix.length * 2 + 1 = suffix.length * 2 + 1 + 1 + 1 by omega,
      make_succ, make_succ, make_succ]
  unfold dataBlockExpansionSuffix
  simp only []
  rw [hm, setIndex_zero]
  simp only [Res.bind]
  rw [PutUint16_one, key1]
  simp only []
  rw [copy_full _ _ _ (by simp [make_length, length_leWords]; omega)]
  simp

/-- Closed form of `dataBlockExpansionSuffixByte`: it never panics. -/
theorem dataBlockExpansionSuffixByte_eq (no : Nat) (suffix : List Nat) (address : Nat) :
    dataBlockExpansionSuffixByte no suffix address
      = .ok (no :: address % 256 :: address / 256 % 256 :: suffix) := by
  have hm : make (2 + suffix.length + 1) = 0 :: 0 :: 0 :: make suffix.length := by
    rw [show 2 + suffix.length + 1 = suffix.length + 1 + 1 + 1 by omega,
      make_succ, make_succ, make_succ]
  unfold dataBlockExpansionSuffixByte
  simp only []
  rw [hm, setIndex_zero]
  simp only [Res.bind]
  rw [PutUint16_one]
  simp only []
  rw [copy_full _ _ _ (by simp [make_length]; omega)]
  simp

/-- The loop of `dataBlockAVList` on lists of equal length: from point `i` on,
it fills the buffer with the interleaved points. -/
theorem avLoop_eq (as : List Nat) : ∀ (vs : List Nat) (i : Nat) (vdone pre post : List Nat),
    as.length = vs.length → vdone.length = i → pre.length = i * 4 →
    post.length = 4 * as.length →
    rangeLoop
      (fun i v data =>
        (PutUint16 data (i * 4) v).bind fun data =>
        (index (vdone ++ vs) i).bind fun vi =>
        PutUint16 data (i * 4 + 2) vi)
      i as (pre ++ post)
      = .ok (pre ++ avWords as vs) := by
  induction as with
  | nil =>
    intro vs i vdone pre post _ _ _ hpost
    have : post = [] := List.length_eq_zero.mp (by simpa using hpost)
    subst this
    cases vs <;> simp [rangeLoop, avWords]
  | cons a as ih =>
    intro vs i vdone pre post hlen hdone hpre hpost
    obtain ⟨w, ws, rfl, hws⟩ := exists_cons_of_length_succ (l := vs) (n := as.length)
      (by simpa using hlen.symm)
    obtain ⟨x0, p1, rfl, h1⟩ := exists_cons_of_length_succ (l := post)
      (n := 4 * as.length + 3) (by simp at hpost; omega)
    obtain ⟨x1, p2, rfl, h2⟩ := exists_cons_of_length_succ (l := p1)
      (n := 4 * as.length + 2) h1
    obtain ⟨x2, p3, rfl, h3⟩ := exists_cons_of_length_succ (l := p2)
      (n := 4 * as.length + 1) h2
    obtain ⟨x3, p4, rfl, h4⟩ := exists_cons_of_length_succ (l := p3)
      (n := 4 * as.length) h3
    unfold rangeLoop
    rw [PutUint16_append pre (x2 :: x3 :: p4) x0 x1 _ a hpre.symm]
    simp only [Res.bind]
    rw [index_append_cons vdone ws w i hdone.symm]
    simp only []
    have e1 : pre ++ a % 256 :: a / 256 % 256 :: x2 :: x3 :: p4
        = (pre ++ [a % 256, a / 256 % 256]) ++ x2 :: x3 :: p4 := by simp
    rw [e1, PutUint16_append (pre ++ [a % 256, a / 256 % 256]) p4 x2 x3 _ w
      (by simp; omega)]
    simp only []
    have key := ih ws (i + 1) (vdone ++ [w])
      (pre ++ [a % 256, a / 256 % 256, w % 256, w / 256 % 256]) p4
      hws.symm (by simp; omega) (by simp; omega) h4
    simpa [avWords] using key

/-- The loop of `dataBlockAVByteList` on lists of equal length. -/
theorem avByteLoop_eq (as : List Nat) : ∀ (vs : List Nat) (i : Nat) (vdone pre post : List Nat),
    as.length = vs.length → vdone.length = i → pre.length = i * 3 →
    post.length = 3 * as.length →
    rangeLoop
      (fun i v data =>
        (PutUint16 data (i * 3) v).bind fun data =>
        (index (vdone ++ vs) i).bind fun vi =>
        setIndex data (i * 3 + 2) vi)
      i as (pre ++ post)
      = .ok (pre ++ avBytes as vs) := by
  induction as with
  | nil =>
    intro vs i vdone pre post _ _ _ hpost
    have : post = [] := List.length_eq_zero.mp (by simpa using hpost)
    subst this
    cases vs <;> simp [rangeLoop, avBytes]
  | cons a as ih =>
    intro vs i vdone pre post hlen hdone hpre hpost
    obtain ⟨w, ws, rfl, hws⟩ := exists_cons_of_length_succ (l := vs) (n := as.length)
      (by simpa using hlen.symm)
    obtain ⟨x0, p1, rfl, h1⟩ := exists_cons_of_length_succ (l := post)
      (n := 3 * as.length + 2) (by simp at hpost; omega)
    obtain ⟨x1, p2, rfl, h2⟩ := exists_cons_of_length_succ (l := p1)
      (n := 3 * as.length + 1) h1
    obtain ⟨x2, p3, rfl, h3⟩ := exists_cons_of_length_succ (l := p2)
      (n := 3 * as.length) h2
    unfold rangeLoop
    rw [PutUint16_append pre (x2 :: p3) x0 x1 _ a hpre.symm]
    simp only [Res.bind]
    rw [index_append_cons vdone ws w i hdone.symm]
    simp only []
    have e1 : pre ++ a % 256 :: a / 256 % 256 :: x2 :: p3
        = (pre ++ [a % 256, a / 256 % 256]) ++ x2 :: p3 := by simp
    rw [e1, setIndex_append (pre ++ [a % 256, a / 256 % 256]) p3 x2 w _ (by simp; omega)]
    simp only []
    have key := ih ws (i + 1) (vdone ++ [w])
      (pre ++ [a % 256, a / 256 % 256, w]) p3
      hws.symm (by simp; omega) (by simp; omega) h3
    simpa [avBytes] using key

/-- Closed form of `dataBlockAVList` on lists of equal length: no panic. -/
theorem dataBlockAVList_eq (address value : List Nat) (h : address.length = value.length) :
    dataBlockAVList address value = .ok (avWords address value) := by
  have key := avLoop_eq address value 0 [] [] (make (2 * value.length * 2)) h rfl rfl
    (by rw [make_length]; omega)
  simpa [dataBlockAVList] using key

/-- Closed form of `dataBlockAVByteList` on lists of equal length: no panic. -/
theorem dataBlockAVByteList_eq (address value : List Nat) (h : address.length = value.length) :
    dataBlockAVByteList address value = .ok (avBytes address value) := by
  have key := avByteLoop_eq address value 0 [] [] (make (3 * value.length)) h rfl rfl
    (by rw [make_length]; omega)
  simpa [dataBlockAVByteList] using key

theorem copy_middle (pre mid post src : List Nat) (off : Nat) (hoff : off = pre.length)
    (hmid : mid.length = src.length) :
    copy (pre ++ mid ++ post) off src = .ok (pre ++ src ++ post) := by
  subst hoff
  unfold copy
  rw [if_pos (by simp)]
  have h1 : List.take pre.length (pre ++ mid ++ post) = pre := by
    rw [List.append_assoc, List.take_left]
  have h2 : List.take ((pre ++ mid ++ post).length - pre.length) src = src := by
    apply List.take_of_length_le
    simp; omega
  have h3 : List.drop (pre.length + src.length) (pre ++ mid ++ post) = post := by
    have : pre.length + src.length = (pre ++ mid).length := by simp [hmid]
    rw [this, List.drop_left]
  rw [h1, h2, h3]

theorem length_kindAddrs (no addr : List Nat) (h : no.length = addr.length) :
    (kindAddrs no addr).length = 3 * no.length := by
  induction no generalizing addr with
  | nil => cases addr <;> rfl
  | cons k ks ih =>
    cases addr with
    | nil => simp at h
    | cons a as =>
      simp only [kindAddrs, List.length_cons]
      rw [ih as (by simpa using h)]
      omega

/-- The loop of `multipointLoop` on a kind list no longer than its address
list: from point `k` on, it fills the buffer with the 3-octet entries. -/
theorem kindLoop_eq (ks : List Nat) : ∀ (as : List Nat) (k : Nat) (adone pre post : List Nat),
    ks.length ≤ as.length → adone.length = k → pre.length = k * 3 →
    post.length = 3 * ks.length →
    rangeLoop
      (fun k v buf =>
        (setIndex buf (k * 3) v).bind fun buf =>
        (index (adone ++ as) k).bind fun ak =>
        PutUint16 buf (k * 3 + 1) ak)
      k ks (pre ++ post)
      = .ok (pre ++ kindAddrs ks as) := by
  induction ks with
  | nil =>
    intro as k adone pre post _ _ _ hpost
    have : post = [] := List.length_eq_zero.mp (by simpa using hpost)
    subst this
    simp [rangeLoop, kindAddrs]
  | cons v ks ih =>
    intro as k adone pre post hlen hdone hpre hpost
    obtain ⟨a, as1, rfl⟩ : ∃ a as1, as = a :: as1 := by
      cases as with
      | nil => simp at hlen
      | cons a as1 => exact ⟨a, as1, rfl⟩
    obtain ⟨x0, p1, rfl, h1⟩ := exists_cons_of_length_succ (l := post)
      (n := 3 * ks.length + 2) (by simp at hpost; omega)
    obtain ⟨x1, p2, rfl, h2⟩ := exists_cons_of_length_succ (l := p1)
      (n := 3 * ks.length + 1) h1
    obtain ⟨x2, p3, rfl, h3⟩ := exists_cons_of_length_succ (l := p2)
      (n := 3 * ks.length) h2
    unfold rangeLoop
    rw [setIndex_append pre (x1 :: x2 :: p3) x0 v _ hpre.symm]
    simp only [Res.bind]
    rw [index_append_cons adone as1 a k hdone.symm]
    simp only []
    have e1 : pre ++ v :: x1 :: x2 :: p3 = (pre ++ [v]) ++ x1 :: x2 :: p3 := by simp
    rw [e1, PutUint16_append (pre ++ [v]) p3 x1 x2 _ a (by simp; omega)]
    simp only []
    have key := ih as1 (k + 1) (adone ++ [a]) (pre ++ [v, a % 256, a / 256 % 256]) p3
      (by simpa using hlen) (by simp; omega) (by simp; omega) h3
    simpa [kindAddrs] using key

/-- Closed form of `multipointLoop` on a kind list no longer than its address
list: no panic. -/
theorem multipointLoop_eq (no addr : List Nat) (h : no.length ≤ addr.length) :
    multipointLoop no addr = .ok (kindAddrs no addr) := by
  have key := kindLoop_eq no addr 0 [] [] (make (3 * no.length)) h rfl rfl (make_length _)
  simpa [multipointLoop] using key

theorem make_add (m n : Nat) : make (m + n) = make m ++ make n := by
  unfold make
  exact List.replicate_add m n 0

/-- Closed form of `dataBlockExpansionSuffixMultipoint` when every kind list
is as long as its address list: the three count octets, then the bit, byte and
word entries. -/
theorem dataBlockExpansionSuffixMultipoint_eq (numBit numByte numWord : Nat)
    (bitNo bitAddr bytesNo bytesAddr wordNo wordAddr : List Nat)
    (hb : bitNo.length = bitAddr.length) (hy : bytesNo.length = bytesAddr.length)
    (hw : wordNo.length = wordAddr.length) :
    dataBlockExpansionSuffixMultipoint numBit numByte numWord bitNo bitAddr bytesNo bytesAddr
        wordNo wordAddr
      = .ok ([numBit, numByte, numWord] ++ kindAddrs bitNo bitAddr
          ++ kindAddrs bytesNo bytesAddr ++ kindAddrs wordNo wordAddr) := by
  have hm : make (3 + bitNo.length + 2 * bitAddr.length + bytesNo.length
      + 2 * bytesAddr.length + wordNo.length + 2 * wordAddr.length)
      = 0 :: 0 :: 0 :: (make (3 * bitNo.length) ++ (make (3 * bytesNo.length)
          ++ make (3 * wordNo.length))) := by
    rw [show 3 + bitNo.length + 2 * bitAddr.length + bytesNo.length
      + 2 * bytesAddr.length + wordNo.length + 2 * wordAddr.length
      = (3 * bitNo.length + 3 * bytesNo.length + 3 * wordNo.length) + 1 + 1 + 1 by omega,
      make_succ, make_succ, make_succ, make_add, make_add, List.append_assoc]
  unfold dataBlockExpansionSuffixMultipoint
  simp only []
  rw [hm, setIndex_zero]
  simp only [Res.bind]
  rw [show setIndex (numBit :: 0 :: 0 :: (make (3 * bitNo.length)
      ++ (make (3 * bytesNo.length) ++ make (3 * wordNo.length)))) 1 numByte
      = .ok (numBit :: numByte :: 0 :: (make (3 * bitNo.length)
      ++ (make (3 * bytesNo.length) ++ make (3 * wordNo.length)))) by simp [setIndex]]
  simp only []
  rw [show setIndex (numBit :: numByte :: 0 :: (make (3 * bitNo.length)
      ++ (make (3 * bytesNo.length) ++ make (3 * wordNo.length)))) 2 numWord
      = .ok (numBit :: numByte :: numWord :: (make (3 * bitNo.length)
      ++ (make (3 * bytesNo.length) ++ make (3 * wordNo.length)))) by simp [setIndex]]
  simp only []
  rw [multipointLoop_eq bitNo bitAddr hb.le, multipointLoop_eq bytesNo bytesAddr hy.le,
    multipointLoop_eq wordNo wordAddr hw.le]
  simp only []
  have c1 := copy_middle [numBit, numByte, numWord] (make (3 * bitNo.length))
    (make (3 * bytesNo.length) ++ make (3 * wordNo.length)) (kindAddrs bitNo bitAddr) 3 rfl
    (by rw [make_length, length_kindAddrs _ _ hb])
  have c2 := copy_middle ([numBit, numByte, numWord] ++ kindAddrs bitNo bitAddr)
    (make (3 * bytesNo.length)) (make (3 * wordNo.length)) (kindAddrs bytesNo bytesAddr)
    (3 + (kindAddrs bitNo bitAddr).length) (by simp; omega)
    (by rw [make_length, length_kindAddrs _ _ hy])
  have c3 := copy_middle ([numBit, numByte, numWord] ++ kindAddrs bitNo bitAddr
      ++ kindAddrs bytesNo bytesAddr)
    (make (3 * wordNo.length)) [] (kindAddrs wordNo wordAddr)
    (3 + (kindAddrs bitNo bitAddr).length + (kindAddrs bytesNo bytesAddr).length)
    (by simp; omega) (by rw [make_length, length_kindAddrs _ _ hw])
  simp only [List.append_assoc, List.cons_append, List.nil_append, List.append_nil] at c1 c2 c3
  rw [c1]
  simp only []
  rw [c2]
  simp only []
  rw [c3]
  simp

/-! ## Client: acceptance and rejection -/

/-- Every `send` starts with a call of `Encode` on the request. -/
theorem send_calls_cons (c : client) (request : ProtocolDataUnit) :
    ∃ rest, (c.send request).calls = Call.Encode request :: rest := by
  unfold client.send
  repeat' split
  all_goals exact ⟨_, rfl⟩

/-- Once the payload is built, the call is handed to `send`. -/
theorem request_calls {α : Type} (c : client) (fc : Nat) (data : List Nat)
    (after : ProtocolDataUnit → Res α) :
    (c.request fc (.ok data) after).calls
      = (c.send { FunctionCode := fc, Data := data, Response := 0 }).calls := by
  unfold client.request
  simp only []
  split <;> rfl

theorem request_accepted {α : Type} (c : client) (fc : Nat) (data : List Nat)
    (after : ProtocolDataUnit → Res α) :
    (c.request fc (.ok data) after).accepted := by
  obtain ⟨rest, h⟩ := send_calls_cons c { FunctionCode := fc, Data := data, Response := 0 }
  exact ⟨_, rest, by rw [request_calls, h]⟩

theorem not_rejected_of_accepted {α : Type} {r : Run α} (h : r.accepted) : ¬ r.rejected := by
  obtain ⟨pdu, rest, hc⟩ := h
  rintro ⟨hnil, _⟩
  rw [hc] at hnil
  exact List.cons_ne_nil _ _ hnil

theorem rejected_mk {α : Type} (e : GoError) : (⟨[], .err e⟩ : Run α).rejected :=
  ⟨rfl, e, rfl⟩

/-- A rejected call made no `Encode` and no `Send` call. -/
theorem rejected_counts {α : Type} {r : Run α} (h : r.rejected) :
    encodeCount r.calls = 0 ∧ sendCount r.calls = 0 := by
  rw [h.1]
  exact ⟨rfl, rfl⟩

/-- An accepted call made at least one `Encode` call. -/
theorem accepted_encodeCount {α : Type} {r : Run α} (h : r.accepted) :
    1 ≤ encodeCount r.calls := by
  obtain ⟨pdu, rest, hc⟩ := h
  rw [hc]
  simp [encodeCount, List.filter_cons]

/-- The shape of every quantity check, `if bad { return err }` before the
request is built and sent: the call is accepted exactly when the check passes. -/
theorem guard_accepted {α : Type} (c : client) (bad : Prop) [Decidable bad] (e : GoError)
    (fc : Nat) (data : List Nat) (after : ProtocolDataUnit → Res α) :
    (if bad then (⟨[], .err e⟩ : Run α) else c.request fc (.ok data) after).accepted
      ↔ ¬ bad := by
  by_cases hb : bad
  · simp only [hb, if_true, not_true_eq_false, iff_false]
    exact fun h => not_rejected_of_accepted h (rejected_mk e)
  · simp only [hb, if_false, not_false_eq_true, iff_true]
    exact request_accepted c fc data after

/-- The shape of every quantity check: the call is rejected exactly when the
check fails. -/
theorem guard_rejected {α : Type} (c : client) (bad : Prop) [Decidable bad] (e : GoError)
    (fc : Nat) (data : List Nat) (after : ProtocolDataUnit → Res α) :
    (if bad then (⟨[], .err e⟩ : Run α) else c.request fc (.ok data) after).rejected
      ↔ bad := by
  by_cases hb : bad
  · simp only [hb, if_true, iff_true]
    exact rejected_mk e
  · simp only [hb, if_false, iff_false]
    exact not_rejected_of_accepted (request_accepted c fc data after)

/-- The shape of every quantity check, `if bad { return err }` ahead of the
payload builder and `send`: the call is governed by the negation of `bad`. -/
theorem guard_checkedBy {α : Type} (c : client) (bad : Prop) [Decidable bad] (e : GoError)
    (fc : Nat) (data : List Nat) (after : ProtocolDataUnit → Res α) (ok : Prop)
    (h : ¬ bad ↔ ok) :
    (if bad then (⟨[], .err e⟩ : Run α) else c.request fc (.ok data) after).checkedBy ok := by
  unfold Run.checkedBy
  rw [guard_accepted, guard_rejected]
  exact ⟨h, by rw [← h, not_not]⟩

theorem ReadSequentialProgramWord_checks (c : client) (address quantity : Nat) :
    (c.ReadSequentialProgramWord address quantity).checkedBy
      (1 ≤ quantity ∧ quantity ≤ 0x200) := by
  unfold client.ReadSequentialProgramWord
  rw [dataBlock_eq]
  exact guard_checkedBy _ _ _ _ _ _ _ (by constructor <;> intro h <;> omega)

theorem WriteSequentialProgramWord_checks (c : client) (address : Nat) (value : List Nat) :
    (c.WriteSequentialProgramWord address value).checkedBy
      (1 ≤ value.length ∧ value.length ≤ 0x200) := by
  unfold client.WriteSequentialProgramWord
  simp only []
  rw [dataBlockSuffix_eq]
  exact guard_checkedBy _ _ _ _ _ _ _ (by constructor <;> intro h <;> omega)

theorem ReadIOWord_checks (c : client) (address quantity : Nat) :
    (c.ReadIOWord address quantity).checkedBy
      (1 ≤ quantity ∧ quantity ≤ 0x200) := by
  unfold client.ReadIOWord
  rw [dataBlock_eq]
  exact guard_checkedBy _ _ _ _ _ _ _ (by constructor <;> intro h <;> omega)

theorem WriteIOWord_checks (c : client) (address : Nat) (value : List Nat) :
    (c.WriteIOWord address value).checkedBy
      (1 ≤ value.length ∧ value.length ≤ 0x200) := by
  unfold client.WriteIOWord
  simp only []
  rw [dataBlockSuffix_eq]
  exact guard_checkedBy _ _ _ _ _ _ _ (by constructor <;> intro h <;> omega)

theorem ReadIOByte_checks (c : client) (address quantity : Nat) :
    (c.ReadIOByte address quantity).checkedBy
      (1 ≤ quantity ∧ quantity ≤ 0x200) := by
  unfold client.ReadIOByte
  rw [dataBlock_eq]
  exact guard_checkedBy _ _ _ _ _ _ _ (by constructor <;> intro h <;> omega)

theorem WriteIOByte_checks (c : client) (address : Nat) (value : List Nat) :
    (c.WriteIOByte address value).checkedBy
      (1 ≤ value.length ∧ value.length ≤ 0x200) := by
  unfold client.WriteIOByte
  simp only []
  rw [dataBlockSuffixByte_eq]
  exact guard_checkedBy _ _ _ _ _ _ _ (by constructor <;> intro h <;> omega)

theorem ReadProgramExpansionWord_checks (c : client) (no address quantity : Nat) :
    (c.ReadProgramExpansionWord no address quantity).checkedBy
      (1 ≤ quantity ∧ quantity ≤ 0x200) := by
  unfold client.ReadProgramExpansionWord
  rw [dataBlockExpansion_eq]
  exact guard_checkedBy _ _ _ _ _ _ _ (by constructor <;> intro h <;> omega)

theorem WriteProgramExpansionWord_checks (c : client) (no address : Nat) (value : List Nat) :
    (c.WriteProgramExpansionWord no address value).checkedBy
      (1 ≤ value.length ∧ value.length ≤ 0x200) := by
  unfold client.WriteProgramExpansionWord
  simp only []
  rw [dataBlockExpansionSuffix_eq]
  exact guard_checkedBy _ _ _ _ _ _ _ (by constructor <;> intro h <;> omega)

theorem ReadDataExpansionWord_checks (c : client) (no address quantity : Nat) :
    (c.ReadDataExpansionWord no address quantity).checkedBy
      (1 ≤ quantity ∧ quantity ≤ 0x200) := by
  unfold client.ReadDataExpansionWord
  rw [dataBlockExpansion_eq]
  exact guard_checkedBy _ _ _ _ _ _ _ (by constructor <;> intro h <;> omega)

theorem WriteDataExpansionWord_checks (c : client) (no address : Nat) (value : List Nat) :
    (c.WriteDataExpansionWord no address value).checkedBy
      (1 ≤ value.length ∧ value.length ≤ 0x200) := by
  unfold client.WriteDataExpansionWord
  simp only []
  rw [dataBlockExpansionSuffix_eq]
  exact guard_checkedBy _ _ _ _ _ _ _ (by constructor <;> intro h <;> omega)

theorem ReadDataExpansionByte_checks (c : client) (no address quantity : Nat) :
    (c.ReadDataExpansionByte no address quantity).checkedBy
      (1 ≤ quantity ∧ quantity ≤ 0x400) := by
  unfold client.ReadDataExpansionByte
  rw [dataBlockExpansion_eq]
  exact guard_checkedBy _ _ _ _ _ _ _ (by constructor <;> intro h <;> omega)

theorem WriteDataExpansionByte_checks (c : client) (no address : Nat) (value : List Nat) :
    (c.WriteDataExpansionByte no address value).checkedBy
      (1 ≤ value.length ∧ value.length ≤ 0x400) := by
  unfold client.WriteDataExpansionByte
  simp only []
  rw [dataBlockExpansionSuffixByte_eq]
  exact guard_checkedBy _ _ _ _ _ _ _ (by constructor <;> intro h <;> omega)

theorem ReadIOMultipointWord_checks (c : client) (address : List Nat) :
    (c.ReadIOMultipointWord address).checkedBy
      (1 ≤ address.length ∧ address.length ≤ 0x80) := by
  unfold client.ReadIOMultipointWord
  simp only []
  rw [dataBlockList_eq]
  exact guard_checkedBy _ _ _ _ _ _ _ (by constructor <;> intro h <;> omega)

theorem ReadIOMultipointByte_checks (c : client) (address : List Nat) :
    (c.ReadIOMultipointByte address).checkedBy
      (1 ≤ address.length ∧ address.length ≤ 0x80) := by
  unfold client.ReadIOMultipointByte
  simp only []
  rw [dataBlockList_eq]
  exact guard_checkedBy _ _ _ _ _ _ _ (by constructor <;> intro h <;> omega)

theorem ReadIOMultipointBit_checks (c : client) (address : List Nat) :
    (c.ReadIOMultipointBit address).checkedBy
      (1 ≤ address.length ∧ address.length ≤ 0x80) := by
  unfold client.ReadIOMultipointBit
  simp only []
  rw [dataBlockList_eq]
  exact guard_checkedBy _ _ _ _ _ _ _ (by constructor <;> intro h <;> omega)

theorem WriteIOMultipointWord_checks (c : client) (address value : List Nat) :
    (c.WriteIOMultipointWord address value).checkedBy
      (address.length = value.length ∧ 1 ≤ address.length ∧ address.length ≤ 0x80) := by
  unfold client.WriteIOMultipointWord
  simp only []
  by_cases h : address.length = value.length
  · rw [if_neg (not_not.mpr h), dataBlockAVList_eq _ _ h]
    exact guard_checkedBy _ _ _ _ _ _ _ (by constructor <;> intro h1 <;> omega)
  · rw [if_pos h]
    exact ⟨⟨fun ha => absurd (rejected_mk _) (not_rejected_of_accepted ha),
      fun hh => absurd hh.1 h⟩, ⟨fun _ hh => h hh.1, fun _ => rejected_mk _⟩⟩

theorem WriteIOMultipointWord_mismatch (c : client) (address value : List Nat)
    (h : address.length ≠ value.length) :
    c.WriteIOMultipointWord address value
      = ⟨[], .err (.quantityMismatch address.length value.length)⟩ := by
  unfold client.WriteIOMultipointWord
  simp only []
  rw [if_pos h]

theorem WriteIOMultipointByte_checks (c : client) (address value : List Nat) :
    (c.WriteIOMultipointByte address value).checkedBy
      (address.length = value.length ∧ 1 ≤ address.length ∧ address.length ≤ 0x80) := by
  unfold client.WriteIOMultipointByte
  simp only []
  by_cases h : address.length = value.length
  · rw [if_neg (not_not.mpr h), dataBlockAVByteList_eq _ _ h]
    exact guard_checkedBy _ _ _ _ _ _ _ (by constructor <;> intro h1 <;> omega)
  · rw [if_pos h]
    exact ⟨⟨fun ha => absurd (rejected_mk _) (not_rejected_of_accepted ha),
      fun hh => absurd hh.1 h⟩, ⟨fun _ hh => h hh.1, fun _ => rejected_mk _⟩⟩

theorem WriteIOMultipointByte_mismatch (c : client) (address value : List Nat)
    (h : address.length ≠ value.length) :
    c.WriteIOMultipointByte address value
      = ⟨[], .err (.quantityMismatch address.length value.length)⟩ := by
  unfold client.WriteIOMultipointByte
  simp only []
  rw [if_pos h]

theorem WriteIOMultipointBit_checks (c : client) (address value : List Nat) :
    (c.WriteIOMultipointBit address value).checkedBy
      (address.length = value.length ∧ 1 ≤ address.length ∧ address.length ≤ 0x80) := by
  unfold client.WriteIOMultipointBit
  simp only []
  by_cases h : address.length = value.length
  · rw [if_neg (not_not.mpr h), dataBlockAVByteList_eq _ _ h]
    exact guard_checkedBy _ _ _ _ _ _ _ (by constructor <;> intro h1 <;> omega)
  · rw [if_pos h]
    exact ⟨⟨fun ha => absurd (rejected_mk _) (not_rejected_of_accepted ha),
      fun hh => absurd hh.1 h⟩, ⟨fun _ hh => h hh.1, fun _ => rejected_mk _⟩⟩

theorem WriteIOMultipointBit_mismatch (c : client) (address value : List Nat)
    (h : address.length ≠ value.length) :
    c.WriteIOMultipointBit address value
      = ⟨[], .err (.quantityMismatch address.length value.length)⟩ := by
  unfold client.WriteIOMultipointBit
  simp only []
  rw [if_pos h]

/-- A call turned down by a check failed before `Encode`. -/
theorem failedBeforeEncode_of_rejected {α : Type} {r : Run α} (h : r.rejected) :
    r.failedBeforeEncode :=
  ⟨h.2, rejected_counts h⟩

/-- The method `ReadDataExpansionMultipoint` turns a call down when one of its two checks,
on the counts as the code computes them (modulo 256), fails. -/
theorem ReadDataExpansionMultipoint_rejected (c : client) (numBit numByte numWord : Nat)
    (bitNo bitAddr bytesNo bytesAddr wordNo wordAddr : List Nat)
    (h : ((numBit + numByte) % 256 + numWord) % 256 < 1
      ∨ ((numBit + numByte) % 256 + numWord) % 256 > 176
      ∨ ((numBit / 8 + numByte) % 256 + numWord * 2 % 256) % 256 < 1
      ∨ ((numBit / 8 + numByte) % 256 + numWord * 2 % 256) % 256 > 128) :
    (c.ReadDataExpansionMultipoint numBit numByte numWord bitNo bitAddr bytesNo bytesAddr
      wordNo wordAddr).rejected := by
  unfold client.ReadDataExpansionMultipoint
  simp only []
  split
  · exact rejected_mk _
  · split
    · exact rejected_mk _
    · omega

/-- On 8-bit counts whose sums do not wrap, the two checks of
`ReadDataExpansionMultipoint` are the checks on the natural-number totals. -/
theorem ReadDataExpansionMultipoint_rejected_nat (c : client) (numBit numByte numWord : Nat)
    (bitNo bitAddr bytesNo bytesAddr wordNo wordAddr : List Nat)
    (h : numBit + numByte + numWord < 1
      ∨ (176 < numBit + numByte + numWord ∧ numBit + numByte + numWord < 256)
      ∨ numBit / 8 + numByte + 2 * numWord < 1
      ∨ (128 < numBit / 8 + numByte + 2 * numWord
          ∧ numBit / 8 + numByte + 2 * numWord < 256)) :
    (c.ReadDataExpansionMultipoint numBit numByte numWord bitNo bitAddr bytesNo bytesAddr
      wordNo wordAddr).rejected := by
  apply ReadDataExpansionMultipoint_rejected
  omega

/-! ### The payload builders return no error -/

theorem setIndex_ne_err {α : Type} (b : List α) (i : Nat) (v : α) (e : GoError) :
    setIndex b i v ≠ .err e := by
  unfold setIndex
  split <;> simp

theorem index_ne_err (b : List Nat) (i : Nat) (e : GoError) : index b i ≠ .err e := by
  unfold index
  split <;> simp

theorem PutUint16_ne_err (b : List Nat) (off v : Nat) (e : GoError) :
    PutUint16 b off v ≠ .err e := by
  unfold PutUint16
  split <;> simp

theorem copy_ne_err (dst : List Nat) (off : Nat) (src : List Nat) (e : GoError) :
    copy dst off src ≠ .err e := by
  unfold copy
  split <;> simp

theorem bind_ne_err {α β : Type} (r : Res α) (f : α → Res β) (e : GoError)
    (hr : r ≠ .err e) (hf : ∀ a, f a ≠ .err e) : r.bind f ≠ .err e := by
  cases r with
  | ok a => exact hf a
  | err e1 =>
    intro h
    simp only [Res.bind, Res.err.injEq] at h
    exact hr (by rw [h])
  | panic => simp [Res.bind]

theorem rangeLoop_ne_err {α β : Type} (body : Nat → α → β → Res β) (e : GoError)
    (hbody : ∀ i v d, body i v d ≠ .err e) (xs : List α) :
    ∀ (i : Nat) (d : β), rangeLoop body i xs d ≠ .err e := by
  induction xs with
  | nil => intro i d; simp [rangeLoop]
  | cons x xs ih =>
    intro i d
    unfold rangeLoop
    cases hb : body i x d with
    | ok d1 => exact ih (i + 1) d1
    | err e1 =>
      intro h
      simp only [Res.err.injEq] at h
      exact hbody i x d (by rw [hb, h])
    | panic => simp

theorem multipointLoop_ne_err (no addr : List Nat) (e : GoError) :
    multipointLoop no addr ≠ .err e := by
  unfold multipointLoop
  apply rangeLoop_ne_err
  intro k v buf
  exact bind_ne_err _ _ e (setIndex_ne_err _ _ _ e) fun _ =>
    bind_ne_err _ _ e (index_ne_err _ _ e) fun _ => PutUint16_ne_err _ _ _ e

theorem dataBlockExpansionSuffixMultipoint_ne_err (numBit numByte numWord : Nat)
    (bitNo bitAddr bytesNo bytesAddr wordNo wordAddr : List Nat) (e : GoError) :
    dataBlockExpansionSuffixMultipoint numBit numByte numWord bitNo bitAddr bytesNo bytesAddr
      wordNo wordAddr ≠ .err e := by
  unfold dataBlockExpansionSuffixMultipoint
  exact bind_ne_err _ _ e (setIndex_ne_err _ _ _ e) fun _ =>
    bind_ne_err _ _ e (setIndex_ne_err _ _ _ e) fun _ =>
    bind_ne_err _ _ e (setIndex_ne_err _ _ _ e) fun _ =>
    bind_ne_err _ _ e (multipointLoop_ne_err _ _ e) fun _ =>
    bind_ne_err _ _ e (multipointLoop_ne_err _ _ e) fun _ =>
    bind_ne_err _ _ e (multipointLoop_ne_err _ _ e) fun _ =>
    bind_ne_err _ _ e (copy_ne_err _ _ _ e) fun _ =>
    bind_ne_err _ _ e (copy_ne_err _ _ _ e) fun _ =>
    bind_ne_err _ _ e (copy_ne_err _ _ _ e) fun _ => by simp

/-- A call that got as far as building its payload is not a rejected call:
either the builder panics, or the command reaches `Encode`. -/
theorem request_not_rejected {α : Type} (c : client) (fc : Nat) (Data : Res (List Nat))
    (after : ProtocolDataUnit → Res α) (h : ∀ e, Data ≠ .err e) :
    ¬ (c.request fc Data after).rejected := by
  cases Data with
  | ok data => exact not_rejected_of_accepted (request_accepted c fc data after)
  | err e => exact absurd rfl (h e)
  | panic =>
    rintro ⟨_, e, he⟩
    simp [client.request] at he

/-- The method `ReadDataExpansionMultipoint` turns a call down exactly when one of its two
checks, on the counts as the code computes them (modulo 256), fails. -/
theorem ReadDataExpansionMultipoint_rejected_iff (c : client) (numBit numByte numWord : Nat)
    (bitNo bitAddr bytesNo bytesAddr wordNo wordAddr : List Nat) :
    (c.ReadDataExpansionMultipoint numBit numByte numWord bitNo bitAddr bytesNo bytesAddr
      wordNo wordAddr).rejected
    ↔ (((numBit + numByte) % 256 + numWord) % 256 < 1
      ∨ ((numBit + numByte) % 256 + numWord) % 256 > 176
      ∨ ((numBit / 8 + numByte) % 256 + numWord * 2 % 256) % 256 < 1
      ∨ ((numBit / 8 + numByte) % 256 + numWord * 2 % 256) % 256 > 128) := by
  constructor
  · intro hr
    by_contra hbad
    apply request_not_rejected c FunDataExpansionReadMultipoint
      (dataBlockExpansionSuffixMultipoint numBit numByte numWord bitNo bitAddr bytesNo
        bytesAddr wordNo wordAddr) (fun response => Res.ok response.Data)
      (fun e => dataBlockExpansionSuffixMultipoint_ne_err _ _ _ _ _ _ _ _ _ e)
    unfold client.ReadDataExpansionMultipoint at hr
    simp only [] at hr
    rw [if_neg (by omega), if_neg (by omega)] at hr
    exact hr
  · exact ReadDataExpansionMultipoint_rejected c _ _ _ _ _ _ _ _ _

/-- The method `ReadDataExpansionMultipoint` with every kind list as long as its address
list is accepted exactly when both checks, on the counts modulo 256, pass. -/
theorem ReadDataExpansionMultipoint_accepted_iff (c : client) (numBit numByte numWord : Nat)
    (bitNo bitAddr bytesNo bytesAddr wordNo wordAddr : List Nat)
    (hb : bitNo.length = bitAddr.length) (hy : bytesNo.length = bytesAddr.length)
    (hw : wordNo.length = wordAddr.length) :
    (c.ReadDataExpansionMultipoint numBit numByte numWord bitNo bitAddr bytesNo bytesAddr
      wordNo wordAddr).accepted
    ↔ ((1 ≤ ((numBit + numByte) % 256 + numWord) % 256
        ∧ ((numBit + numByte) % 256 + numWord) % 256 ≤ 176)
      ∧ 1 ≤ ((numBit / 8 + numByte) % 256 + numWord * 2 % 256) % 256
      ∧ ((numBit / 8 + numByte) % 256 + numWord * 2 % 256) % 256 ≤ 128) := by
  constructor
  · intro ha
    by_contra hbad
    exact not_rejected_of_accepted ha
      (ReadDataExpansionMultipoint_rejected c _ _ _ _ _ _ _ _ _ (by omega))
  · intro h
    unfold client.ReadDataExpansionMultipoint
    simp only []
    rw [if_neg (by omega), if_neg (by omega),
      dataBlockExpansionSuffixMultipoint_eq _ _ _ _ _ _ _ _ _ hb hy hw]
    exact request_accepted c _ _ _

/-- With no points listed, the multipoint payload is the three count octets. -/
theorem dataBlockExpansionSuffixMultipoint_nil (numBit numByte numWord : Nat) :
    dataBlockExpansionSuffixMultipoint numBit numByte numWord [] [] [] [] [] []
      = .ok [numBit, numByte, numWord] := by
  simp [dataBlockExpansionSuffixMultipoint, multipointLoop, rangeLoop, make, setIndex, copy,
    Res.bind, List.replicate]

/-- The builder of the multipoint write, run on 3 addresses and 2 values,
panics: a call that returns an error on this input did not run it. -/
theorem dataBlockAVList_three_two :
    dataBlockAVList [1, 2, 3] [10, 20] = .panic
    ∧ dataBlockAVByteList [1, 2, 3] [10, 20] = .panic := by
  constructor <;> decide

/-! ## Frame codec: the claims -/

/-- C1: for every command whose payload has at most 65534 octets, `Encode`
returns no error and a frame of exactly 5 + len(payload) octets:
the request marker, 0x00, the low and the high byte of 1 + len(payload), the
operation code, then the payload verbatim; the two length octets read back,
little-endian, as 1 + len(payload). -/
theorem C1_encode_frame (p : tcpPackager) (operationCode : Nat) (payload : List Nat)
    (response : Nat) (h : payload.length ≤ 65534) :
    p.Encode { FunctionCode := operationCode, Data := payload, Response := response }
      = .ok ([p.RequestFT, 0x00, (1 + payload.length) % 256, (1 + payload.length) / 256,
          operationCode] ++ payload)
    ∧ ([p.RequestFT, 0x00, (1 + payload.length) % 256, (1 + payload.length) / 256,
          operationCode] ++ payload).length = 5 + payload.length
    ∧ (1 + payload.length) / 256 < 256
    ∧ Uint16 ((1 + payload.length) % 256) ((1 + payload.length) / 256) = 1 + payload.length := by
  refine ⟨?_, ?_, ?_, ?_⟩
  · rw [Encode_eq]
    have h1 : (payload.length + 1) % 65536 = 1 + payload.length := by omega
    have h2 : (1 + payload.length) / 256 % 256 = (1 + payload.length) / 256 := by omega
    simp [h1, h2]
  · simp; omega
  · omega
  · unfold Uint16; omega

/-- C1 at the word-read command of the end-to-end scenario. -/
theorem C1_encode_frame_witness :
    defaultPackager.Encode { FunctionCode := 0x18, Data := [1, 0, 3, 0], Response := 0 }
      = .ok ([defaultPackager.RequestFT, 0x00, (1 + [1, 0, 3, 0].length) % 256,
          (1 + [1, 0, 3, 0].length) / 256, 0x18] ++ [1, 0, 3, 0])
    ∧ ([defaultPackager.RequestFT, 0x00, (1 + [1, 0, 3, 0].length) % 256,
          (1 + [1, 0, 3, 0].length) / 256, 0x18] ++ [1, 0, 3, 0]).length
        = 5 + [1, 0, 3, 0].length
    ∧ (1 + [1, 0, 3, 0].length) / 256 < 256
    ∧ Uint16 ((1 + [1, 0, 3, 0].length) % 256) ((1 + [1, 0, 3, 0].length) / 256)
        = 1 + [1, 0, 3, 0].length :=
  C1_encode_frame defaultPackager 0x18 [1, 0, 3, 0] 0 (by decide)

/-- C2: `Decode` undoes `Encode`: for every command with at most 65534 payload
octets, encoding succeeds and decoding the frame succeeds with the same
operation code, the same payload octet for octet (the empty payload for an
empty one) and status byte 0. -/
theorem C2_decode_encode (p : tcpPackager) (operationCode : Nat) (payload : List Nat)
    (response : Nat) (h : payload.length ≤ 65534) :
    ∃ adu, p.Encode { FunctionCode := operationCode, Data := payload, Response := response }
        = .ok adu
      ∧ p.Decode adu = .ok { FunctionCode := operationCode, Data := payload, Response := 0 } := by
  have _ := h
  exact ⟨_, Encode_eq p _, Decode_cons p _ _ _ _ _ _⟩

/-- C2 at a command with the empty payload. -/
theorem C2_decode_encode_witness :
    ∃ adu, defaultPackager.Encode { FunctionCode := 0x20, Data := [], Response := 0 } = .ok adu
      ∧ defaultPackager.Decode adu = .ok { FunctionCode := 0x20, Data := [], Response := 0 } :=
  C2_decode_encode defaultPackager 0x20 [] 0 (by decide)

/-- C3: for every frame of at least 5 octets `Decode` succeeds; the operation
code is the octet at offset 4, the status byte the octet at offset 1, the
payload the octets from offset 5 to the end, which is the empty payload when
the frame has exactly 5 octets. -/
theorem C3_decode_fields (p : tcpPackager) (adu : List Nat) (h : 5 ≤ adu.length) :
    ∃ pdu, p.Decode adu = .ok pdu
      ∧ adu[4]? = some pdu.FunctionCode
      ∧ adu[1]? = some pdu.Response
      ∧ pdu.Data = adu.drop 5
      ∧ (adu.length = 5 → pdu.Data = []) := by
  obtain ⟨a, b, c, d, e, r, rfl⟩ := exists_cons_five h
  refine ⟨_, Decode_cons p a b c d e r, by simp, by simp, by simp, ?_⟩
  intro h5
  simpa using h5

/-- C3 at the 5-octet frame 80 41 01 00 21. -/
theorem C3_decode_fields_witness :
    ∃ pdu, defaultPackager.Decode [0x80, 0x41, 0x01, 0x00, 0x21] = .ok pdu
      ∧ [0x80, 0x41, 0x01, 0x00, 0x21][4]? = some pdu.FunctionCode
      ∧ [0x80, 0x41, 0x01, 0x00, 0x21][1]? = some pdu.Response
      ∧ pdu.Data = [0x80, 0x41, 0x01, 0x00, 0x21].drop 5
      ∧ ([0x80, 0x41, 0x01, 0x00, 0x21].length = 5 → pdu.Data = []) :=
  C3_decode_fields defaultPackager [0x80, 0x41, 0x01, 0x00, 0x21] (by decide)

/-- C5: for every request frame and every response frame of at least 4
octets, `Verify` returns no error if and only if octet 0 of the response is
the configured response marker and the little-endian 16-bit value at offsets
2..3 equals the number of octets after the 4-octet header. A wrong marker is
rejected (FT error) whatever the length field, and with the right marker a
wrong length is rejected (length error). -/
theorem C5_verify_iff (p : tcpPackager) (aduRequest aduResponse : List Nat)
    (h : 4 ≤ aduResponse.length) :
    (p.Verify aduRequest aduResponse = .ok ()
      ↔ aduResponse[0]? = some p.ResponseFTByte
        ∧ aduResponse.getD 2 0 + 256 * aduResponse.getD 3 0 = aduResponse.length - 4)
    ∧ (aduResponse[0]? ≠ some p.ResponseFTByte
        → p.Verify aduRequest aduResponse = .err .ftError)
    ∧ (aduResponse[0]? = some p.ResponseFTByte
        → aduResponse.getD 2 0 + 256 * aduResponse.getD 3 0 ≠ aduResponse.length - 4
        → p.Verify aduRequest aduResponse = .err .lengthError) := by
  obtain ⟨ft, st, lo, hi, body, rfl⟩ := exists_cons_four h
  rw [Verify_cons]
  by_cases hft : ft = p.ResponseFTByte
  · by_cases hlen : lo + 256 * hi = body.length
    · simp [hft, hlen]
    · simp [hft, hlen]
  · simp [hft]

/-- C5 at the response 80 00 07 00 18 00 AA BB CC DD: right marker, length
field 7, six octets after the header. -/
theorem C5_verify_iff_witness :
    (defaultPackager.Verify [] [0x80, 0x00, 0x07, 0x00, 0x18, 0x00, 0xAA, 0xBB, 0xCC, 0xDD]
        = .ok ()
      ↔ [0x80, 0x00, 0x07, 0x00, 0x18, 0x00, 0xAA, 0xBB, 0xCC, 0xDD][0]?
          = some defaultPackager.ResponseFTByte
        ∧ [0x80, 0x00, 0x07, 0x00, 0x18, 0x00, 0xAA, 0xBB, 0xCC, 0xDD].getD 2 0
            + 256 * [0x80, 0x00, 0x07, 0x00, 0x18, 0x00, 0xAA, 0xBB, 0xCC, 0xDD].getD 3 0
          = [0x80, 0x00, 0x07, 0x00, 0x18, 0x00, 0xAA, 0xBB, 0xCC, 0xDD].length - 4)
    ∧ ([0x80, 0x00, 0x07, 0x00, 0x18, 0x00, 0xAA, 0xBB, 0xCC, 0xDD][0]?
          ≠ some defaultPackager.ResponseFTByte
        → defaultPackager.Verify [] [0x80, 0x00, 0x07, 0x00, 0x18, 0x00, 0xAA, 0xBB, 0xCC, 0xDD]
          = .err .ftError)
    ∧ ([0x80, 0x00, 0x07, 0x00, 0x18, 0x00, 0xAA, 0xBB, 0xCC, 0xDD][0]?
          = some defaultPackager.ResponseFTByte
        → [0x80, 0x00, 0x07, 0x00, 0x18, 0x00, 0xAA, 0xBB, 0xCC, 0xDD].getD 2 0
            + 256 * [0x80, 0x00, 0x07, 0x00, 0x18, 0x00, 0xAA, 0xBB, 0xCC, 0xDD].getD 3 0
          ≠ [0x80, 0x00, 0x07, 0x00, 0x18, 0x00, 0xAA, 0xBB, 0xCC, 0xDD].length - 4
        → defaultPackager.Verify [] [0x80, 0x00, 0x07, 0x00, 0x18, 0x00, 0xAA, 0xBB, 0xCC, 0xDD]
          = .err .lengthError) :=
  C5_verify_iff defaultPackager [] [0x80, 0x00, 0x07, 0x00, 0x18, 0x00, 0xAA, 0xBB, 0xCC, 0xDD]
    (by decide)

/-! ## Command catalog: the claims -/

/-- C6: every ranged operation passes its quantity check (goes on to encode
its command) if and only if 1 <= quantity <= U, and is turned down with an
error, before any packager or transporter call, if and only if the quantity is
outside that range; quantity is the argument `quantity` for a read and the
number of values for a write, U is 0x400 for `ReadDataExpansionByte` and
`WriteDataExpansionByte` and 0x200 for the ten other ranged operations. -/
theorem C6_ranged_validation (c : client) (no address quantity : Nat) (value : List Nat) :
    (c.ReadSequentialProgramWord address quantity).checkedBy
        (1 ≤ quantity ∧ quantity ≤ 0x200)
    ∧ (c.WriteSequentialProgramWord address value).checkedBy
        (1 ≤ value.length ∧ value.length ≤ 0x200)
    ∧ (c.ReadIOWord address quantity).checkedBy
        (1 ≤ quantity ∧ quantity ≤ 0x200)
    ∧ (c.WriteIOWord address value).checkedBy
        (1 ≤ value.length ∧ value.length ≤ 0x200)
    ∧ (c.ReadIOByte address quantity).checkedBy
        (1 ≤ quantity ∧ quantity ≤ 0x200)
    ∧ (c.WriteIOByte address value).checkedBy
        (1 ≤ value.length ∧ value.length ≤ 0x200)
    ∧ (c.ReadProgramExpansionWord no address quantity).checkedBy
        (1 ≤ quantity ∧ quantity ≤ 0x200)
    ∧ (c.WriteProgramExpansionWord no address value).checkedBy
        (1 ≤ value.length ∧ value.length ≤ 0x200)
    ∧ (c.ReadDataExpansionWord no address quantity).checkedBy
        (1 ≤ quantity ∧ quantity ≤ 0x200)
    ∧ (c.WriteDataExpansionWord no address value).checkedBy
        (1 ≤ value.length ∧ value.length ≤ 0x200)
    ∧ (c.ReadDataExpansionByte no address quantity).checkedBy
        (1 ≤ quantity ∧ quantity ≤ 0x400)
    ∧ (c.WriteDataExpansionByte no address value).checkedBy
        (1 ≤ value.length ∧ value.length ≤ 0x400) :=
  ⟨ReadSequentialProgramWord_checks c address quantity,
   WriteSequentialProgramWord_checks c address value,
   ReadIOWord_checks c address quantity,
   WriteIOWord_checks c address value,
   ReadIOByte_checks c address quantity,
   WriteIOByte_checks c address value,
   ReadProgramExpansionWord_checks c no address quantity,
   WriteProgramExpansionWord_checks c no address value,
   ReadDataExpansionWord_checks c no address quantity,
   WriteDataExpansionWord_checks c no address value,
   ReadDataExpansionByte_checks c no address quantity,
   WriteDataExpansionByte_checks c no address value⟩

/-- C7: for every address list, `ReadIOMultipointWord`, `ReadIOMultipointByte`
and `ReadIOMultipointBit` pass validation if and only if
1 <= len(address) <= 0x80; for every address list and value list,
`WriteIOMultipointWord`, `WriteIOMultipointByte` and `WriteIOMultipointBit`
pass validation if and only if len(address) = len(value) and
1 <= len(address) <= 0x80. A call that does not pass is turned down with an
error before any packager or transporter call. -/
theorem C7_multipoint_validation (c : client) (address value : List Nat) :
    (c.ReadIOMultipointWord address).checkedBy
        (1 ≤ address.length ∧ address.length ≤ 0x80)
    ∧ (c.ReadIOMultipointByte address).checkedBy
        (1 ≤ address.length ∧ address.length ≤ 0x80)
    ∧ (c.ReadIOMultipointBit address).checkedBy
        (1 ≤ address.length ∧ address.length ≤ 0x80)
    ∧ (c.WriteIOMultipointWord address value).checkedBy
        (address.length = value.length ∧ 1 ≤ address.length ∧ address.length ≤ 0x80)
    ∧ (c.WriteIOMultipointByte address value).checkedBy
        (address.length = value.length ∧ 1 ≤ address.length ∧ address.length ≤ 0x80)
    ∧ (c.WriteIOMultipointBit address value).checkedBy
        (address.length = value.length ∧ 1 ≤ address.length ∧ address.length ≤ 0x80) :=
  ⟨ReadIOMultipointWord_checks c address,
   ReadIOMultipointByte_checks c address,
   ReadIOMultipointBit_checks c address,
   WriteIOMultipointWord_checks c address value,
   WriteIOMultipointByte_checks c address value,
   WriteIOMultipointBit_checks c address value⟩

/-- C8: every multipoint write (word, byte or bit) whose address list and
value list differ in length returns the count-mismatch error, with no call on
the packager (`Encode`) or the transporter (`Send`): the check is the first
statement of the operation, ahead of the payload builder. -/
theorem C8_mismatch_rejected (c : client) (address value : List Nat)
    (h : address.length ≠ value.length) :
    ((c.WriteIOMultipointWord address value).res
        = .err (.quantityMismatch address.length value.length)
      ∧ (c.WriteIOMultipointWord address value).calls = [])
    ∧ ((c.WriteIOMultipointByte address value).res
        = .err (.quantityMismatch address.length value.length)
      ∧ (c.WriteIOMultipointByte address value).calls = [])
    ∧ ((c.WriteIOMultipointBit address value).res
        = .err (.quantityMismatch address.length value.length)
      ∧ (c.WriteIOMultipointBit address value).calls = []) := by
  rw [WriteIOMultipointWord_mismatch c address value h,
    WriteIOMultipointByte_mismatch c address value h,
    WriteIOMultipointBit_mismatch c address value h]
  exact ⟨⟨rfl, rfl⟩, ⟨rfl, rfl⟩, ⟨rfl, rfl⟩⟩

/-- C8 at 3 addresses and 2 values. -/
theorem C8_mismatch_rejected_witness :
    (((stubClient []).WriteIOMultipointWord [1, 2, 3] [10, 20]).res
        = .err (.quantityMismatch [1, 2, 3].length [10, 20].length)
      ∧ ((stubClient []).WriteIOMultipointWord [1, 2, 3] [10, 20]).calls = [])
    ∧ (((stubClient []).WriteIOMultipointByte [1, 2, 3] [10, 20]).res
        = .err (.quantityMismatch [1, 2, 3].length [10, 20].length)
      ∧ ((stubClient []).WriteIOMultipointByte [1, 2, 3] [10, 20]).calls = [])
    ∧ (((stubClient []).WriteIOMultipointBit [1, 2, 3] [10, 20]).res
        = .err (.quantityMismatch [1, 2, 3].length [10, 20].length)
      ∧ ((stubClient []).WriteIOMultipointBit [1, 2, 3] [10, 20]).calls = []) :=
  C8_mismatch_rejected (stubClient []) [1, 2, 3] [10, 20] (by decide)

/-- C9 fails on the code at numBit = 0, numByte = 0, numWord = 129 (no points
listed): the payload octets, as a natural number, are 258, outside [1,128],
yet the call passes both checks and goes on to encode and send the payload
00 00 81, because the code computes `dataQuantity` in 8-bit arithmetic
(258 mod 256 = 2). -/
theorem C9_multipoint_check_wraps (c : client) :
    ¬ (1 ≤ 0 / 8 + 0 + 2 * 129 ∧ 0 / 8 + 0 + 2 * 129 ≤ 128)
    ∧ (c.ReadDataExpansionMultipoint 0 0 129 [] [] [] [] [] []).accepted
    ∧ ¬ (c.ReadDataExpansionMultipoint 0 0 129 [] [] [] [] [] []).rejected
    ∧ (c.ReadDataExpansionMultipoint 0 0 129 [] [] [] [] [] []).calls
        = (c.send { FunctionCode := 0x98, Data := [0, 0, 129], Response := 0 }).calls := by
  have hacc : (c.ReadDataExpansionMultipoint 0 0 129 [] [] [] [] [] []).calls
      = (c.send { FunctionCode := 0x98, Data := [0, 0, 129], Response := 0 }).calls := by
    unfold client.ReadDataExpansionMultipoint
    simp only []
    rw [if_neg (by decide), if_neg (by decide), dataBlockExpansionSuffixMultipoint_nil,
      request_calls]
    rfl
  have ha : (c.ReadDataExpansionMultipoint 0 0 129 [] [] [] [] [] []).accepted := by
    obtain ⟨rest, hr⟩ := send_calls_cons c ⟨0x98, [0, 0, 129], 0⟩
    exact ⟨_, rest, hacc.trans hr⟩
  exact ⟨by decide, ha, not_rejected_of_accepted ha, hacc⟩

/-- C10: every operation with a quantity bound, on every input that its check
turns down (in particular a quantity one below the lower bound or one above
the upper bound), returns an error with zero calls of the packager's `Encode`
and zero calls of the transporter's `Send`. For `ReadDataExpansionMultipoint`
the inputs turned down are those failing a check on the counts as the code
computes them (modulo 256); they include every input whose element total is 0
or 177 and every input whose payload octet total is 0 or 129. -/
theorem C10_rejected_no_io (c : client) :
    (∀ address quantity : Nat,
        ¬ (1 ≤ quantity ∧ quantity ≤ 0x200)
        → (c.ReadSequentialProgramWord address quantity).failedBeforeEncode)
    ∧ (∀ (address : Nat) (value : List Nat),
        ¬ (1 ≤ value.length ∧ value.length ≤ 0x200)
        → (c.WriteSequentialProgramWord address value).failedBeforeEncode)
    ∧ (∀ address quantity : Nat,
        ¬ (1 ≤ quantity ∧ quantity ≤ 0x200)
        → (c.ReadIOWord address quantity).failedBeforeEncode)
    ∧ (∀ (address : Nat) (value : List Nat),
        ¬ (1 ≤ value.length ∧ value.length ≤ 0x200)
        → (c.WriteIOWord address value).failedBeforeEncode)
    ∧ (∀ address quantity : Nat,
        ¬ (1 ≤ quantity ∧ quantity ≤ 0x200)
        → (c.ReadIOByte address quantity).failedBeforeEncode)
    ∧ (∀ (address : Nat) (value : List Nat),
        ¬ (1 ≤ value.length ∧ value.length ≤ 0x200)
        → (c.WriteIOByte address value).failedBeforeEncode)
    ∧ (∀ no address quantity : Nat,
        ¬ (1 ≤ quantity ∧ quantity ≤ 0x200)
        → (c.ReadProgramExpansionWord no address quantity).failedBeforeEncode)
    ∧ (∀ (no address : Nat) (value : List Nat),
        ¬ (1 ≤ value.length ∧ value.length ≤ 0x200)
        → (c.WriteProgramExpansionWord no address value).failedBeforeEncode)
    ∧ (∀ no address quantity : Nat,
        ¬ (1 ≤ quantity ∧ quantity ≤ 0x200)
        → (c.ReadDataExpansionWord no address quantity).failedBeforeEncode)
    ∧ (∀ (no address : Nat) (value : List Nat),
        ¬ (1 ≤ value.length ∧ value.length ≤ 0x200)
        → (c.WriteDataExpansionWord no address value).failedBeforeEncode)
    ∧ (∀ no address quantity : Nat,
        ¬ (1 ≤ quantity ∧ quantity ≤ 0x400)
        → (c.ReadDataExpansionByte no address quantity).failedBeforeEncode)
    ∧ (∀ (no address : Nat) (value : List Nat),
        ¬ (1 ≤ value.length ∧ value.length ≤ 0x400)
        → (c.WriteDataExpansionByte no address value).failedBeforeEncode)
    ∧ (∀ address : List Nat, ¬ (1 ≤ address.length ∧ address.length ≤ 0x80)
        → (c.ReadIOMultipointWord address).failedBeforeEncode)
    ∧ (∀ address : List Nat, ¬ (1 ≤ address.length ∧ address.length ≤ 0x80)
        → (c.ReadIOMultipointByte address).failedBeforeEncode)
    ∧ (∀ address : List Nat, ¬ (1 ≤ address.length ∧ address.length ≤ 0x80)
        → (c.ReadIOMultipointBit address).failedBeforeEncode)
    ∧ (∀ address value : List Nat,
        ¬ (address.length = value.length ∧ 1 ≤ address.length ∧ address.length ≤ 0x80)
        → (c.WriteIOMultipointWord address value).failedBeforeEncode)
    ∧ (∀ address value : List Nat,
        ¬ (address.length = value.length ∧ 1 ≤ address.length ∧ address.length ≤ 0x80)
        → (c.WriteIOMultipointByte address value).failedBeforeEncode)
    ∧ (∀ address value : List Nat,
        ¬ (address.length = value.length ∧ 1 ≤ address.length ∧ address.length ≤ 0x80)
        → (c.WriteIOMultipointBit address value).failedBeforeEncode)
    ∧ (∀ (numBit numByte numWord : Nat)
        (bitNo bitAddr bytesNo bytesAddr wordNo wordAddr : List Nat),
        (((numBit + numByte) % 256 + numWord) % 256 < 1
          ∨ ((numBit + numByte) % 256 + numWord) % 256 > 176
          ∨ ((numBit / 8 + numByte) % 256 + numWord * 2 % 256) % 256 < 1
          ∨ ((numBit / 8 + numByte) % 256 + numWord * 2 % 256) % 256 > 128)
        → (c.ReadDataExpansionMultipoint numBit numByte numWord bitNo bitAddr bytesNo
            bytesAddr wordNo wordAddr).failedBeforeEncode)
    ∧ (∀ (numBit numByte numWord : Nat)
        (bitNo bitAddr bytesNo bytesAddr wordNo wordAddr : List Nat),
        (numBit + numByte + numWord = 0 ∨ numBit + numByte + numWord = 177
          ∨ numBit / 8 + numByte + 2 * numWord = 0
          ∨ numBit / 8 + numByte + 2 * numWord = 129)
        → (c.ReadDataExpansionMultipoint numBit numByte numWord bitNo bitAddr bytesNo
            bytesAddr wordNo wordAddr).failedBeforeEncode) :=
  ⟨fun address quantity h =>
     failedBeforeEncode_of_rejected ((ReadSequentialProgramWord_checks c address quantity).2.2 h),
   fun address value h =>
     failedBeforeEncode_of_rejected ((WriteSequentialProgramWord_checks c address value).2.2 h),
   fun address quantity h =>
     failedBeforeEncode_of_rejected ((ReadIOWord_checks c address quantity).2.2 h),
   fun address value h =>
     failedBeforeEncode_of_rejected ((WriteIOWord_checks c address value).2.2 h),
   fun address quantity h =>
     failedBeforeEncode_of_rejected ((ReadIOByte_checks c address quantity).2.2 h),
   fun address value h =>
     failedBeforeEncode_of_rejected ((WriteIOByte_checks c address value).2.2 h),
   fun no address quantity h =>
     failedBeforeEncode_of_rejected ((ReadProgramExpansionWord_checks c no address quantity).2.2 h),
   fun no address value h =>
     failedBeforeEncode_of_rejected ((WriteProgramExpansionWord_checks c no address value).2.2 h),
   fun no address quantity h =>
     failedBeforeEncode_of_rejected ((ReadDataExpansionWord_checks c no address quantity).2.2 h),
   fun no address value h =>
     failedBeforeEncode_of_rejected ((WriteDataExpansionWord_checks c no address value).2.2 h),
   fun no address quantity h =>
     failedBeforeEncode_of_rejected ((ReadDataExpansionByte_checks c no address quantity).2.2 h),
   fun no address value h =>
     failedBeforeEncode_of_rejected ((WriteDataExpansionByte_checks c no address value).2.2 h),
   fun address h =>
     failedBeforeEncode_of_rejected ((ReadIOMultipointWord_checks c address).2.2 h),
   fun address h =>
     failedBeforeEncode_of_rejected ((ReadIOMultipointByte_checks c address).2.2 h),
   fun address h =>
     failedBeforeEncode_of_rejected ((ReadIOMultipointBit_checks c address).2.2 h),
   fun address value h =>
     failedBeforeEncode_of_rejected ((WriteIOMultipointWord_checks c address value).2.2 h),
   fun address value h =>
     failedBeforeEncode_of_rejected ((WriteIOMultipointByte_checks c address value).2.2 h),
   fun address value h =>
     failedBeforeEncode_of_rejected ((WriteIOMultipointBit_checks c address value).2.2 h),
   fun numBit numByte numWord bitNo bitAddr bytesNo bytesAddr wordNo wordAddr h =>
     failedBeforeEncode_of_rejected (ReadDataExpansionMultipoint_rejected c numBit numByte
       numWord bitNo bitAddr bytesNo bytesAddr wordNo wordAddr h),
   fun numBit numByte numWord bitNo bitAddr bytesNo bytesAddr wordNo wordAddr h =>
     failedBeforeEncode_of_rejected (ReadDataExpansionMultipoint_rejected_nat c numBit numByte
       numWord bitNo bitAddr bytesNo bytesAddr wordNo wordAddr (by omega))⟩

/-- C10 on the stub client, at one below the lower bound and one above the
upper bound of every operation (and at 3 addresses with 2 values). -/
theorem C10_rejected_no_io_witness :
    ((stubClient []).ReadSequentialProgramWord 1 0).failedBeforeEncode
    ∧ ((stubClient []).ReadSequentialProgramWord
        1 0x201).failedBeforeEncode
    ∧ ((stubClient []).WriteSequentialProgramWord 1 []).failedBeforeEncode
    ∧ ((stubClient []).WriteSequentialProgramWord
        1 (List.replicate 0x201 0)).failedBeforeEncode
    ∧ ((stubClient []).ReadIOWord 1 0).failedBeforeEncode
    ∧ ((stubClient []).ReadIOWord
        1 0x201).failedBeforeEncode
    ∧ ((stubClient []).WriteIOWord 1 []).failedBeforeEncode
    ∧ ((stubClient []).WriteIOWord
        1 (List.replicate 0x201 0)).failedBeforeEncode
    ∧ ((stubClient []).ReadIOByte 1 0).failedBeforeEncode
    ∧ ((stubClient []).ReadIOByte
        1 0x201).failedBeforeEncode
    ∧ ((stubClient []).WriteIOByte 1 []).failedBeforeEncode
    ∧ ((stubClient []).WriteIOByte
        1 (List.replicate 0x201 0)).failedBeforeEncode
    ∧ ((stubClient []).ReadProgramExpansionWord 8 1 0).failedBeforeEncode
    ∧ ((stubClient []).ReadProgramExpansionWord
        8 1 0x201).failedBeforeEncode
    ∧ ((stubClient []).WriteProgramExpansionWord 8 1 []).failedBeforeEncode
    ∧ ((stubClient []).WriteProgramExpansionWord
        8 1 (List.replicate 0x201 0)).failedBeforeEncode
    ∧ ((stubClient []).ReadDataExpansionWord 8 1 0).failedBeforeEncode
    ∧ ((stubClient []).ReadDataExpansionWord
        8 1 0x201).failedBeforeEncode
    ∧ ((stubClient []).WriteDataExpansionWord 8 1 []).failedBeforeEncode
    ∧ ((stubClient []).WriteDataExpansionWord
        8 1 (List.replicate 0x201 0)).failedBeforeEncode
    ∧ ((stubClient []).ReadDataExpansionByte 8 1 0).failedBeforeEncode
    ∧ ((stubClient []).ReadDataExpansionByte
        8 1 0x401).failedBeforeEncode
    ∧ ((stubClient []).WriteDataExpansionByte 8 1 []).failedBeforeEncode
    ∧ ((stubClient []).WriteDataExpansionByte
        8 1 (List.replicate 0x401 0)).failedBeforeEncode
    ∧ ((stubClient []).ReadIOMultipointWord []).failedBeforeEncode
    ∧ ((stubClient []).ReadIOMultipointWord
        (List.replicate 0x81 0)).failedBeforeEncode
    ∧ ((stubClient []).ReadIOMultipointByte []).failedBeforeEncode
    ∧ ((stubClient []).ReadIOMultipointByte
        (List.replicate 0x81 0)).failedBeforeEncode
    ∧ ((stubClient []).ReadIOMultipointBit []).failedBeforeEncode
    ∧ ((stubClient []).ReadIOMultipointBit
        (List.replicate 0x81 0)).failedBeforeEncode
    ∧ ((stubClient []).WriteIOMultipointWord [] []).failedBeforeEncode
    ∧ ((stubClient []).WriteIOMultipointWord
        (List.replicate 0x81 0) (List.replicate 0x81 0)).failedBeforeEncode
    ∧ ((stubClient []).WriteIOMultipointWord [1, 2, 3] [10, 20]).failedBeforeEncode
    ∧ ((stubClient []).WriteIOMultipointByte [] []).failedBeforeEncode
    ∧ ((stubClient []).WriteIOMultipointByte
        (List.replicate 0x81 0) (List.replicate 0x81 0)).failedBeforeEncode
    ∧ ((stubClient []).WriteIOMultipointByte [1, 2, 3] [10, 20]).failedBeforeEncode
    ∧ ((stubClient []).WriteIOMultipointBit [] []).failedBeforeEncode
    ∧ ((stubClient []).WriteIOMultipointBit
        (List.replicate 0x81 0) (List.replicate 0x81 0)).failedBeforeEncode
    ∧ ((stubClient []).WriteIOMultipointBit [1, 2, 3] [10, 20]).failedBeforeEncode
    ∧ ((stubClient []).ReadDataExpansionMultipoint 0 0 0 [] [] [] [] [] []).failedBeforeEncode
    ∧ ((stubClient []).ReadDataExpansionMultipoint 0 177 0 [] [] [] [] [] []).failedBeforeEncode
    ∧ ((stubClient []).ReadDataExpansionMultipoint 1 0 0 [] [] [] [] [] []).failedBeforeEncode
    ∧ ((stubClient []).ReadDataExpansionMultipoint 0 129 0
        [] [] [] [] [] []).failedBeforeEncode := by
  obtain ⟨h1, h2, h3, h4, h5, h6, h7, h8, h9, h10,
    h11, h12, h13, h14, h15, h16, h17, h18, h19, h20⟩ :=
    C10_rejected_no_io (stubClient [])
  exact ⟨h1 1 0 (by decide),
   h1 1 0x201
     (by decide),
   h2 1 [] (by decide),
   h2 1 (List.replicate 0x201 0)
     (by simp only [List.length_replicate]; omega),
   h3 1 0 (by decide),
   h3 1 0x201
     (by decide),
   h4 1 [] (by decide),
   h4 1 (List.replicate 0x201 0)
     (by simp only [List.length_replicate]; omega),
   h5 1 0 (by decide),
   h5 1 0x201
     (by decide),
   h6 1 [] (by decide),
   h6 1 (List.replicate 0x201 0)
     (by simp only [List.length_replicate]; omega),
   h7 8 1 0 (by decide),
   h7 8 1 0x201
     (by decide),
   h8 8 1 [] (by decide),
   h8 8 1 (List.replicate 0x201 0)
     (by simp only [List.length_replicate]; omega),
   h9 8 1 0 (by decide),
   h9 8 1 0x201
     (by decide),
   h10 8 1 [] (by decide),
   h10 8 1 (List.replicate 0x201 0)
     (by simp only [List.length_replicate]; omega),
   h11 8 1 0 (by decide),
   h11 8 1 0x401
     (by decide),
   h12 8 1 [] (by decide),
   h12 8 1 (List.replicate 0x401 0)
     (by simp only [List.length_replicate]; omega),
   h13 [] (by decide),
   h13 (List.replicate 0x81 0)
     (by simp only [List.length_replicate]; omega),
   h14 [] (by decide),
   h14 (List.replicate 0x81 0)
     (by simp only [List.length_replicate]; omega),
   h15 [] (by decide),
   h15 (List.replicate 0x81 0)
     (by simp only [List.length_replicate]; omega),
   h16 [] [] (by decide),
   h16 (List.replicate 0x81 0) (List.replicate 0x81 0)
     (by simp only [List.length_replicate]; omega),
   h16 [1, 2, 3] [10, 20] (by decide),
   h17 [] [] (by decide),
   h17 (List.replicate 0x81 0) (List.replicate 0x81 0)
     (by simp only [List.length_replicate]; omega),
   h17 [1, 2, 3] [10, 20] (by decide),
   h18 [] [] (by decide),
   h18 (List.replicate 0x81 0) (List.replicate 0x81 0)
     (by simp only [List.length_replicate]; omega),
   h18 [1, 2, 3] [10, 20] (by decide),
   h19 0 0 0 [] [] [] [] [] [] (by decide),
   h19 0 177 0 [] [] [] [] [] [] (by decide),
   h20 1 0 0 [] [] [] [] [] [] (by decide),
   h20 0 129 0 [] [] [] [] [] [] (by decide)⟩

/-! ## The exchange: `send` over the TCP packager -/

/-- The run of `send` over a TCP packager once the transporter has answered:
`Verify` decides whether `Decode` is reached. -/
theorem send_tcp (p : tcpPackager) (t : Transporter) (request : ProtocolDataUnit)
    (adu resp : List Nat) (henc : p.Encode request = .ok adu) (hsend : t.Send adu = .ok resp) :
    (NewClient2 p.toPackager t).send request
      = match p.Verify adu resp with
        | .panic => ⟨[.Encode request, .Send adu, .Verify adu resp], .panic⟩
        | .err e => ⟨[.Encode request, .Send adu, .Verify adu resp], .err e⟩
        | .ok () =>
          match p.Decode resp with
          | .panic => ⟨[.Encode request, .Send adu, .Verify adu resp, .Decode resp], .panic⟩
          | .err e => ⟨[.Encode request, .Send adu, .Verify adu resp, .Decode resp], .err e⟩
          | .ok response =>
            ⟨[.Encode request, .Send adu, .Verify adu resp, .Decode resp],
              if response.Response ≠ 0x00 then .err (responseError response)
              else if response.FunctionCode ≠ request.FunctionCode then .err .functionCode
              else .ok response⟩ := by
  unfold client.send
  simp only [NewClient2, tcpPackager.toPackager, henc, hsend]
  cases hv : p.Verify adu resp with
  | panic => rfl
  | err e => rfl
  | ok u =>
    cases u
    simp only []
    cases hd : p.Decode resp with
    | panic => rfl
    | err e => rfl
    | ok response =>
      simp only []
      by_cases hr : response.Response = 0
      · by_cases hf : response.FunctionCode = request.FunctionCode
        · simp [hr, hf]
        · simp [hr, hf]
      · by_cases hf : response.FunctionCode = request.FunctionCode
        · simp [hr, hf]
        · simp [hr, hf]

/-- A response that `Verify` turns down ends `send` with the error of
`Verify`; `Decode` is not called. -/
theorem send_tcp_verify_err (p : tcpPackager) (t : Transporter) (request : ProtocolDataUnit)
    (adu resp : List Nat) (e : GoError) (henc : p.Encode request = .ok adu)
    (hsend : t.Send adu = .ok resp) (hver : p.Verify adu resp = .err e) :
    (NewClient2 p.toPackager t).send request
      = ⟨[.Encode request, .Send adu, .Verify adu resp], .err e⟩ := by
  rw [send_tcp p t request adu resp henc hsend, hver]

/-- A verified response of at least 5 octets: the outcome of `send` by status
byte `b1` and operation code `b4`. The status is looked at first. -/
theorem send_tcp_decoded (p : tcpPackager) (t : Transporter) (request : ProtocolDataUnit)
    (adu : List Nat) (b0 b1 b2 b3 b4 : Nat) (rest : List Nat)
    (henc : p.Encode request = .ok adu)
    (hsend : t.Send adu = .ok (b0 :: b1 :: b2 :: b3 :: b4 :: rest))
    (hver : p.Verify adu (b0 :: b1 :: b2 :: b3 :: b4 :: rest) = .ok ()) :
    ((NewClient2 p.toPackager t).send request).res
      = if b1 ≠ 0 then .err (.exception b4 b1)
        else if b4 ≠ request.FunctionCode then .err .functionCode
        else .ok { FunctionCode := b4, Data := rest, Response := b1 } := by
  rw [send_tcp p t request adu _ henc hsend, hver, Decode_cons]
  simp only [responseError]
  by_cases h1 : b1 = 0
  · simp [h1]
  · simp [h1]

/-- The call record of `send` over a TCP packager holds exactly one `Send`,
of the encoded request. -/
theorem send_tcp_sentFrames (p : tcpPackager) (t : Transporter) (request : ProtocolDataUnit)
    (adu : List Nat) (henc : p.Encode request = .ok adu) :
    sentFrames ((NewClient2 p.toPackager t).send request).calls = [adu] := by
  unfold client.send
  simp only [NewClient2, tcpPackager.toPackager, henc]
  cases hs : t.Send adu with
  | panic => rfl
  | err e => rfl
  | ok resp =>
    simp only []
    cases hv : p.Verify adu resp with
    | panic => rfl
    | err e => rfl
    | ok u =>
      cases u
      simp only []
      cases hd : p.Decode resp with
      | panic => rfl
      | err e => rfl
      | ok response =>
        simp only []
        split
        · rfl
        · split <;> rfl

/-- The outcome of the common tail of the operations, by the outcome of
`send`. -/
theorem request_res {α : Type} (c : client) (fc : Nat) (data : List Nat)
    (after : ProtocolDataUnit → Res α) :
    (c.request fc (.ok data) after).res
      = match (c.send { FunctionCode := fc, Data := data, Response := 0 }).res with
        | .panic => .panic
        | .err e => .err e
        | .ok response => after response := by
  unfold client.request
  simp only []
  split <;> simp_all

theorem exists_cons_five_of_getElem {l : List Nat} {x : Nat} (h : l[4]? = some x) :
    ∃ a b c d r, l = a :: b :: c :: d :: x :: r := by
  match l, h with
  | a :: b :: c :: d :: e :: r, h =>
    simp at h
    exact ⟨a, b, c, d, r, by rw [h]⟩

/-- The call record of `send` over a TCP packager starts with the `Encode` of
the request and the `Send` of the encoded request. -/
theorem send_tcp_calls (p : tcpPackager) (t : Transporter) (request : ProtocolDataUnit)
    (adu : List Nat) (henc : p.Encode request = .ok adu) :
    ∃ rest, ((NewClient2 p.toPackager t).send request).calls
      = .Encode request :: .Send adu :: rest := by
  unfold client.send
  simp only [NewClient2, tcpPackager.toPackager, henc]
  repeat' split
  all_goals exact ⟨_, rfl⟩

/-- The frame `Encode` builds with the default markers for a payload of four
octets. -/
theorem Encode_default_four (fc a b c d rc : Nat) :
    defaultPackager.Encode { FunctionCode := fc, Data := [a, b, c, d], Response := rc }
      = .ok [0x00, 0x00, 0x05, 0x00, fc, a, b, c, d] := by
  rw [Encode_eq]
  simp [defaultPackager, RequestFTByte]

/-- A structurally valid response passes `Verify`, whatever the request. -/
theorem Verify_of_structurallyValid (p : tcpPackager) (adu resp : List Nat)
    (h : StructurallyValid p resp) : p.Verify adu resp = .ok () := by
  obtain ⟨h0, h5, hlen⟩ := h
  obtain ⟨a, b, c, d, e, r, rfl⟩ := exists_cons_five h5
  rw [Verify_cons]
  simp at h0 hlen
  simp [h0, hlen]

/-- The outcome of `send` over a TCP packager on a structurally valid
response, by its status byte and operation code. -/
theorem send_tcp_valid (p : tcpPackager) (t : Transporter) (request : ProtocolDataUnit)
    (resp : List Nat) (operationCode statusByte : Nat)
    (ht : ∀ aduRequest, t.Send aduRequest = .ok resp) (hvalid : StructurallyValid p resp)
    (hop : resp[4]? = some operationCode) (hst : resp[1]? = some statusByte) :
    ((NewClient2 p.toPackager t).send request).res
      = if statusByte ≠ 0 then .err (.exception operationCode statusByte)
        else if operationCode ≠ request.FunctionCode then .err .functionCode
        else .ok { FunctionCode := operationCode, Data := resp.drop 5, Response := statusByte } := by
  obtain ⟨a, b, c, d, r, rfl⟩ := exists_cons_five_of_getElem hop
  have hb : b = statusByte := by simpa using hst
  subst hb
  rw [send_tcp_decoded p t request _ a b c d operationCode r (Encode_eq p request) (ht _)
    (Verify_of_structurallyValid p _ _ hvalid)]
  rfl

/-! ## Client pipeline: the claims -/

/-- C11: for every address and every quantity with 1 <= quantity <= 0x200,
`ReadSequentialProgramWord` with the default markers encodes the command
(0x18, [address low, address high, quantity low, quantity high]) and hands the
transporter exactly one frame, the 9 octets
00 00 05 00 18, address low, address high, quantity low, quantity high. -/
theorem C11_word_read_frame (t : Transporter) (address quantity : Nat)
    (h : 1 ≤ quantity ∧ quantity ≤ 0x200) :
    (∃ rest,
      ((NewClient2 defaultPackager.toPackager t).ReadSequentialProgramWord address
          quantity).calls
        = .Encode { FunctionCode := 0x18
                    Data := [address % 256, address / 256 % 256, quantity % 256, quantity / 256]
                    Response := 0 }
          :: .Send [0x00, 0x00, 0x05, 0x00, 0x18, address % 256, address / 256 % 256,
              quantity % 256, quantity / 256]
          :: rest)
    ∧ sentFrames
        ((NewClient2 defaultPackager.toPackager t).ReadSequentialProgramWord address
          quantity).calls
      = [[0x00, 0x00, 0x05, 0x00, 0x18, address % 256, address / 256 % 256, quantity % 256,
          quantity / 256]] := by
  have hq : quantity / 256 % 256 = quantity / 256 := by omega
  have hcalls : ((NewClient2 defaultPackager.toPackager t).ReadSequentialProgramWord address
      quantity).calls
      = ((NewClient2 defaultPackager.toPackager t).send
          { FunctionCode := 0x18
            Data := [address % 256, address / 256 % 256, quantity % 256, quantity / 256]
            Response := 0 }).calls := by
    unfold client.ReadSequentialProgramWord
    rw [if_neg (by omega), dataBlock_eq, request_calls]
    simp only [leWords, hq]
    rfl
  rw [hcalls]
  exact ⟨send_tcp_calls _ t _ _ (Encode_default_four _ _ _ _ _ _),
    send_tcp_sentFrames _ t _ _ (Encode_default_four _ _ _ _ _ _)⟩

/-- C11 at address = 1, quantity = 3: payload 01 00 03 00, frame
00 00 05 00 18 01 00 03 00. -/
theorem C11_word_read_frame_witness :
    (∃ rest,
      ((NewClient2 defaultPackager.toPackager (stubTransporter [])).ReadSequentialProgramWord 1
          3).calls
        = .Encode { FunctionCode := 0x18, Data := [0x01, 0x00, 0x03, 0x00], Response := 0 }
          :: .Send [0x00, 0x00, 0x05, 0x00, 0x18, 0x01, 0x00, 0x03, 0x00]
          :: rest)
    ∧ sentFrames
        ((NewClient2 defaultPackager.toPackager (stubTransporter [])).ReadSequentialProgramWord 1
          3).calls
      = [[0x00, 0x00, 0x05, 0x00, 0x18, 0x01, 0x00, 0x03, 0x00]] :=
  C11_word_read_frame (stubTransporter []) 1 3 (by decide)

/-- C12, as stated, fails: answered with 80 00 07 00 18 00 AA BB CC DD, the
word read (address 1, quantity 3) returns the response-length error of
`Verify`, not the payload AA BB CC DD: the length field says 7, six octets
follow the header. `Decode` is not reached. -/
theorem C12_scenario_counterexample :
    ((stubClient [0x80, 0x00, 0x07, 0x00, 0x18, 0x00, 0xAA, 0xBB, 0xCC, 0xDD]).ReadSequentialProgramWord
        1 3).res = .err .lengthError
    ∧ ((stubClient [0x80, 0x00, 0x07, 0x00, 0x18, 0x00, 0xAA, 0xBB, 0xCC, 0xDD]).ReadSequentialProgramWord
        1 3).res ≠ .ok [0xAA, 0xBB, 0xCC, 0xDD]
    ∧ defaultPackager.Verify [0x00, 0x00, 0x05, 0x00, 0x18, 0x01, 0x00, 0x03, 0x00]
        [0x80, 0x00, 0x07, 0x00, 0x18, 0x00, 0xAA, 0xBB, 0xCC, 0xDD] = .err .lengthError := by
  refine ⟨by decide, by decide, by decide⟩

/-- C12, amended: when the transporter answers the word read (address 1,
quantity 3) with 80 00 07 00 18 00 AA BB CC DD, `Verify` turns the frame down
(length field 7, six octets after the header) and the call returns the
response-length error without decoding; answered with the length-consistent
frame 80 00 05 00 18 AA BB CC DD it returns the payload AA BB CC DD with no
error (status 0); answered with 80 00 06 00 18 00 AA BB CC DD it returns the
five octets 00 AA BB CC DD. -/
theorem C12_scenario (t : Transporter) :
    (t.Send [0x00, 0x00, 0x05, 0x00, 0x18, 0x01, 0x00, 0x03, 0x00]
        = .ok [0x80, 0x00, 0x07, 0x00, 0x18, 0x00, 0xAA, 0xBB, 0xCC, 0xDD]
      → (NewClient2 defaultPackager.toPackager t).ReadSequentialProgramWord 1 3
        = ⟨[.Encode { FunctionCode := 0x18, Data := [0x01, 0x00, 0x03, 0x00], Response := 0 },
            .Send [0x00, 0x00, 0x05, 0x00, 0x18, 0x01, 0x00, 0x03, 0x00],
            .Verify [0x00, 0x00, 0x05, 0x00, 0x18, 0x01, 0x00, 0x03, 0x00]
              [0x80, 0x00, 0x07, 0x00, 0x18, 0x00, 0xAA, 0xBB, 0xCC, 0xDD]],
          .err .lengthError⟩)
    ∧ (t.Send [0x00, 0x00, 0x05, 0x00, 0x18, 0x01, 0x00, 0x03, 0x00]
        = .ok [0x80, 0x00, 0x05, 0x00, 0x18, 0xAA, 0xBB, 0xCC, 0xDD]
      → ((NewClient2 defaultPackager.toPackager t).ReadSequentialProgramWord 1 3).res
        = .ok [0xAA, 0xBB, 0xCC, 0xDD])
    ∧ (t.Send [0x00, 0x00, 0x05, 0x00, 0x18, 0x01, 0x00, 0x03, 0x00]
        = .ok [0x80, 0x00, 0x06, 0x00, 0x18, 0x00, 0xAA, 0xBB, 0xCC, 0xDD]
      → ((NewClient2 defaultPackager.toPackager t).ReadSequentialProgramWord 1 3).res
        = .ok [0x00, 0xAA, 0xBB, 0xCC, 0xDD]) := by
  have hop : (NewClient2 defaultPackager.toPackager t).ReadSequentialProgramWord 1 3
      = (NewClient2 defaultPackager.toPackager t).request 0x18 (.ok [0x01, 0x00, 0x03, 0x00])
          fun response => .ok response.Data := by
    unfold client.ReadSequentialProgramWord
    rw [if_neg (by decide), dataBlock_eq]
    rfl
  have henc := Encode_default_four 0x18 0x01 0x00 0x03 0x00 0
  refine ⟨?_, ?_, ?_⟩
  · intro ht
    rw [hop]
    unfold client.request
    simp only []
    rw [send_tcp_verify_err defaultPackager t _ _ _ .lengthError henc ht (by decide)]
  · intro ht
    rw [hop, request_res, send_tcp_decoded defaultPackager t _ _ _ _ _ _ _ _ henc ht (by decide)]
    rfl
  · intro ht
    rw [hop, request_res, send_tcp_decoded defaultPackager t _ _ _ _ _ _ _ _ henc ht (by decide)]
    rfl

/-- C12 (amended) on the stub transporters that answer the frame of the
scenario and the length-consistent frame. -/
theorem C12_scenario_witness :
    ((stubClient [0x80, 0x00, 0x07, 0x00, 0x18, 0x00, 0xAA, 0xBB, 0xCC, 0xDD]).ReadSequentialProgramWord
        1 3
      = ⟨[.Encode { FunctionCode := 0x18, Data := [0x01, 0x00, 0x03, 0x00], Response := 0 },
          .Send [0x00, 0x00, 0x05, 0x00, 0x18, 0x01, 0x00, 0x03, 0x00],
          .Verify [0x00, 0x00, 0x05, 0x00, 0x18, 0x01, 0x00, 0x03, 0x00]
            [0x80, 0x00, 0x07, 0x00, 0x18, 0x00, 0xAA, 0xBB, 0xCC, 0xDD]],
        .err .lengthError⟩)
    ∧ ((stubClient [0x80, 0x00, 0x05, 0x00, 0x18, 0xAA, 0xBB, 0xCC, 0xDD]).ReadSequentialProgramWord
        1 3).res = .ok [0xAA, 0xBB, 0xCC, 0xDD]
    ∧ ((stubClient [0x80, 0x00, 0x06, 0x00, 0x18, 0x00, 0xAA, 0xBB, 0xCC, 0xDD]).ReadSequentialProgramWord
        1 3).res = .ok [0x00, 0xAA, 0xBB, 0xCC, 0xDD] :=
  ⟨(C12_scenario
      (stubTransporter [0x80, 0x00, 0x07, 0x00, 0x18, 0x00, 0xAA, 0xBB, 0xCC, 0xDD])).1 rfl,
   (C12_scenario
      (stubTransporter [0x80, 0x00, 0x05, 0x00, 0x18, 0xAA, 0xBB, 0xCC, 0xDD])).2.1 rfl,
   (C12_scenario
      (stubTransporter [0x80, 0x00, 0x06, 0x00, 0x18, 0x00, 0xAA, 0xBB, 0xCC, 0xDD])).2.2 rfl⟩

/-- C13: for every address and every value octet, `WriteIOBit` has no quantity
check (no input is turned down) and hands `Encode` the command with operation
code 0x21 and the 3-octet payload [address low, address high, value], the
value unmodified; for address = 0x2000, value = 1 the payload is 00 20 01. -/
theorem C13_bit_write_command (c : client) (address value : Nat) :
    dataBlockSuffixBit value address = .ok [address % 256, address / 256 % 256, value]
    ∧ (∃ rest, (c.WriteIOBit address value).calls
        = .Encode { FunctionCode := 0x21
                    Data := [address % 256, address / 256 % 256, value]
                    Response := 0 } :: rest)
    ∧ ¬ (c.WriteIOBit address value).rejected
    ∧ dataBlockSuffixBit 1 0x2000 = .ok [0x00, 0x20, 0x01] := by
  have hcalls : ∃ rest, (c.WriteIOBit address value).calls
      = .Encode { FunctionCode := 0x21
                  Data := [address % 256, address / 256 % 256, value]
                  Response := 0 } :: rest := by
    unfold client.WriteIOBit
    rw [dataBlockSuffixBit_eq, request_calls]
    exact send_calls_cons c _
  refine ⟨dataBlockSuffixBit_eq value address, hcalls, ?_, by decide⟩
  obtain ⟨rest, hr⟩ := hcalls
  exact not_rejected_of_accepted ⟨_, rest, hr⟩

/-- C14, as stated, fails: the response 80 41 01 00 20 to a bit write is
structurally valid and has status 0x41, and the error returned carries
operation code 0x20, the one of the response, not 0x21. -/
theorem C14_exception_counterexample :
    StructurallyValid defaultPackager [0x80, 0x41, 0x01, 0x00, 0x20]
    ∧ ((stubClient [0x80, 0x41, 0x01, 0x00, 0x20]).WriteIOBit 0x2000 1).res
        = .err (.exception 0x20 0x41)
    ∧ ((stubClient [0x80, 0x41, 0x01, 0x00, 0x20]).WriteIOBit 0x2000 1).res
        ≠ .err (.exception 0x21 0x41) := by
  refine ⟨⟨rfl, by decide, rfl⟩, by decide, by decide⟩

/-- C14, amended: for a bit write and every structurally valid response frame
that echoes the operation code 0x21 and whose status byte is nonzero, the call
fails with the protocol error whose exception code is that status byte and
whose operation code is 0x21. -/
theorem C14_bit_write_exception (p : tcpPackager) (t : Transporter) (address value : Nat)
    (resp : List Nat) (statusByte : Nat)
    (ht : ∀ aduRequest, t.Send aduRequest = .ok resp) (hvalid : StructurallyValid p resp)
    (hop : resp[4]? = some 0x21) (hst : resp[1]? = some statusByte)
    (hne : statusByte ≠ 0) :
    ((NewClient2 p.toPackager t).WriteIOBit address value).res
      = .err (.exception 0x21 statusByte) := by
  unfold client.WriteIOBit
  rw [dataBlockSuffixBit_eq, request_res,
    send_tcp_valid p t _ resp 0x21 statusByte ht hvalid hop hst, if_pos hne]

/-- C14 (amended) at the response 80 41 01 00 21 to the bit write of address
0x2000, value 1. -/
theorem C14_bit_write_exception_witness :
    ((NewClient2 defaultPackager.toPackager
        (stubTransporter [0x80, 0x41, 0x01, 0x00, 0x21])).WriteIOBit 0x2000 1).res
      = .err (.exception 0x21 0x41) :=
  C14_bit_write_exception defaultPackager (stubTransporter [0x80, 0x41, 0x01, 0x00, 0x21])
    0x2000 1 [0x80, 0x41, 0x01, 0x00, 0x21] 0x41 (fun _ => rfl) ⟨rfl, by decide, rfl⟩
    rfl rfl (by decide)

/-- The outcome of the common tail of the operations over a TCP packager on a
structurally valid response that echoes the operation code with status 0: the
payload octets of the response, handed to `after`. -/
theorem request_tcp_success {α : Type} (p : tcpPackager) (t : Transporter) (fc : Nat)
    (data resp : List Nat) (after : ProtocolDataUnit → Res α)
    (ht : ∀ aduRequest, t.Send aduRequest = .ok resp) (hvalid : StructurallyValid p resp)
    (hop : resp[4]? = some fc) (hst : resp[1]? = some 0) :
    ((NewClient2 p.toPackager t).request fc (.ok data) after).res
      = after { FunctionCode := fc, Data := resp.drop 5, Response := 0 } := by
  rw [request_res, send_tcp_valid p t _ resp fc 0 ht hvalid hop hst]
  simp

theorem ReadSequentialProgramWord_success (p : tcpPackager) (t : Transporter) (resp : List Nat)
    (address quantity : Nat)
    (ht : ∀ aduRequest, t.Send aduRequest = .ok resp) (hvalid : StructurallyValid p resp)
    (hst : resp[1]? = some 0) (hin : 1 ≤ quantity ∧ quantity ≤ 0x200)
    (hop : resp[4]? = some FunSequentialProgramReadWord) :
    ((NewClient2 p.toPackager t).ReadSequentialProgramWord address quantity).res = .ok (resp.drop 5) := by
  unfold client.ReadSequentialProgramWord
  rw [if_neg (by omega), dataBlock_eq, request_tcp_success p t _ _ resp _ ht hvalid hop hst]

theorem ReadIOWord_success (p : tcpPackager) (t : Transporter) (resp : List Nat)
    (address quantity : Nat)
    (ht : ∀ aduRequest, t.Send aduRequest = .ok resp) (hvalid : StructurallyValid p resp)
    (hst : resp[1]? = some 0) (hin : 1 ≤ quantity ∧ quantity ≤ 0x200)
    (hop : resp[4]? = some FunIOReadWord) :
    ((NewClient2 p.toPackager t).ReadIOWord address quantity).res = .ok (resp.drop 5) := by
  unfold client.ReadIOWord
  rw [if_neg (by omega), dataBlock_eq, request_tcp_success p t _ _ resp _ ht hvalid hop hst]

theorem ReadIOByte_success (p : tcpPackager) (t : Transporter) (resp : List Nat)
    (address quantity : Nat)
    (ht : ∀ aduRequest, t.Send aduRequest = .ok resp) (hvalid : StructurallyValid p resp)
    (hst : resp[1]? = some 0) (hin : 1 ≤ quantity ∧ quantity ≤ 0x200)
    (hop : resp[4]? = some FunIOReadByte) :
    ((NewClient2 p.toPackager t).ReadIOByte address quantity).res = .ok (resp.drop 5) := by
  unfold client.ReadIOByte
  rw [if_neg (by omega), dataBlock_eq, request_tcp_success p t _ _ resp _ ht hvalid hop hst]

theorem ReadIOMultipointWord_success (p : tcpPackager) (t : Transporter) (resp : List Nat)
    (address : List Nat)
    (ht : ∀ aduRequest, t.Send aduRequest = .ok resp) (hvalid : StructurallyValid p resp)
    (hst : resp[1]? = some 0) (hin : 1 ≤ address.length ∧ address.length ≤ 0x80)
    (hop : resp[4]? = some FunIOReadMultipointWord) :
    ((NewClient2 p.toPackager t).ReadIOMultipointWord address).res = .ok (resp.drop 5) := by
  unfold client.ReadIOMultipointWord
  simp only []
  rw [if_neg (by omega), dataBlockList_eq, request_tcp_success p t _ _ resp _ ht hvalid hop hst]

theorem ReadIOMultipointByte_success (p : tcpPackager) (t : Transporter) (resp : List Nat)
    (address : List Nat)
    (ht : ∀ aduRequest, t.Send aduRequest = .ok resp) (hvalid : StructurallyValid p resp)
    (hst : resp[1]? = some 0) (hin : 1 ≤ address.length ∧ address.length ≤ 0x80)
    (hop : resp[4]? = some FunIOReadMultipointByte) :
    ((NewClient2 p.toPackager t).ReadIOMultipointByte address).res = .ok (resp.drop 5) := by
  unfold client.ReadIOMultipointByte
  simp only []
  rw [if_neg (by omega), dataBlockList_eq, request_tcp_success p t _ _ resp _ ht hvalid hop hst]

theorem ReadProgramExpansionWord_success (p : tcpPackager) (t : Transporter) (resp : List Nat)
    (no address quantity : Nat)
    (ht : ∀ aduRequest, t.Send aduRequest = .ok resp) (hvalid : StructurallyValid p resp)
    (hst : resp[1]? = some 0) (hin : 1 ≤ quantity ∧ quantity ≤ 0x200)
    (hop : resp[4]? = some FunProgramExpansionReadWord) :
    ((NewClient2 p.toPackager t).ReadProgramExpansionWord no address quantity).res = .ok (resp.drop 5) := by
  unfold client.ReadProgramExpansionWord
  rw [if_neg (by omega), dataBlockExpansion_eq, request_tcp_success p t _ _ resp _ ht hvalid hop hst]

theorem ReadDataExpansionWord_success (p : tcpPackager) (t : Transporter) (resp : List Nat)
    (no address quantity : Nat)
    (ht : ∀ aduRequest, t.Send aduRequest = .ok resp) (hvalid : StructurallyValid p resp)
    (hst : resp[1]? = some 0) (hin : 1 ≤ quantity ∧ quantity ≤ 0x200)
    (hop : resp[4]? = some FunDataExpansionReadWord) :
    ((NewClient2 p.toPackager t).ReadDataExpansionWord no address quantity).res = .ok (resp.drop 5) := by
  unfold client.ReadDataExpansionWord
  rw [if_neg (by omega), dataBlockExpansion_eq, request_tcp_success p t _ _ resp _ ht hvalid hop hst]

theorem ReadDataExpansionByte_success (p : tcpPackager) (t : Transporter) (resp : List Nat)
    (no address quantity : Nat)
    (ht : ∀ aduRequest, t.Send aduRequest = .ok resp) (hvalid : StructurallyValid p resp)
    (hst : resp[1]? = some 0) (hin : 1 ≤ quantity ∧ quantity ≤ 0x400)
    (hop : resp[4]? = some FunDataExpansionReadByte) :
    ((NewClient2 p.toPackager t).ReadDataExpansionByte no address quantity).res = .ok (resp.drop 5) := by
  unfold client.ReadDataExpansionByte
  rw [if_neg (by omega), dataBlockExpansion_eq, request_tcp_success p t _ _ resp _ ht hvalid hop hst]

theorem ReadDataExpansionMultipoint_success (p : tcpPackager) (t : Transporter)
    (resp : List Nat) (numBit numByte numWord : Nat)
    (bitNo bitAddr bytesNo bytesAddr wordNo wordAddr : List Nat)
    (ht : ∀ aduRequest, t.Send aduRequest = .ok resp) (hvalid : StructurallyValid p resp)
    (hst : resp[1]? = some 0)
    (hq : 1 ≤ numBit + numByte + numWord ∧ numBit + numByte + numWord ≤ 176)
    (hd : 1 ≤ numBit / 8 + numByte + 2 * numWord ∧ numBit / 8 + numByte + 2 * numWord ≤ 128)
    (hb : bitNo.length = bitAddr.length) (hy : bytesNo.length = bytesAddr.length)
    (hw : wordNo.length = wordAddr.length)
    (hop : resp[4]? = some FunDataExpansionReadMultipoint) :
    ((NewClient2 p.toPackager t).ReadDataExpansionMultipoint numBit numByte numWord bitNo
      bitAddr bytesNo bytesAddr wordNo wordAddr).res = .ok (resp.drop 5) := by
  unfold client.ReadDataExpansionMultipoint
  simp only []
  rw [if_neg (by omega), if_neg (by omega),
    dataBlockExpansionSuffixMultipoint_eq _ _ _ _ _ _ _ _ _ hb hy hw,
    request_tcp_success p t _ _ resp _ ht hvalid hop hst]

/-- On a structurally valid response whose operation code differs from the
request's, `send` and the calling operation fail; the function-code error
assigned on the mismatch is what they return when the status byte is 0, and
the status check that follows replaces it with the exception error when the
status byte is nonzero. -/
theorem send_mismatch_outcome (p : tcpPackager) (t : Transporter) (fc : Nat)
    (data resp : List Nat) (operationCode statusByte : Nat)
    (ht : ∀ aduRequest, t.Send aduRequest = .ok resp) (hvalid : StructurallyValid p resp)
    (hop : resp[4]? = some operationCode) (hst : resp[1]? = some statusByte)
    (hdiff : operationCode ≠ fc) :
    ((NewClient2 p.toPackager t).send { FunctionCode := fc, Data := data, Response := 0 }).res
        = (if statusByte = 0 then .err .functionCode
            else .err (.exception operationCode statusByte))
    ∧ (∀ (α : Type) (after : ProtocolDataUnit → Res α),
        ((NewClient2 p.toPackager t).request fc (.ok data) after).res
          = (if statusByte = 0 then .err .functionCode
              else .err (.exception operationCode statusByte))) := by
  have hsend : ((NewClient2 p.toPackager t).send
      { FunctionCode := fc, Data := data, Response := 0 }).res
      = (if statusByte = 0 then .err .functionCode
          else .err (.exception operationCode statusByte)) := by
    rw [send_tcp_valid p t _ resp operationCode statusByte ht hvalid hop hst]
    by_cases h0 : statusByte = 0
    · simp [h0, hdiff]
    · simp [h0]
  refine ⟨hsend, fun α after => ?_⟩
  rw [request_res, hsend]
  by_cases h0 : statusByte = 0
  · simp [h0]
  · simp [h0]

/-- C16 fails on the code at the request with operation code 0x21 (the bit
write of address 0x2000, value 1) answered with 80 41 01 00 20: the response
is structurally valid and its operation code 0x20 differs from the request's,
yet `send` and the calling operation return the exception error of status
0x41, not the function-code error. The function-code error is assigned and,
with no return after it, overwritten by the status check. With status 0 (the
response 80 00 01 00 20) the function-code error is what they return. -/
theorem C16_mismatch_overwritten :
    StructurallyValid defaultPackager [0x80, 0x41, 0x01, 0x00, 0x20]
    ∧ ((stubClient [0x80, 0x41, 0x01, 0x00, 0x20]).send
        { FunctionCode := 0x21, Data := [0x00, 0x20, 0x01], Response := 0 }).res
        = .err (.exception 0x20 0x41)
    ∧ ((stubClient [0x80, 0x41, 0x01, 0x00, 0x20]).send
        { FunctionCode := 0x21, Data := [0x00, 0x20, 0x01], Response := 0 }).res
        ≠ .err .functionCode
    ∧ ((stubClient [0x80, 0x41, 0x01, 0x00, 0x20]).WriteIOBit 0x2000 1).res
        = .err (.exception 0x20 0x41)
    ∧ ((stubClient [0x80, 0x00, 0x01, 0x00, 0x20]).send
        { FunctionCode := 0x21, Data := [0x00, 0x20, 0x01], Response := 0 }).res
        = .err .functionCode := by
  refine ⟨⟨rfl, by decide, rfl⟩, by decide, by decide, by decide, by decide⟩

/-- C17: for every read operation that returns octets, on valid inputs (the
quantity within its bound; for the mixed multipoint read, both totals within
their bounds and every kind list as long as its address list), if the response
frame is structurally valid (it passes `Verify`), echoes the operation code of
the request and has status byte 0, the call returns no error and its result is
exactly the octets of the response frame from offset 5 on. -/
theorem C17_read_returns_payload (p : tcpPackager) (t : Transporter) (resp : List Nat)
    (ht : ∀ aduRequest, t.Send aduRequest = .ok resp) (hvalid : StructurallyValid p resp)
    (hst : resp[1]? = some 0) :
    (∀ address quantity : Nat, 1 ≤ quantity ∧ quantity ≤ 0x200
        → resp[4]? = some FunSequentialProgramReadWord
        → ((NewClient2 p.toPackager t).ReadSequentialProgramWord address quantity).res
          = .ok (resp.drop 5))
    ∧ (∀ address quantity : Nat, 1 ≤ quantity ∧ quantity ≤ 0x200
        → resp[4]? = some FunIOReadWord
        → ((NewClient2 p.toPackager t).ReadIOWord address quantity).res
          = .ok (resp.drop 5))
    ∧ (∀ address quantity : Nat, 1 ≤ quantity ∧ quantity ≤ 0x200
        → resp[4]? = some FunIOReadByte
        → ((NewClient2 p.toPackager t).ReadIOByte address quantity).res
          = .ok (resp.drop 5))
    ∧ (∀ address : List Nat, 1 ≤ address.length ∧ address.length ≤ 0x80
        → resp[4]? = some FunIOReadMultipointWord
        → ((NewClient2 p.toPackager t).ReadIOMultipointWord address).res
          = .ok (resp.drop 5))
    ∧ (∀ address : List Nat, 1 ≤ address.length ∧ address.length ≤ 0x80
        → resp[4]? = some FunIOReadMultipointByte
        → ((NewClient2 p.toPackager t).ReadIOMultipointByte address).res
          = .ok (resp.drop 5))
    ∧ (∀ no address quantity : Nat, 1 ≤ quantity ∧ quantity ≤ 0x200
        → resp[4]? = some FunProgramExpansionReadWord
        → ((NewClient2 p.toPackager t).ReadProgramExpansionWord no address quantity).res
          = .ok (resp.drop 5))
    ∧ (∀ no address quantity : Nat, 1 ≤ quantity ∧ quantity ≤ 0x200
        → resp[4]? = some FunDataExpansionReadWord
        → ((NewClient2 p.toPackager t).ReadDataExpansionWord no address quantity).res
          = .ok (resp.drop 5))
    ∧ (∀ no address quantity : Nat, 1 ≤ quantity ∧ quantity ≤ 0x400
        → resp[4]? = some FunDataExpansionReadByte
        → ((NewClient2 p.toPackager t).ReadDataExpansionByte no address quantity).res
          = .ok (resp.drop 5))
    ∧ (∀ (numBit numByte numWord : Nat)
        (bitNo bitAddr bytesNo bytesAddr wordNo wordAddr : List Nat),
        (1 ≤ numBit + numByte + numWord ∧ numBit + numByte + numWord ≤ 176)
        → (1 ≤ numBit / 8 + numByte + 2 * numWord
            ∧ numBit / 8 + numByte + 2 * numWord ≤ 128)
        → bitNo.length = bitAddr.length → bytesNo.length = bytesAddr.length
        → wordNo.length = wordAddr.length
        → resp[4]? = some FunDataExpansionReadMultipoint
        → ((NewClient2 p.toPackager t).ReadDataExpansionMultipoint numBit numByte numWord
            bitNo bitAddr bytesNo bytesAddr wordNo wordAddr).res
          = .ok (resp.drop 5)) :=
  ⟨fun address quantity hin hop =>
     ReadSequentialProgramWord_success p t resp address quantity ht hvalid hst hin hop,
   fun address quantity hin hop =>
     ReadIOWord_success p t resp address quantity ht hvalid hst hin hop,
   fun address quantity hin hop =>
     ReadIOByte_success p t resp address quantity ht hvalid hst hin hop,
   fun address hin hop =>
     ReadIOMultipointWord_success p t resp address ht hvalid hst hin hop,
   fun address hin hop =>
     ReadIOMultipointByte_success p t resp address ht hvalid hst hin hop,
   fun no address quantity hin hop =>
     ReadProgramExpansionWord_success p t resp no address quantity ht hvalid hst hin hop,
   fun no address quantity hin hop =>
     ReadDataExpansionWord_success p t resp no address quantity ht hvalid hst hin hop,
   fun no address quantity hin hop =>
     ReadDataExpansionByte_success p t resp no address quantity ht hvalid hst hin hop,
   fun numBit numByte numWord bitNo bitAddr bytesNo bytesAddr wordNo wordAddr hq hd hb hy
       hw hop =>
     ReadDataExpansionMultipoint_success p t resp numBit numByte numWord bitNo bitAddr bytesNo
       bytesAddr wordNo wordAddr ht hvalid hst hq hd hb hy hw hop⟩

/-- C17 at the word read of address 1, quantity 3, answered with
80 00 05 00 18 AA BB CC DD. -/
theorem C17_read_returns_payload_witness :
    ((NewClient2 defaultPackager.toPackager
        (stubTransporter [0x80, 0x00, 0x05, 0x00, 0x18, 0xAA, 0xBB, 0xCC, 0xDD])).ReadSequentialProgramWord
          1 3).res
      = .ok ([0x80, 0x00, 0x05, 0x00, 0x18, 0xAA, 0xBB, 0xCC, 0xDD].drop 5) :=
  (C17_read_returns_payload defaultPackager
    (stubTransporter [0x80, 0x00, 0x05, 0x00, 0x18, 0xAA, 0xBB, 0xCC, 0xDD])
    [0x80, 0x00, 0x05, 0x00, 0x18, 0xAA, 0xBB, 0xCC, 0xDD] (fun _ => rfl) ⟨rfl, by decide, rfl⟩ rfl).1
    1 3 (by decide) rfl

/-! ## Error text: the claims -/

/-- A code outside the case labels of the `switch` falls to `default`. -/
theorem exceptionName_default (code : Nat) (h : code ∉ exceptionCases) :
    exceptionName code = "unknown" := by
  simp only [exceptionCases, List.mem_cons, List.mem_singleton, not_or, List.not_mem_nil,
    or_false] at h
  simp [exceptionName, h]

/-- C15: the lookup from exception code to cause used by `toyopucError.Error`
is a function of the code alone, defined on every code: 0x41 maps to "the
number of words or bytes is out of range", every code that is not a case label
of the table maps to "unknown", and the error text is built from that cause. -/
theorem C15_exception_lookup :
    exceptionName 0x41 = "the number of words or bytes is out of range"
    ∧ (∀ code : Nat, code ∉ exceptionCases → exceptionName code = "unknown")
    ∧ (∀ code : Nat, code < 256 → code ∈ exceptionCases ∨ exceptionName code = "unknown")
    ∧ (∀ e : toyopucError,
        e.Error = "toyopuc: exception '" ++ toString e.ExceptionCode ++ "' ("
          ++ exceptionName e.ExceptionCode ++ "), function '" ++ toString e.FunctionCode
          ++ "'")
    ∧ (toyopucError.mk 0x21 0x41).Error
        = "toyopuc: exception '65' (the number of words or bytes is out of range), function '33'" := by
  refine ⟨by decide, exceptionName_default, ?_, fun e => rfl, by decide⟩
  intro code _
  by_cases h : code ∈ exceptionCases
  · exact Or.inl h
  · exact Or.inr (exceptionName_default code h)

/-- C15 at the codes 0x00, 0x42 and 0xFF, none of them a case label. -/
theorem C15_exception_lookup_witness :
    exceptionName 0x00 = "unknown" ∧ exceptionName 0x42 = "unknown"
    ∧ exceptionName 0xFF = "unknown" :=
  ⟨C15_exception_lookup.2.1 0x00 (by decide), C15_exception_lookup.2.1 0x42 (by decide),
   C15_exception_lookup.2.1 0xFF (by decide)⟩

/-! ## Payload layouts: the claims -/

theorem getElem?_leWords (vs : List Nat) : ∀ (k v : Nat), vs[k]? = some v →
    (leWords vs)[2 * k]? = some (v % 256) ∧ (leWords vs)[2 * k + 1]? = some (v / 256 % 256) := by
  induction vs with
  | nil => intro k v h; simp at h
  | cons x xs ih =>
    intro k v h
    cases k with
    | zero =>
      simp at h
      subst h
      simp [leWords]
    | succ k =>
      have hk : xs[k]? = some v := by simpa using h
      have e1 : 2 * (k + 1) = 2 * k + 1 + 1 := by omega
      have e2 : 2 * (k + 1) + 1 = (2 * k + 1) + 1 + 1 := by omega
      rw [e2, e1]
      simpa [leWords] using ih k v hk

theorem getElem?_avWords (as : List Nat) : ∀ (vs : List Nat) (i a v : Nat),
    as[i]? = some a → vs[i]? = some v →
    (avWords as vs)[4 * i]? = some (a % 256)
    ∧ (avWords as vs)[4 * i + 1]? = some (a / 256 % 256)
    ∧ (avWords as vs)[4 * i + 2]? = some (v % 256)
    ∧ (avWords as vs)[4 * i + 3]? = some (v / 256 % 256) := by
  induction as with
  | nil => intro vs i a v h; simp at h
  | cons x xs ih =>
    intro vs i a v ha hv
    cases vs with
    | nil => simp at hv
    | cons y ys =>
      cases i with
      | zero =>
        simp at ha hv
        subst ha hv
        simp [avWords]
      | succ i =>
        have ha1 : xs[i]? = some a := by simpa using ha
        have hv1 : ys[i]? = some v := by simpa using hv
        have e0 : 4 * (i + 1) = 4 * i + 1 + 1 + 1 + 1 := by omega
        have e1 : 4 * (i + 1) + 1 = (4 * i + 1) + 1 + 1 + 1 + 1 := by omega
        have e2 : 4 * (i + 1) + 2 = (4 * i + 2) + 1 + 1 + 1 + 1 := by omega
        have e3 : 4 * (i + 1) + 3 = (4 * i + 3) + 1 + 1 + 1 + 1 := by omega
        rw [e3, e2, e1, e0]
        simpa [avWords] using ih ys i a v ha1 hv1

theorem getElem?_avBytes (as : List Nat) : ∀ (vs : List Nat) (i a v : Nat),
    as[i]? = some a → vs[i]? = some v →
    (avBytes as vs)[3 * i]? = some (a % 256)
    ∧ (avBytes as vs)[3 * i + 1]? = some (a / 256 % 256)
    ∧ (avBytes as vs)[3 * i + 2]? = some v := by
  induction as with
  | nil => intro vs i a v h; simp at h
  | cons x xs ih =>
    intro vs i a v ha hv
    cases vs with
    | nil => simp at hv
    | cons y ys =>
      cases i with
      | zero =>
        simp at ha hv
        subst ha hv
        simp [avBytes]
      | succ i =>
        have ha1 : xs[i]? = some a := by simpa using ha
        have hv1 : ys[i]? = some v := by simpa using hv
        have e0 : 3 * (i + 1) = 3 * i + 1 + 1 + 1 := by omega
        have e1 : 3 * (i + 1) + 1 = (3 * i + 1) + 1 + 1 + 1 := by omega
        have e2 : 3 * (i + 1) + 2 = (3 * i + 2) + 1 + 1 + 1 := by omega
        rw [e2, e1, e0]
        simpa [avBytes] using ih ys i a v ha1 hv1

theorem length_avWords (as vs : List Nat) (h : as.length = vs.length) :
    (avWords as vs).length = 4 * as.length := by
  induction as generalizing vs with
  | nil => cases vs <;> rfl
  | cons a as ih =>
    cases vs with
    | nil => simp at h
    | cons v vs =>
      simp only [avWords, List.length_cons]
      rw [ih vs (by simpa using h)]
      omega

theorem length_avBytes (as vs : List Nat) (h : as.length = vs.length) :
    (avBytes as vs).length = 3 * as.length := by
  induction as generalizing vs with
  | nil => cases vs <;> rfl
  | cons a as ih =>
    cases vs with
    | nil => simp at h
    | cons v vs =>
      simp only [avBytes, List.length_cons]
      rw [ih vs (by simpa using h)]
      omega

/-- C18: for every address and every list of N 16-bit values, `dataBlockSuffix`
returns 2 + 2N octets, the address little-endian, then each value
little-endian in list order (octets 2+2k and 3+2k are the low and the high
byte of value k); for every byte list, `dataBlockSuffixByte` returns the
little-endian address followed by the bytes verbatim. -/
theorem C18_write_layout (address : Nat) (suffix bytes : List Nat) :
    (∃ data, dataBlockSuffix suffix address = .ok data
      ∧ data.length = 2 + 2 * suffix.length
      ∧ data[0]? = some (address % 256) ∧ data[1]? = some (address / 256 % 256)
      ∧ ∀ k v : Nat, suffix[k]? = some v →
          data[2 + 2 * k]? = some (v % 256) ∧ data[3 + 2 * k]? = some (v / 256 % 256))
    ∧ dataBlockSuffixByte bytes address
        = .ok ([address % 256, address / 256 % 256] ++ bytes) := by
  refine ⟨⟨_, dataBlockSuffix_eq suffix address, ?_, by simp, by simp, ?_⟩,
    dataBlockSuffixByte_eq bytes address⟩
  · simp [length_leWords]; omega
  · intro k v hk
    obtain ⟨h1, h2⟩ := getElem?_leWords suffix k v hk
    have e1 : 2 + 2 * k = 2 * k + 1 + 1 := by omega
    have e2 : 3 + 2 * k = (2 * k + 1) + 1 + 1 := by omega
    rw [e1, e2]
    simpa using ⟨h1, h2⟩

/-- C18 at address 0x2000 and the values 0x1234, 0xABCD: value 1 sits at
offsets 4 and 5. -/
theorem C18_write_layout_witness :
    ∃ data, dataBlockSuffix [0x1234, 0xABCD] 0x2000 = .ok data
      ∧ data[2 + 2 * 1]? = some (0xABCD % 256)
      ∧ data[3 + 2 * 1]? = some (0xABCD / 256 % 256) := by
  obtain ⟨data, h1, _, _, _, h5⟩ := (C18_write_layout 0x2000 [0x1234, 0xABCD] []).1
  exact ⟨data, h1, h5 1 0xABCD rfl⟩

/-- C19: for every address list and value list of the same length N the
multipoint write payload is interleaved per point: `dataBlockAVList` returns
4N octets with point i at offsets 4i..4i+3 = [address_i low, address_i high,
value_i low, value_i high]; `dataBlockAVByteList` returns 3N octets with point
i at offsets 3i..3i+2 = [address_i low, address_i high, value_i]; and
`dataBlockList` (multipoint read) returns 2N octets, the little-endian
addresses in list order with no values. -/
theorem C19_multipoint_layout (address value bytes : List Nat)
    (h : address.length = value.length) (hb : address.length = bytes.length) :
    (∃ data, dataBlockAVList address value = .ok data
      ∧ data.length = 4 * address.length
      ∧ ∀ i a v : Nat, address[i]? = some a → value[i]? = some v →
          data[4 * i]? = some (a % 256) ∧ data[4 * i + 1]? = some (a / 256 % 256)
          ∧ data[4 * i + 2]? = some (v % 256) ∧ data[4 * i + 3]? = some (v / 256 % 256))
    ∧ (∃ data, dataBlockAVByteList address bytes = .ok data
      ∧ data.length = 3 * address.length
      ∧ ∀ i a v : Nat, address[i]? = some a → bytes[i]? = some v →
          data[3 * i]? = some (a % 256) ∧ data[3 * i + 1]? = some (a / 256 % 256)
          ∧ data[3 * i + 2]? = some v)
    ∧ (∃ data, dataBlockList address = .ok data
      ∧ data.length = 2 * address.length
      ∧ ∀ i a : Nat, address[i]? = some a →
          data[2 * i]? = some (a % 256) ∧ data[2 * i + 1]? = some (a / 256 % 256)) :=
  ⟨⟨_, dataBlockAVList_eq address value h, length_avWords address value h,
      getElem?_avWords address value⟩,
   ⟨_, dataBlockAVByteList_eq address bytes hb, length_avBytes address bytes hb,
      getElem?_avBytes address bytes⟩,
   ⟨_, dataBlockList_eq address, length_leWords address, getElem?_leWords address⟩⟩

/-- C19 at the two points (0x0102, 0x0A0B) and (0x0304, 0x0C0D), with the byte
values 0x0A and 0x0C: the octets of point 1. -/
theorem C19_multipoint_layout_witness :
    (∃ data, dataBlockAVList [0x0102, 0x0304] [0x0A0B, 0x0C0D] = .ok data
      ∧ data.length = 4 * [0x0102, 0x0304].length
      ∧ data[4 * 1]? = some (0x0304 % 256) ∧ data[4 * 1 + 1]? = some (0x0304 / 256 % 256)
      ∧ data[4 * 1 + 2]? = some (0x0C0D % 256) ∧ data[4 * 1 + 3]? = some (0x0C0D / 256 % 256))
    ∧ (∃ data, dataBlockAVByteList [0x0102, 0x0304] [0x0A, 0x0C] = .ok data
      ∧ data.length = 3 * [0x0102, 0x0304].length
      ∧ data[3 * 1]? = some (0x0304 % 256) ∧ data[3 * 1 + 1]? = some (0x0304 / 256 % 256)
      ∧ data[3 * 1 + 2]? = some 0x0C)
    ∧ (∃ data, dataBlockList [0x0102, 0x0304] = .ok data
      ∧ data.length = 2 * [0x0102, 0x0304].length
      ∧ data[2 * 1]? = some (0x0304 % 256) ∧ data[2 * 1 + 1]? = some (0x0304 / 256 % 256)) := by
  obtain ⟨⟨d1, h1, l1, p1⟩, ⟨d2, h2, l2, p2⟩, ⟨d3, h3, l3, p3⟩⟩ :=
    C19_multipoint_layout [0x0102, 0x0304] [0x0A0B, 0x0C0D] [0x0A, 0x0C] rfl rfl
  exact ⟨⟨d1, h1, l1, p1 1 0x0304 0x0C0D rfl rfl⟩, ⟨d2, h2, l2, p2 1 0x0304 0x0C rfl rfl⟩,
    ⟨d3, h3, l3, p3 1 0x0304 rfl⟩⟩

/-- C20: each expansion payload is the plain payload behind the single
expansion-area octet: for all inputs (any list of 16-bit values for the
variadic builders, in particular address and quantity),
`dataBlockExpansion no values = [no] ++ dataBlock values`,
`dataBlockExpansionSuffix no values address = [no] ++ dataBlockSuffix values address`
and `dataBlockExpansionSuffixByte no bytes address
= [no] ++ dataBlockSuffixByte bytes address`; no builder panics. -/
theorem C20_expansion_prefix (no address quantity : Nat) (value suffix bytes : List Nat) :
    (∃ data, dataBlock value = .ok data ∧ dataBlockExpansion no value = .ok ([no] ++ data))
    ∧ (∃ data, dataBlock [address, quantity] = .ok data
        ∧ dataBlockExpansion no [address, quantity] = .ok ([no] ++ data))
    ∧ (∃ data, dataBlockSuffix suffix address = .ok data
        ∧ dataBlockExpansionSuffix no suffix address = .ok ([no] ++ data))
    ∧ (∃ data, dataBlockSuffixByte bytes address = .ok data
        ∧ dataBlockExpansionSuffixByte no bytes address = .ok ([no] ++ data)) :=
  ⟨⟨_, dataBlock_eq value, dataBlockExpansion_eq no value⟩,
   ⟨_, dataBlock_eq [address, quantity], dataBlockExpansion_eq no [address, quantity]⟩,
   ⟨_, dataBlockSuffix_eq suffix address, dataBlockExpansionSuffix_eq no suffix address⟩,
   ⟨_, dataBlockSuffixByte_eq bytes address, dataBlockExpansionSuffixByte_eq no bytes address⟩⟩

/-! ## Connection manager: closed forms -/

/-- The outcome of `readBody` on a receive buffer of `tcpMaxLength` octets
that starts with the header `h0 h1 lo hi`, by the declared length
`lo + 256 * hi`: zero and more than 509 are errors after a flush, 509 panics
at the slice `data[4:513]`, and 1..508 reads that many octets. -/
theorem readBody_cons (t : tcpTransporter) (conn : Conn) (h0 h1 lo hi : Nat) (rest : List Nat)
    (events : List NetEvent) (hlen : (h0 :: h1 :: lo :: hi :: rest).length = tcpMaxLength) :
    t.readBody conn (h0 :: h1 :: lo :: hi :: rest) events
      = if lo + 256 * hi = 0 then
          ⟨{ t with conn := some (conn.flush tcpMaxLength) }, events ++ [.Flush],
            .err (errLengthZero (lo + 256 * hi))⟩
        else if 509 < lo + 256 * hi then
          ⟨{ t with conn := some (conn.flush tcpMaxLength) }, events ++ [.Flush],
            .err (errLengthTooLarge (lo + 256 * hi))⟩
        else if lo + 256 * hi = 509 then ⟨{ t with conn := some conn }, events, .panic⟩
        else if lo + 256 * hi ≤ conn.incoming.length then
          ⟨{ t with conn := some { conn with incoming := conn.incoming.drop (lo + 256 * hi) } },
            events ++ [.ReadFull (lo + 256 * hi)],
            .ok (h0 :: h1 :: lo :: hi :: conn.incoming.take (lo + 256 * hi))⟩
        else
          ⟨{ t with conn := some { conn with incoming := [] } },
            events ++ [.ReadFull (lo + 256 * hi)],
            .err (if conn.incoming ≠ [] ∧ conn.readErr = EOF then ErrUnexpectedEOF
              else conn.readErr)⟩ := by
  have hrest : rest.length = 508 := by
    simp [tcpMaxLength] at hlen
    omega
  unfold tcpTransporter.readBody
  simp only [index, List.getElem?_cons_succ, List.getElem?_cons_zero, Uint16, hlen]
  by_cases h0' : lo + 256 * hi = 0
  · simp [h0']
  · by_cases h1' : 509 < lo + 256 * hi
    · have : ¬ (lo + 256 * hi ≤ 0) := by omega
      simp [h0', h1', tcpMaxLength, tcpHeaderSize]
    · by_cases h2' : lo + 256 * hi = 509
      · simp [h2', tcpMaxLength, tcpHeaderSize]
      · have hle : lo + 256 * hi ≤ 508 := by omega
        have hpos : ¬ (lo + 256 * hi ≤ 0) := by omega
        have hng : ¬ (lo + 256 * hi > tcpMaxLength - (tcpHeaderSize - 1)) := by
          simp [tcpMaxLength, tcpHeaderSize]; omega
        have hfit : ¬ (lo + 256 * hi + tcpHeaderSize > tcpMaxLength) := by
          simp [tcpMaxLength, tcpHeaderSize]; omega
        simp only [h0', h1', h2', hpos, hng, hfit, if_false, Nat.add_sub_cancel]
        unfold Conn.ReadFull
        by_cases hin : lo + 256 * hi ≤ conn.incoming.length
        · simp only [hin, if_true]
          have htake : List.take (lo + 256 * hi + tcpHeaderSize)
              (List.take tcpHeaderSize (h0 :: h1 :: lo :: hi :: rest)
                ++ List.take (lo + 256 * hi) conn.incoming
                ++ List.drop (lo + 256 * hi + tcpHeaderSize) (h0 :: h1 :: lo :: hi :: rest))
              = h0 :: h1 :: lo :: hi :: List.take (lo + 256 * hi) conn.incoming := by
            have e1 : List.take tcpHeaderSize (h0 :: h1 :: lo :: hi :: rest)
                = [h0, h1, lo, hi] := by simp [tcpHeaderSize]
            rw [e1]
            have e2 : ([h0, h1, lo, hi] ++ List.take (lo + 256 * hi) conn.incoming).length
                = lo + 256 * hi + tcpHeaderSize := by
              simp [tcpHeaderSize, Nat.min_eq_left hin]
            rw [← e2, List.take_left]
            rfl
          rw [htake]
        · simp only [hin, if_false]

theorem ReadFull_header (conn : Conn) (h0 h1 lo hi : Nat) (more : List Nat)
    (hin : conn.incoming = h0 :: h1 :: lo :: hi :: more) :
    conn.ReadFull tcpHeaderSize = (.ok [h0, h1, lo, hi], { conn with incoming := more }) := by
  unfold Conn.ReadFull
  rw [hin, if_pos (by simp [tcpHeaderSize])]
  simp [tcpHeaderSize]

theorem drop_header_make :
    List.drop tcpHeaderSize (make tcpMaxLength) = List.replicate 508 0 := by
  simp only [make, tcpMaxLength, tcpHeaderSize, List.drop_replicate]

theorem touched_conn (now : Int) (t : tcpTransporter) : (t.touched now).conn = t.conn := by
  unfold tcpTransporter.touched tcpTransporter.startCloseTimer
  split
  · rfl
  · split <;> rfl

/-- The method `Send` on a connected transporter whose connection has no
failing call and whose peer delivers at least the 4 header octets: the run up
to the header, then `readBody`. -/
theorem Send_connected (now : Int) (dial : Res Conn) (t : tcpTransporter) (conn : Conn)
    (aduRequest : List Nat) (h0 h1 lo hi : Nat) (more : List Nat)
    (hconn : t.conn = some conn) (hd : conn.deadlineErr = none) (hw : conn.writeErr = none)
    (hin : conn.incoming = h0 :: h1 :: lo :: hi :: more) :
    t.Send now dial aduRequest
      = (t.touched now).readBody { conn with incoming := more }
          (h0 :: h1 :: lo :: hi :: List.replicate 508 0)
          [.SetDeadline
              (if (t.touched now).Timeout > 0
                then some ((t.touched now).lastActivity + (t.touched now).Timeout)
                else none),
            .Write aduRequest, .ReadFull tcpHeaderSize] := by
  obtain ⟨A, T, I, c0, ct, la⟩ := t
  simp only at hconn
  subst hconn
  have hst : (tcpTransporter.touched now ⟨A, T, I, some conn, ct, la⟩).conn = some conn :=
    touched_conn now _
  unfold tcpTransporter.touched at hst ⊢
  unfold tcpTransporter.Send
  simp only [tcpTransporter.connect]
  simp only [hst, hd, hw, ReadFull_header conn h0 h1 lo hi more hin, drop_header_make]
  rfl

/-- C23: on the connection state `connect` and `close` are idempotent:
`connect` on a Connected state makes no dial, returns no error and leaves the
state, socket handle included, unchanged; `close` on a Disconnected state
makes no call, returns no error and leaves the state Disconnected; after any
`close` the state is Disconnected; the exported `Connect` and `Close` are the
same steps. -/
theorem C23_connect_close_idempotent (dial : Res Conn) (t : tcpTransporter) :
    (t.Connected →
      (t.connect dial).events = [] ∧ (t.connect dial).res = .ok ()
      ∧ (t.connect dial).state = t ∧ (t.connect dial).state.conn = t.conn)
    ∧ (t.Disconnected →
      (t.close).events = [] ∧ (t.close).res = .ok () ∧ (t.close).state = t
      ∧ (t.close).state.Disconnected)
    ∧ (t.close).state.Disconnected
    ∧ ((t.close).state.close).state = (t.close).state
    ∧ ((t.close).state.close).res = .ok ()
    ∧ ((t.connect dial).res = .ok () →
        ∀ dial2, ((t.connect dial).state.connect dial2).state = (t.connect dial).state
          ∧ ((t.connect dial).state.connect dial2).events = []
          ∧ ((t.connect dial).state.connect dial2).res = .ok ())
    ∧ t.Connect dial = t.connect dial ∧ t.Close = t.close := by
  obtain ⟨A, T, I, c0, ct, la⟩ := t
  cases c0 with
  | none =>
    refine ⟨fun h => absurd rfl h, fun _ => ⟨rfl, rfl, rfl, rfl⟩, rfl, rfl, rfl, ?_, rfl, rfl⟩
    cases dial with
    | ok conn => exact fun _ dial2 => ⟨rfl, rfl, rfl⟩
    | err e => intro h; simp [tcpTransporter.connect] at h
    | panic => intro h; simp [tcpTransporter.connect] at h
  | some conn =>
    refine ⟨fun _ => ⟨rfl, rfl, rfl, rfl⟩, fun h => ?_, rfl, rfl, rfl,
      fun _ dial2 => ⟨rfl, rfl, rfl⟩, rfl, rfl⟩
    simp [tcpTransporter.Disconnected] at h

/-- C23 on a transporter connected through the socket with handle 1, and on
the transporter as `NewTCPClientHandler` builds it (not connected). -/
theorem C23_connect_close_idempotent_witness :
    ((connectedTransporter []).connect (.ok (peerConn [1]))).events = []
    ∧ ((connectedTransporter []).connect (.ok (peerConn [1]))).state = connectedTransporter []
    ∧ ((NewTCPTransporter "plc").close).res = .ok ()
    ∧ ((NewTCPTransporter "plc").close).state.Disconnected :=
  ⟨((C23_connect_close_idempotent (.ok (peerConn [1])) (connectedTransporter [])).1
      (by simp [tcpTransporter.Connected, connectedTransporter])).1,
   ((C23_connect_close_idempotent (.ok (peerConn [1])) (connectedTransporter [])).1
      (by simp [tcpTransporter.Connected, connectedTransporter])).2.2.1,
   ((C23_connect_close_idempotent (.ok (peerConn [1])) (NewTCPTransporter "plc")).2.1 rfl).2.1,
   ((C23_connect_close_idempotent (.ok (peerConn [1])) (NewTCPTransporter "plc")).2.1
      rfl).2.2.2⟩

theorem getElem?_kindAddrs (ks : List Nat) : ∀ (as : List Nat) (k kind a : Nat),
    ks[k]? = some kind → as[k]? = some a →
    (kindAddrs ks as)[3 * k]? = some kind
    ∧ (kindAddrs ks as)[3 * k + 1]? = some (a % 256)
    ∧ (kindAddrs ks as)[3 * k + 2]? = some (a / 256 % 256) := by
  induction ks with
  | nil => intro as k kind a h; simp at h
  | cons x xs ih =>
    intro as k kind a hk ha
    cases as with
    | nil => simp at ha
    | cons y ys =>
      cases k with
      | zero =>
        simp at hk ha
        subst hk ha
        simp [kindAddrs]
      | succ k =>
        have hk1 : xs[k]? = some kind := by simpa using hk
        have ha1 : ys[k]? = some a := by simpa using ha
        have e0 : 3 * (k + 1) = 3 * k + 1 + 1 + 1 := by omega
        have e1 : 3 * (k + 1) + 1 = (3 * k + 1) + 1 + 1 + 1 := by omega
        have e2 : 3 * (k + 1) + 2 = (3 * k + 2) + 1 + 1 + 1 := by omega
        rw [e2, e1, e0]
        simpa [kindAddrs] using ih ys k kind a hk1 ha1

theorem getElem?_append_of_some {α : Type} (l post : List α) (i : Nat) (x : α)
    (h : l[i]? = some x) : (l ++ post)[i]? = some x := by
  induction l generalizing i with
  | nil => simp at h
  | cons a l ih =>
    cases i with
    | zero => simpa using h
    | succ i => simpa using ih i (by simpa using h)

theorem getElem?_append_offset {α : Type} (pre l : List α) (n i : Nat) (hn : n = pre.length) :
    (pre ++ l)[n + i]? = l[i]? := by
  subst hn
  induction pre with
  | nil => simp
  | cons a pre ih =>
    have e : (a :: pre).length + i = (pre.length + i) + 1 := by simp; omega
    rw [e]
    simpa using ih

/-- C21: for every input in which each kind list is as long as its address
list, `dataBlockExpansionSuffixMultipoint` returns the three count octets
[numBit, numByte, numWord] followed by one 3-octet entry
[kind, address low, address high] per bit-point in order, then per byte-point
in order, then per word-point in order, 3 + 3*(len(bitNo) + len(bytesNo) +
len(wordNo)) octets in all. -/
theorem C21_multipoint_payload (numBit numByte numWord : Nat)
    (bitNo bitAddr bytesNo bytesAddr wordNo wordAddr : List Nat)
    (hb : bitNo.length = bitAddr.length) (hy : bytesNo.length = bytesAddr.length)
    (hw : wordNo.length = wordAddr.length) :
    ∃ data,
      dataBlockExpansionSuffixMultipoint numBit numByte numWord bitNo bitAddr bytesNo
        bytesAddr wordNo wordAddr = .ok data
      ∧ data = [numBit, numByte, numWord] ++ kindAddrs bitNo bitAddr
          ++ kindAddrs bytesNo bytesAddr ++ kindAddrs wordNo wordAddr
      ∧ data.length = 3 + 3 * (bitNo.length + bytesNo.length + wordNo.length)
      ∧ (∀ k kind a : Nat, bitNo[k]? = some kind → bitAddr[k]? = some a →
          data[3 + 3 * k]? = some kind
          ∧ data[3 + (3 * k + 1)]? = some (a % 256)
          ∧ data[3 + (3 * k + 2)]? = some (a / 256 % 256))
      ∧ (∀ k kind a : Nat, bytesNo[k]? = some kind → bytesAddr[k]? = some a →
          data[3 + 3 * bitNo.length + 3 * k]? = some kind
          ∧ data[3 + 3 * bitNo.length + (3 * k + 1)]? = some (a % 256)
          ∧ data[3 + 3 * bitNo.length + (3 * k + 2)]? = some (a / 256 % 256))
      ∧ (∀ k kind a : Nat, wordNo[k]? = some kind → wordAddr[k]? = some a →
          data[3 + 3 * bitNo.length + 3 * bytesNo.length + 3 * k]? = some kind
          ∧ data[3 + 3 * bitNo.length + 3 * bytesNo.length + (3 * k + 1)]? = some (a % 256)
          ∧ data[3 + 3 * bitNo.length + 3 * bytesNo.length + (3 * k + 2)]?
              = some (a / 256 % 256)) := by
  have lb := length_kindAddrs bitNo bitAddr hb
  have ly := length_kindAddrs bytesNo bytesAddr hy
  have lw := length_kindAddrs wordNo wordAddr hw
  refine ⟨_, dataBlockExpansionSuffixMultipoint_eq _ _ _ _ _ _ _ _ _ hb hy hw, rfl, ?_, ?_, ?_,
    ?_⟩
  · simp only [List.length_append, List.length_cons, List.length_nil, lb, ly, lw]
    omega
  · intro k kind a hk ha
    obtain ⟨h1, h2, h3⟩ := getElem?_kindAddrs bitNo bitAddr k kind a hk ha
    have key : ∀ i x, (kindAddrs bitNo bitAddr)[i]? = some x →
        ([numBit, numByte, numWord] ++ kindAddrs bitNo bitAddr ++ kindAddrs bytesNo bytesAddr
          ++ kindAddrs wordNo wordAddr)[3 + i]? = some x := by
      intro i x hx
      rw [List.append_assoc, List.append_assoc,
        getElem?_append_offset [numBit, numByte, numWord] _ 3 i rfl, ← List.append_assoc]
      exact getElem?_append_of_some _ _ _ _ (getElem?_append_of_some _ _ _ _ hx)
    exact ⟨key _ _ h1, key _ _ h2, key _ _ h3⟩
  · intro k kind a hk ha
    obtain ⟨h1, h2, h3⟩ := getElem?_kindAddrs bytesNo bytesAddr k kind a hk ha
    have key : ∀ i x, (kindAddrs bytesNo bytesAddr)[i]? = some x →
        ([numBit, numByte, numWord] ++ kindAddrs bitNo bitAddr ++ kindAddrs bytesNo bytesAddr
          ++ kindAddrs wordNo wordAddr)[3 + 3 * bitNo.length + i]? = some x := by
      intro i x hx
      rw [List.append_assoc,
        getElem?_append_offset ([numBit, numByte, numWord] ++ kindAddrs bitNo bitAddr) _
          (3 + 3 * bitNo.length) i (by simp [lb]; omega)]
      exact getElem?_append_of_some _ _ _ _ hx
    exact ⟨key _ _ h1, key _ _ h2, key _ _ h3⟩
  · intro k kind a hk ha
    obtain ⟨h1, h2, h3⟩ := getElem?_kindAddrs wordNo wordAddr k kind a hk ha
    have key : ∀ i x, (kindAddrs wordNo wordAddr)[i]? = some x →
        ([numBit, numByte, numWord] ++ kindAddrs bitNo bitAddr ++ kindAddrs bytesNo bytesAddr
          ++ kindAddrs wordNo wordAddr)[3 + 3 * bitNo.length + 3 * bytesNo.length + i]?
          = some x := by
      intro i x hx
      rw [getElem?_append_offset ([numBit, numByte, numWord] ++ kindAddrs bitNo bitAddr
          ++ kindAddrs bytesNo bytesAddr) _
          (3 + 3 * bitNo.length + 3 * bytesNo.length) i (by simp [lb, ly]; omega)]
      exact hx
    exact ⟨key _ _ h1, key _ _ h2, key _ _ h3⟩

/-- C21 at one bit-point (kind 0, address 0x0102), one byte-point (kind 1,
address 0x0304) and one word-point (kind 8, address 0x0506). -/
theorem C21_multipoint_payload_witness :
    ∃ data,
      dataBlockExpansionSuffixMultipoint 8 1 1 [0] [0x0102] [1] [0x0304] [8] [0x0506]
        = .ok data
      ∧ data = [8, 1, 1] ++ kindAddrs [0] [0x0102] ++ kindAddrs [1] [0x0304]
          ++ kindAddrs [8] [0x0506]
      ∧ data.length = 3 + 3 * ([0].length + [1].length + [8].length)
      ∧ data[3 + 3 * [0].length + 3 * [1].length + 3 * 0]? = some 8
      ∧ data[3 + 3 * [0].length + 3 * [1].length + (3 * 0 + 1)]? = some (0x0506 % 256)
      ∧ data[3 + 3 * [0].length + 3 * [1].length + (3 * 0 + 2)]? = some (0x0506 / 256 % 256) := by
  obtain ⟨data, h1, h2, h3, _, _, h6⟩ :=
    C21_multipoint_payload 8 1 1 [0] [0x0102] [1] [0x0304] [8] [0x0506] rfl rfl rfl
  exact ⟨data, h1, h2, h3, h6 0 8 0x0506 rfl rfl⟩

/-! ## Response header length check: the claims -/

/-- The method `Send` on a connected transporter with the default settings
whose peer delivers the header `h0 h1 lo hi` and then `more`: the outcome by
declared length `lo + 256 * hi`. -/
theorem Send_by_length (now : Int) (dial : Res Conn) (aduRequest : List Nat)
    (h0 h1 lo hi : Nat) (more : List Nat) :
    ((connectedTransporter (h0 :: h1 :: lo :: hi :: more)).Send now dial aduRequest).res
      = (if lo + 256 * hi = 0 then .err (errLengthZero (lo + 256 * hi))
        else if 509 < lo + 256 * hi then .err (errLengthTooLarge (lo + 256 * hi))
        else if lo + 256 * hi = 509 then .panic
        else if lo + 256 * hi ≤ more.length then
          .ok (h0 :: h1 :: lo :: hi :: more.take (lo + 256 * hi))
        else .err (if more ≠ [] then ErrUnexpectedEOF else EOF))
    ∧ ((connectedTransporter (h0 :: h1 :: lo :: hi :: more)).Send now dial aduRequest).events
      = [.SetDeadline (some (now + 10000000000)), .Write aduRequest, .ReadFull tcpHeaderSize]
        ++ (if lo + 256 * hi = 0 then [.Flush]
          else if 509 < lo + 256 * hi then [.Flush]
          else if lo + 256 * hi = 509 then []
          else [.ReadFull (lo + 256 * hi)]) := by
  have hT : ((connectedTransporter (h0 :: h1 :: lo :: hi :: more)).touched now).Timeout
      = 10000000000 := rfl
  have hA : ((connectedTransporter (h0 :: h1 :: lo :: hi :: more)).touched now).lastActivity
      = now := rfl
  rw [Send_connected now dial _ (peerConn (h0 :: h1 :: lo :: hi :: more)) aduRequest h0 h1 lo hi
    more rfl rfl rfl rfl,
    readBody_cons _ _ _ _ _ _ _ _
      (by simp only [List.length_cons, List.length_replicate, tcpMaxLength]),
    hT, hA, if_pos (show (10000000000 : Int) > 0 by decide)]
  constructor
  · split_ifs <;> first | rfl | simp_all [peerConn]
  · split_ifs <;> rfl

/-- C22 fails on the code at the response header 80 00 FD 01, declared length
509: the length exceeds tcpMaxLength - tcpHeaderSize = 508, yet `Send` returns
no error. The check compares the length with tcpMaxLength - (tcpHeaderSize - 1)
= 509 and lets it through; the slice expression data[4:513] on the 512-octet
buffer then panics, after the header read and before any read of the body.
The declared lengths 0 and 510 fail with an error and no read of the body, and
the declared length 508 reads exactly 508 further octets. -/
theorem C22_length_509_passes_check (now : Int) (dial : Res Conn) (aduRequest more : List Nat) :
    tcpMaxLength - tcpHeaderSize < Uint16 0xFD 0x01
    ∧ ((connectedTransporter (0x80 :: 0x00 :: 0xFD :: 0x01 :: more)).Send now dial
        aduRequest).res = .panic
    ∧ (∀ e, ((connectedTransporter (0x80 :: 0x00 :: 0xFD :: 0x01 :: more)).Send now dial
        aduRequest).res ≠ .err e)
    ∧ ((connectedTransporter (0x80 :: 0x00 :: 0xFD :: 0x01 :: more)).Send now dial
        aduRequest).events
        = [.SetDeadline (some (now + 10000000000)), .Write aduRequest, .ReadFull tcpHeaderSize]
    ∧ (((connectedTransporter (0x80 :: 0x00 :: 0x00 :: 0x00 :: more)).Send now dial
        aduRequest).res = .err (errLengthZero 0)
      ∧ ((connectedTransporter (0x80 :: 0x00 :: 0x00 :: 0x00 :: more)).Send now dial
        aduRequest).events
        = [.SetDeadline (some (now + 10000000000)), .Write aduRequest,
            .ReadFull tcpHeaderSize, .Flush])
    ∧ (((connectedTransporter (0x80 :: 0x00 :: 0xFE :: 0x01 :: more)).Send now dial
        aduRequest).res = .err (errLengthTooLarge 510)
      ∧ ((connectedTransporter (0x80 :: 0x00 :: 0xFE :: 0x01 :: more)).Send now dial
        aduRequest).events
        = [.SetDeadline (some (now + 10000000000)), .Write aduRequest,
            .ReadFull tcpHeaderSize, .Flush])
    ∧ ((connectedTransporter (0x80 :: 0x00 :: 0xFC :: 0x01 :: List.replicate 508 7)).Send now
        dial aduRequest).events
        = [.SetDeadline (some (now + 10000000000)), .Write aduRequest,
            .ReadFull tcpHeaderSize, .ReadFull 508] := by
  have h509 := Send_by_length now dial aduRequest 0x80 0x00 0xFD 0x01 more
  have h0 := Send_by_length now dial aduRequest 0x80 0x00 0x00 0x00 more
  have h510 := Send_by_length now dial aduRequest 0x80 0x00 0xFE 0x01 more
  have h508 := Send_by_length now dial aduRequest 0x80 0x00 0xFC 0x01 (List.replicate 508 7)
  refine ⟨by decide, ?_, ?_, ?_, ⟨?_, ?_⟩, ⟨?_, ?_⟩, ?_⟩
  · rw [h509.1]; rfl
  · intro e
    rw [h509.1]
    simp
  · rw [h509.2]; rfl
  · rw [h0.1]; rfl
  · rw [h0.2]; rfl
  · rw [h510.1]; rfl
  · rw [h510.2]; rfl
  · rw [h508.2]; rfl

/-- C26 fails on the code at the declared length 509 (header octets FD 01): it
passes the header length check, 1 <= 509 <= tcpMaxLength - (tcpHeaderSize - 1),
yet tcpHeaderSize + 509 = 513 exceeds the tcpMaxLength = 512 octets of the
receive buffer, and the slice expression data[tcpHeaderSize:513] panics; no
read, flush or error follows. This is the off-by-one bound of the check that
C22 meets at the same length. -/
theorem C26_checked_length_overruns_buffer (t : tcpTransporter) (conn : Conn) (h0 h1 : Nat)
    (events : List NetEvent) :
    (1 ≤ Uint16 0xFD 0x01 ∧ Uint16 0xFD 0x01 ≤ tcpMaxLength - (tcpHeaderSize - 1))
    ∧ tcpMaxLength < tcpHeaderSize + Uint16 0xFD 0x01
    ∧ (h0 :: h1 :: 0xFD :: 0x01 :: List.replicate 508 0).length = tcpMaxLength
    ∧ (t.readBody conn (h0 :: h1 :: 0xFD :: 0x01 :: List.replicate 508 0) events).res = .panic
    ∧ (t.readBody conn (h0 :: h1 :: 0xFD :: 0x01 :: List.replicate 508 0) events).events
        = events := by
  have hlen : (h0 :: h1 :: 0xFD :: 0x01 :: List.replicate 508 0).length = tcpMaxLength := by
    simp only [List.length_cons, List.length_replicate, tcpMaxLength]
  refine ⟨by decide, by decide, hlen, ?_, ?_⟩
  · rw [readBody_cons t conn h0 h1 0xFD 0x01 _ events hlen]; rfl
  · rw [readBody_cons t conn h0 h1 0xFD 0x01 _ events hlen]; rfl

/-! ## Validated reads and the receive buffer: the claims -/

/-- The outcome of `send` over a TCP packager when the transporter fails: the
error of the transporter, after one `Encode` and one `Send`. -/
theorem send_tcp_send_err (p : tcpPackager) (t : Transporter) (request : ProtocolDataUnit)
    (adu : List Nat) (e : GoError) (henc : p.Encode request = .ok adu)
    (hsend : t.Send adu = .err e) :
    (NewClient2 p.toPackager t).send request = ⟨[.Encode request, .Send adu], .err e⟩ := by
  unfold client.send
  simp only [NewClient2, tcpPackager.toPackager, henc, hsend]

/-- The outcome of `send` over a TCP packager when the transporter panics. -/
theorem send_tcp_send_panic (p : tcpPackager) (t : Transporter) (request : ProtocolDataUnit)
    (adu : List Nat) (henc : p.Encode request = .ok adu) (hsend : t.Send adu = .panic) :
    (NewClient2 p.toPackager t).send request = ⟨[.Encode request, .Send adu], .panic⟩ := by
  unfold client.send
  simp only [NewClient2, tcpPackager.toPackager, henc, hsend]

/-- A client call over a TCP packager whose transporter fails on every frame
with the error `e` returns `e`. -/
theorem request_tcp_send_err {α : Type} (p : tcpPackager) (t : Transporter) (fc : Nat)
    (data : List Nat) (after : ProtocolDataUnit → Res α) (e : GoError)
    (ht : ∀ aduRequest, t.Send aduRequest = .err e) :
    ((NewClient2 p.toPackager t).request fc (.ok data) after).res = .err e := by
  rw [request_res, send_tcp_send_err p t _ _ e (Encode_eq p _) (ht _)]

/-- A client call over a TCP packager whose transporter panics on every frame
panics. -/
theorem request_tcp_send_panic {α : Type} (p : tcpPackager) (t : Transporter) (fc : Nat)
    (data : List Nat) (after : ProtocolDataUnit → Res α)
    (ht : ∀ aduRequest, t.Send aduRequest = .panic) :
    ((NewClient2 p.toPackager t).request fc (.ok data) after).res = .panic := by
  rw [request_res, send_tcp_send_panic p t _ _ (Encode_eq p _) (ht _)]

/-- C27 fails on the code at the word read of quantity 255, within the
validated range 1..0x200: its success response carries 510 data octets, so the
declared length is 1 + 510 = 511, which exceeds the bound
tcpMaxLength - (tcpHeaderSize - 1) = 509 of the header length check. Over a
connected transporter whose peer sends the response header 80 00 FF 01, the
validated call returns the length error of `Send` and no data, whatever octets
follow the header. The same holds for the IO byte read of quantity 509
(declared length 510, header 80 00 FE 01), and the word read of quantity 254
(declared length 509, header 80 00 FD 01) panics. -/
theorem C27_validated_read_exceeds_length_check (now : Int) (dial : Res Conn) (address : Nat)
    (more : List Nat) :
    ((1 ≤ 255 ∧ 255 ≤ 0x200) ∧ Uint16 0xFF 0x01 = 1 + 2 * 255
      ∧ tcpMaxLength - (tcpHeaderSize - 1) < 1 + 2 * 255)
    ∧ (NewClient2 defaultPackager.toPackager
        ((connectedTransporter (0x80 :: 0x00 :: 0xFF :: 0x01 :: more)).toTransporter now
          dial)).ReadSequentialProgramWord address 255
        = ⟨[.Encode ⟨FunSequentialProgramReadWord, leWords [address, 255], 0⟩,
            .Send (0x00 :: 0x00 :: 0x05 :: 0x00 :: FunSequentialProgramReadWord
              :: leWords [address, 255])],
          .err (errLengthTooLarge 511)⟩
    ∧ errLengthTooLarge 511
        = .transport "toyopuc: length in response header '511' must not greater than '509'"
    ∧ ((1 ≤ 509 ∧ 509 ≤ 0x200) ∧ Uint16 0xFE 0x01 = 1 + 509
      ∧ tcpMaxLength - (tcpHeaderSize - 1) < 1 + 509)
    ∧ ((NewClient2 defaultPackager.toPackager
        ((connectedTransporter (0x80 :: 0x00 :: 0xFE :: 0x01 :: more)).toTransporter now
          dial)).ReadIOByte address 509).res = .err (errLengthTooLarge 510)
    ∧ ((1 ≤ 254 ∧ 254 ≤ 0x200) ∧ Uint16 0xFD 0x01 = 1 + 2 * 254)
    ∧ ((NewClient2 defaultPackager.toPackager
        ((connectedTransporter (0x80 :: 0x00 :: 0xFD :: 0x01 :: more)).toTransporter now
          dial)).ReadSequentialProgramWord address 254).res = .panic := by
  have h511 : ∀ aduRequest,
      ((connectedTransporter (0x80 :: 0x00 :: 0xFF :: 0x01 :: more)).toTransporter now
        dial).Send aduRequest = .err (errLengthTooLarge 511) := fun aduRequest =>
    (Send_by_length now dial aduRequest 0x80 0x00 0xFF 0x01 more).1
  have h510 : ∀ aduRequest,
      ((connectedTransporter (0x80 :: 0x00 :: 0xFE :: 0x01 :: more)).toTransporter now
        dial).Send aduRequest = .err (errLengthTooLarge 510) := fun aduRequest =>
    (Send_by_length now dial aduRequest 0x80 0x00 0xFE 0x01 more).1
  have h509 : ∀ aduRequest,
      ((connectedTransporter (0x80 :: 0x00 :: 0xFD :: 0x01 :: more)).toTransporter now
        dial).Send aduRequest = .panic := fun aduRequest =>
    (Send_by_length now dial aduRequest 0x80 0x00 0xFD 0x01 more).1
  refine ⟨by decide, ?_, by decide, by decide, ?_, by decide, ?_⟩
  · unfold client.ReadSequentialProgramWord
    rw [if_neg (by omega), dataBlock_eq]
    unfold client.request
    simp only []
    rw [send_tcp_send_err defaultPackager _ _ _ _ (Encode_eq _ _) (h511 _)]
    simp [leWords, defaultPackager, RequestFTByte]
  · unfold client.ReadIOByte
    rw [if_neg (by omega), dataBlock_eq, request_tcp_send_err _ _ _ _ _ _ h510]
  · unfold client.ReadSequentialProgramWord
    rw [if_neg (by omega), dataBlock_eq, request_tcp_send_panic _ _ _ _ _ h509]

/-! ## Declared exception codes: the claims -/

/-- C28 fails on the code at the declared constant
ExceptionCodeDataOtherThanSpecified = 0x42: the `switch` of
`toyopucError.Error` has no case for it, so it falls to `default` and the error
text names the cause "unknown". Each of the other 26 declared codes is a case
label and maps to a cause other than "unknown". -/
theorem C28_declared_code_0x42_unknown :
    ExceptionCodeDataOtherThanSpecified = 0x42
    ∧ exceptionName ExceptionCodeDataOtherThanSpecified = "unknown"
    ∧ ExceptionCodeDataOtherThanSpecified ∉ exceptionCases
    ∧ (toyopucError.mk 0x20 ExceptionCodeDataOtherThanSpecified).Error
        = "toyopuc: exception '66' (unknown), function '32'"
    ∧ exceptionCases
        = [0x11, 0x20, 0x21, 0x23, 0x24, 0x25, 0x26, 0x31, 0x32, 0x33, 0x34, 0x35, 0x36,
            0x39, 0x3C, 0x3D, 0x3E, 0x3F, 0x40, 0x41, 0x43, 0x52, 0x66, 0x70, 0x72, 0x73]
    ∧ "unknown" ∉ exceptionCases.map exceptionName := by
  refine ⟨rfl, by decide, by decide, by decide, rfl, by decide⟩

/-! ## Bit reads: the claims -/

/-- The loop of `ReadIOMultipointBit` (client.go:314-319) over the octets `vs`
from index `pre.length` on, the results so far being `pre`: element `k` of the
result is `true` exactly when octet `k` is 1. -/
theorem bitLoop_eq (vs : List Nat) : ∀ (pre : List Bool),
    rangeLoop (fun k v results => if v = 1 then setIndex results k true else .ok results)
      pre.length vs (pre ++ List.replicate vs.length false)
      = .ok (pre ++ vs.map fun v => decide (v = 1)) := by
  induction vs with
  | nil => intro pre; simp [rangeLoop]
  | cons v vs ih =>
    intro pre
    have hrep : List.replicate (v :: vs).length false = false :: List.replicate vs.length false :=
      rfl
    have hnext := ih (pre ++ [decide (v = 1)])
    simp only [List.length_append, List.length_singleton, List.append_assoc,
      List.singleton_append] at hnext
    rw [hrep]
    unfold rangeLoop
    by_cases h1 : v = 1
    · rw [if_pos h1, setIndex_append pre _ false true pre.length rfl]
      simp only [h1, decide_True, List.map_cons] at hnext ⊢
      exact hnext
    · rw [if_neg h1]
      simp only [h1, decide_False, List.map_cons] at hnext ⊢
      exact hnext

/-- On a structurally valid response that echoes the operation code with
status 0, `ReadIOMultipointBit` returns one boolean per payload octet, element
`k` being `true` exactly when payload octet `k` is 1. -/
theorem ReadIOMultipointBit_success (p : tcpPackager) (t : Transporter) (resp : List Nat)
    (address : List Nat)
    (ht : ∀ aduRequest, t.Send aduRequest = .ok resp) (hvalid : StructurallyValid p resp)
    (hst : resp[1]? = some 0) (hin : 1 ≤ address.length ∧ address.length ≤ 0x80)
    (hop : resp[4]? = some FunIOReadMultipointBit) :
    ((NewClient2 p.toPackager t).ReadIOMultipointBit address).res
      = .ok ((resp.drop 5).map fun v => decide (v = 1)) := by
  unfold client.ReadIOMultipointBit
  simp only []
  rw [if_neg (by omega), dataBlockList_eq, request_tcp_success p t _ _ resp _ ht hvalid hop hst]
  exact bitLoop_eq (resp.drop 5) []

/-- On a structurally valid response that echoes the operation code with
status 0, `ReadIOBit` evaluates `response.Data[0]` on the payload: it returns
whether the first payload octet is 1, and panics when the payload is empty. -/
theorem ReadIOBit_success (p : tcpPackager) (t : Transporter) (resp : List Nat) (address : Nat)
    (ht : ∀ aduRequest, t.Send aduRequest = .ok resp) (hvalid : StructurallyValid p resp)
    (hst : resp[1]? = some 0) (hop : resp[4]? = some FunIOReadBit) :
    ((NewClient2 p.toPackager t).ReadIOBit address).res
      = match resp.drop 5 with
        | [] => .panic
        | b :: _ => .ok (decide (b = 1)) := by
  unfold client.ReadIOBit
  rw [dataBlock_eq, request_tcp_success p t _ _ resp _ ht hvalid hop hst]
  cases resp.drop 5 <;> simp [index, Res.bind]

/-- C29 fails on the code at the bit read answered with the frame
80 00 01 00 20: the response is structurally valid, echoes the operation code
0x20 and has status byte 0, so `send` returns it with an empty payload, and
`ReadIOBit` then evaluates `response.Data[0]` on the empty payload, an
out-of-range index: the call panics and returns neither a boolean nor an
error. On the empty payload `ReadIOMultipointBit` returns the empty list, and
on non-empty payloads both operations return what the claim says. -/
theorem C29_read_bit_empty_payload (address : Nat) :
    StructurallyValid defaultPackager [0x80, 0x00, 0x01, 0x00, 0x20]
    ∧ ((stubClient [0x80, 0x00, 0x01, 0x00, 0x20]).send
        { FunctionCode := FunIOReadBit, Data := leWords [address], Response := 0 }).res
        = .ok { FunctionCode := FunIOReadBit, Data := [], Response := 0 }
    ∧ ((stubClient [0x80, 0x00, 0x01, 0x00, 0x20]).ReadIOBit address).res = .panic
    ∧ ((stubClient [0x80, 0x00, 0x02, 0x00, 0x20, 0x01]).ReadIOBit address).res = .ok true
    ∧ ((stubClient [0x80, 0x00, 0x02, 0x00, 0x20, 0x00]).ReadIOBit address).res = .ok false
    ∧ ((stubClient [0x80, 0x00, 0x01, 0x00, 0x26]).ReadIOMultipointBit [address]).res = .ok []
    ∧ ((stubClient [0x80, 0x00, 0x04, 0x00, 0x26, 0x01, 0x00, 0x02]).ReadIOMultipointBit
        [address, address, address]).res = .ok [true, false, false] := by
  refine ⟨⟨rfl, by decide, rfl⟩, ?_, ?_, ?_, ?_, ?_, ?_⟩
  · exact send_tcp_valid defaultPackager _ _ [0x80, 0x00, 0x01, 0x00, 0x20] FunIOReadBit 0
      (fun _ => rfl) ⟨rfl, by decide, rfl⟩ rfl rfl
  · exact ReadIOBit_success defaultPackager _ [0x80, 0x00, 0x01, 0x00, 0x20] address
      (fun _ => rfl) ⟨rfl, by decide, rfl⟩ rfl rfl
  · exact ReadIOBit_success defaultPackager _ [0x80, 0x00, 0x02, 0x00, 0x20, 0x01] address
      (fun _ => rfl) ⟨rfl, by decide, rfl⟩ rfl rfl
  · exact ReadIOBit_success defaultPackager _ [0x80, 0x00, 0x02, 0x00, 0x20, 0x00] address
      (fun _ => rfl) ⟨rfl, by decide, rfl⟩ rfl rfl
  · exact ReadIOMultipointBit_success defaultPackager _ [0x80, 0x00, 0x01, 0x00, 0x26]
      [address] (fun _ => rfl) ⟨rfl, by decide, rfl⟩ rfl (by simp) rfl
  · exact ReadIOMultipointBit_success defaultPackager _
      [0x80, 0x00, 0x04, 0x00, 0x26, 0x01, 0x00, 0x02] [address, address, address]
      (fun _ => rfl) ⟨rfl, by decide, rfl⟩ rfl (by simp) rfl

/-! ## Mixed multipoint read, counts against lists: the claims -/

/-- C30 fails on the code at numBit = 0, numByte = 1, numWord = 0 with one
byte-point kind listed and no byte-point address (bytesNo = [0], bytesAddr
empty): both checks on the counts pass (element total 1, octet total 1), the
call is not turned down, and `dataBlockExpansionSuffixMultipoint` evaluates
`bytesAddr[0]` on the empty list, an out-of-range index: the call panics before
any `Encode`. With the same counts and no point listed at all the call is
accepted and the payload built is 00 01 00, 3 octets where the counts announce
3 + 3*1 = 6: the checks never compare the counts with the lists. -/
theorem C30_counts_not_checked_against_lists (c : client) :
    ¬ (((0 + 1) % 256 + 0) % 256 < 1 ∨ ((0 + 1) % 256 + 0) % 256 > 176
        ∨ ((0 / 8 + 1) % 256 + 0 * 2 % 256) % 256 < 1
        ∨ ((0 / 8 + 1) % 256 + 0 * 2 % 256) % 256 > 128)
    ∧ ¬ (c.ReadDataExpansionMultipoint 0 1 0 [] [] [0] [] [] []).rejected
    ∧ dataBlockExpansionSuffixMultipoint 0 1 0 [] [] [0] [] [] [] = .panic
    ∧ c.ReadDataExpansionMultipoint 0 1 0 [] [] [0] [] [] [] = ⟨[], .panic⟩
    ∧ (c.ReadDataExpansionMultipoint 0 1 0 [] [] [] [] [] []).accepted
    ∧ dataBlockExpansionSuffixMultipoint 0 1 0 [] [] [] [] [] [] = .ok [0, 1, 0]
    ∧ (c.ReadDataExpansionMultipoint 0 1 0 [] [] [] [] [] []).calls
        = (c.send ⟨FunDataExpansionReadMultipoint, [0, 1, 0], 0⟩).calls
    ∧ [0, 1, 0].length ≠ 3 + 3 * (0 + 1 + 0) := by
  have hpanic : dataBlockExpansionSuffixMultipoint 0 1 0 [] [] [0] [] [] [] = .panic := by
    decide
  have hrun : c.ReadDataExpansionMultipoint 0 1 0 [] [] [0] [] [] [] = ⟨[], .panic⟩ := by
    unfold client.ReadDataExpansionMultipoint
    simp only []
    rw [if_neg (by decide), if_neg (by decide), hpanic]
    rfl
  have hcalls : (c.ReadDataExpansionMultipoint 0 1 0 [] [] [] [] [] []).calls
      = (c.send ⟨FunDataExpansionReadMultipoint, [0, 1, 0], 0⟩).calls := by
    unfold client.ReadDataExpansionMultipoint
    simp only []
    rw [if_neg (by decide), if_neg (by decide), dataBlockExpansionSuffixMultipoint_nil,
      request_calls]
  refine ⟨by decide, ?_, hpanic, hrun, ?_, dataBlockExpansionSuffixMultipoint_nil 0 1 0, hcalls,
    by decide⟩
  · rw [ReadDataExpansionMultipoint_rejected_iff]
    decide
  · obtain ⟨rest, hr⟩ := send_calls_cons c ⟨FunDataExpansionReadMultipoint, [0, 1, 0], 0⟩
    exact ⟨_, rest, hcalls.trans hr⟩

/-! ## Stores of the multipoint write builders: closed forms -/

/-- A loop over a traced buffer computes the buffer of the plain loop when
each run of its body does. -/
theorem rangeLoop_traced {α : Type} (bodyT : Nat → α → Traced → Res Traced)
    (body : Nat → α → List Nat → Res (List Nat))
    (h : ∀ i v d, (bodyT i v d).bind (fun r => .ok r.data) = body i v d.data) :
    ∀ (xs : List α) (i : Nat) (d : Traced),
      (rangeLoop bodyT i xs d).bind (fun r => .ok r.data) = rangeLoop body i xs d.data := by
  intro xs
  induction xs with
  | nil => intro i d; rfl
  | cons x xs ih =>
    intro i d
    have hb := h i x d
    unfold rangeLoop
    cases hT : bodyT i x d with
    | ok d1 =>
      rw [hT] at hb
      simp only [Res.bind] at hb
      rw [← hb]
      exact ih (i + 1) d1
    | err e =>
      rw [hT] at hb
      simp only [Res.bind] at hb
      rw [← hb]
      rfl
    | panic =>
      rw [hT] at hb
      simp only [Res.bind] at hb
      rw [← hb]
      rfl

theorem tracedPutUint16_ok (b : Traced) (off v : Nat) (h : off + 2 ≤ b.data.length) :
    tracedPutUint16 b off v
      = .ok { data := (b.data.set off (v % 256)).set (off + 1) (v / 256 % 256),
              writes := b.writes ++ [off, off + 1] } := by
  simp [tracedPutUint16, PutUint16, Res.bind, h]

theorem tracedPutUint16_panic (b : Traced) (off v : Nat) (h : ¬ off + 2 ≤ b.data.length) :
    tracedPutUint16 b off v = .panic := by
  simp [tracedPutUint16, PutUint16, Res.bind, h]

theorem tracedSetIndex_ok (b : Traced) (i v : Nat) (h : i < b.data.length) :
    tracedSetIndex b i v = .ok { data := b.data.set i v, writes := b.writes ++ [i] } := by
  simp [tracedSetIndex, setIndex, Res.bind, h]

theorem tracedSetIndex_panic (b : Traced) (i v : Nat) (h : ¬ i < b.data.length) :
    tracedSetIndex b i v = .panic := by
  simp [tracedSetIndex, setIndex, Res.bind, h]

/-- The traced `dataBlockAVList` computes the buffer of `dataBlockAVList`, and
panics where it panics, on every input. -/
theorem dataBlockAVListTraced_data (address value : List Nat) :
    (dataBlockAVListTraced address value).bind (fun r => .ok r.data)
      = dataBlockAVList address value := by
  unfold dataBlockAVListTraced dataBlockAVList
  apply rangeLoop_traced
  intro i v d
  by_cases h1 : i * 4 + 2 ≤ d.data.length
  · rw [tracedPutUint16_ok d _ _ h1]
    simp only [PutUint16, if_pos h1, Res.bind]
    cases hv : index value i with
    | ok vi =>
      simp only []
      by_cases h2 : i * 4 + 2 + 2 ≤ d.data.length
      · rw [tracedPutUint16_ok _ _ _ (by simpa using h2)]
        simp [h2]
      · rw [tracedPutUint16_panic _ _ _ (by simpa using h2)]
        simp [h2]
    | err e => rfl
    | panic => rfl
  · rw [tracedPutUint16_panic d _ _ h1]
    simp [PutUint16, Res.bind, h1]

/-- The traced `dataBlockAVByteList` computes the buffer of
`dataBlockAVByteList`, and panics where it panics, on every input. -/
theorem dataBlockAVByteListTraced_data (address value : List Nat) :
    (dataBlockAVByteListTraced address value).bind (fun r => .ok r.data)
      = dataBlockAVByteList address value := by
  unfold dataBlockAVByteListTraced dataBlockAVByteList
  apply rangeLoop_traced
  intro i v d
  by_cases h1 : i * 3 + 2 ≤ d.data.length
  · rw [tracedPutUint16_ok d _ _ h1]
    simp only [PutUint16, if_pos h1, Res.bind]
    cases hv : index value i with
    | ok vi =>
      simp only []
      by_cases h2 : i * 3 + 2 < d.data.length
      · rw [tracedSetIndex_ok _ _ _ (by simpa using h2)]
        simp [setIndex, h2]
      · rw [tracedSetIndex_panic _ _ _ (by simpa using h2)]
        simp [setIndex, h2]
    | err e => rfl
    | panic => rfl
  · rw [tracedPutUint16_panic d _ _ h1]
    simp [PutUint16, Res.bind, h1]

theorem range_add_four (n : Nat) (w : List Nat) (h : w = List.range n) :
    w ++ [n, n + 1] ++ [n + 2, n + 2 + 1] = List.range (n + 4) := by
  subst h
  simp [List.range_succ]

theorem range_add_three (n : Nat) (w : List Nat) (h : w = List.range n) :
    w ++ [n, n + 1] ++ [n + 2] = List.range (n + 3) := by
  subst h
  simp [List.range_succ]

/-- The stores of the loop of `dataBlockAVList`: started at point `i` with the
offsets below `4 * i` stored to in ascending order, a run that returns has
stored to the offsets below `4 * (i + len(address))` in ascending order. -/
theorem avTracedLoop_writes (value : List Nat) : ∀ (as : List Nat) (i : Nat) (d r : Traced),
    d.writes = List.range (i * 4) →
    rangeLoop
      (fun i v data =>
        (tracedPutUint16 data (i * 4) v).bind fun data =>
        (index value i).bind fun vi =>
        tracedPutUint16 data (i * 4 + 2) vi)
      i as d = .ok r →
    r.writes = List.range (i * 4 + 4 * as.length) := by
  intro as
  induction as with
  | nil =>
    intro i d r hw h
    simp only [rangeLoop, Res.ok.injEq] at h
    subst h
    simpa using hw
  | cons a as ih =>
    intro i d r hw h
    unfold rangeLoop at h
    by_cases h1 : i * 4 + 2 ≤ d.data.length
    · rw [tracedPutUint16_ok d _ _ h1] at h
      simp only [Res.bind] at h
      cases hv : index value i with
      | ok vi =>
        rw [hv] at h
        simp only [] at h
        by_cases h2 : i * 4 + 2 + 2 ≤ d.data.length
        · rw [tracedPutUint16_ok _ _ _ (by simpa using h2)] at h
          simp only [] at h
          have hnext := ih (i + 1) _ r
            (by
              simp only []
              rw [range_add_four (i * 4) d.writes hw]
              congr 1
              omega) h
          rw [hnext]
          congr 1
          simp only [List.length_cons]
          omega
        · rw [tracedPutUint16_panic _ _ _ (by simpa using h2)] at h
          simp at h
      | err e =>
        rw [hv] at h
        simp at h
      | panic =>
        rw [hv] at h
        simp at h
    · rw [tracedPutUint16_panic d _ _ h1] at h
      simp [Res.bind] at h

/-- The stores of the loop of `dataBlockAVByteList`, as for `dataBlockAVList`
with 3 octets per point. -/
theorem avByteTracedLoop_writes (value : List Nat) :
    ∀ (as : List Nat) (i : Nat) (d r : Traced),
    d.writes = List.range (i * 3) →
    rangeLoop
      (fun i v data =>
        (tracedPutUint16 data (i * 3) v).bind fun data =>
        (index value i).bind fun vi =>
        tracedSetIndex data (i * 3 + 2) vi)
      i as d = .ok r →
    r.writes = List.range (i * 3 + 3 * as.length) := by
  intro as
  induction as with
  | nil =>
    intro i d r hw h
    simp only [rangeLoop, Res.ok.injEq] at h
    subst h
    simpa using hw
  | cons a as ih =>
    intro i d r hw h
    unfold rangeLoop at h
    by_cases h1 : i * 3 + 2 ≤ d.data.length
    · rw [tracedPutUint16_ok d _ _ h1] at h
      simp only [Res.bind] at h
      cases hv : index value i with
      | ok vi =>
        rw [hv] at h
        simp only [] at h
        by_cases h2 : i * 3 + 2 < d.data.length
        · rw [tracedSetIndex_ok _ _ _ (by simpa using h2)] at h
          simp only [] at h
          have hnext := ih (i + 1) _ r
            (by
              simp only []
              rw [range_add_three (i * 3) d.writes hw]
              congr 1
              omega) h
          rw [hnext]
          congr 1
          simp only [List.length_cons]
          omega
        · rw [tracedSetIndex_panic _ _ _ (by simpa using h2)] at h
          simp at h
      | err e =>
        rw [hv] at h
        simp at h
      | panic =>
        rw [hv] at h
        simp at h
    · rw [tracedPutUint16_panic d _ _ h1] at h
      simp [Res.bind] at h

/-- Closed form of the traced `dataBlockAVList` on lists of equal length: the
interleaved points, each of the `4 * len(address)` offsets stored to once, in
ascending order. -/
theorem dataBlockAVListTraced_eq (address value : List Nat)
    (h : address.length = value.length) :
    dataBlockAVListTraced address value
      = .ok { data := avWords address value, writes := List.range (4 * address.length) } := by
  have hd := dataBlockAVListTraced_data address value
  rw [dataBlockAVList_eq _ _ h] at hd
  cases hT : dataBlockAVListTraced address value with
  | ok r =>
    rw [hT] at hd
    simp only [Res.bind, Res.ok.injEq] at hd
    have hw := avTracedLoop_writes value address 0 _ r rfl hT
    obtain ⟨rd, rw_⟩ := r
    simp only at hd hw
    rw [hd, hw]
    simp
  | err e =>
    rw [hT] at hd
    simp [Res.bind] at hd
  | panic =>
    rw [hT] at hd
    simp [Res.bind] at hd

/-- Closed form of the traced `dataBlockAVByteList` on lists of equal
length. -/
theorem dataBlockAVByteListTraced_eq (address value : List Nat)
    (h : address.length = value.length) :
    dataBlockAVByteListTraced address value
      = .ok { data := avBytes address value, writes := List.range (3 * address.length) } := by
  have hd := dataBlockAVByteListTraced_data address value
  rw [dataBlockAVByteList_eq _ _ h] at hd
  cases hT : dataBlockAVByteListTraced address value with
  | ok r =>
    rw [hT] at hd
    simp only [Res.bind, Res.ok.injEq] at hd
    have hw := avByteTracedLoop_writes value address 0 _ r rfl hT
    obtain ⟨rd, rw_⟩ := r
    simp only at hd hw
    rw [hd, hw]
    simp
  | err e =>
    rw [hT] at hd
    simp [Res.bind] at hd
  | panic =>
    rw [hT] at hd
    simp [Res.bind] at hd

/-- Stores to the offsets `0 .. len(data) - 1`, one each, are a store to every
octet of the buffer exactly once. -/
theorem wroteEachOnce_range (data : List Nat) (n : Nat) (h : data.length = n) :
    ({ data := data, writes := List.range n } : Traced).wroteEachOnce := by
  subst h
  constructor
  · intro k hk
    exact List.count_eq_one_of_mem (List.nodup_range _) (List.mem_range.mpr hk)
  · intro k hk
    exact List.mem_range.mp hk

/-- The frame `Encode` builds: its length field is the 16-bit truncation of
1 + payload size. -/
theorem lengthField_Encode (p : tcpPackager) (pdu : ProtocolDataUnit) :
    ∃ adu, p.Encode pdu = .ok adu
      ∧ lengthField adu = (pdu.Data.length + 1) % 65536
      ∧ adu.length = tcpHeaderSize + 1 + pdu.Data.length := by
  refine ⟨_, Encode_eq p pdu, ?_, ?_⟩
  · simp only [lengthField, Uint16, List.getD_cons_succ, List.getD_cons_zero]
    omega
  · simp [tcpHeaderSize]
    omega

/-- The one frame a client call over a TCP packager hands to the transporter:
the encoded request, whose length field is 1 + payload size when that is below
2^16. -/
theorem request_tcp_frame {α : Type} (p : tcpPackager) (t : Transporter) (fc : Nat)
    (data : List Nat) (after : ProtocolDataUnit → Res α) (hlen : 1 + data.length < 65536) :
    ∃ adu, p.Encode ⟨fc, data, 0⟩ = .ok adu
      ∧ sentFrames ((NewClient2 p.toPackager t).request fc (.ok data) after).calls = [adu]
      ∧ lengthField adu = 1 + data.length := by
  obtain ⟨adu, henc, hfield, _⟩ := lengthField_Encode p ⟨fc, data, 0⟩
  refine ⟨adu, henc, ?_, ?_⟩
  · rw [request_calls]
    exact send_tcp_sentFrames p t _ adu henc
  · rw [hfield]
    simp only []
    omega

/-! ## Multipoint write builders: the claims -/

/-- C31: for every input that the validation of `WriteIOMultipointWord`,
`WriteIOMultipointByte` or `WriteIOMultipointBit` accepts, the payload builder
(`dataBlockAVList` for the word write, `dataBlockAVByteList` for the byte and
the bit write) returns normally (no out-of-range index), its run stores to
every octet of its output buffer exactly once (the buffer has 4 octets per
point for the word write and 3 per point for the others), and the one frame
handed to the transporter is the encoded request, whose length field equals
1 + payload size, a value below 2^16. The inputs the validation accepts are
those whose two lists have the same length, between 1 and 0x80: on each of
them the three operations are accepted and both builders return normally,
having stored to every octet of the output buffer exactly once. -/
theorem C31_multipoint_write_builders (p : tcpPackager) (t : Transporter)
    (address value : List Nat) :
    (((NewClient2 p.toPackager t).WriteIOMultipointWord address value).accepted →
      ∃ r adu, dataBlockAVListTraced address value = .ok r
        ∧ dataBlockAVList address value = .ok r.data
        ∧ r.wroteEachOnce
        ∧ r.data.length = 4 * address.length
        ∧ p.Encode ⟨FunIOWriteMultipointWord, r.data, 0⟩ = .ok adu
        ∧ sentFrames ((NewClient2 p.toPackager t).WriteIOMultipointWord address value).calls
            = [adu]
        ∧ lengthField adu = 1 + r.data.length
        ∧ 1 + r.data.length < 65536)
    ∧ (((NewClient2 p.toPackager t).WriteIOMultipointByte address value).accepted →
      ∃ r adu, dataBlockAVByteListTraced address value = .ok r
        ∧ dataBlockAVByteList address value = .ok r.data
        ∧ r.wroteEachOnce
        ∧ r.data.length = 3 * address.length
        ∧ p.Encode ⟨FunIOWriteMultipointByte, r.data, 0⟩ = .ok adu
        ∧ sentFrames ((NewClient2 p.toPackager t).WriteIOMultipointByte address value).calls
            = [adu]
        ∧ lengthField adu = 1 + r.data.length
        ∧ 1 + r.data.length < 65536)
    ∧ (((NewClient2 p.toPackager t).WriteIOMultipointBit address value).accepted →
      ∃ r adu, dataBlockAVByteListTraced address value = .ok r
        ∧ dataBlockAVByteList address value = .ok r.data
        ∧ r.wroteEachOnce
        ∧ r.data.length = 3 * address.length
        ∧ p.Encode ⟨FunIOWriteMultipointBit, r.data, 0⟩ = .ok adu
        ∧ sentFrames ((NewClient2 p.toPackager t).WriteIOMultipointBit address value).calls
            = [adu]
        ∧ lengthField adu = 1 + r.data.length
        ∧ 1 + r.data.length < 65536)
    ∧ (address.length = value.length ∧ 1 ≤ address.length ∧ address.length ≤ 0x80 →
      ((NewClient2 p.toPackager t).WriteIOMultipointWord address value).accepted
      ∧ ((NewClient2 p.toPackager t).WriteIOMultipointByte address value).accepted
      ∧ ((NewClient2 p.toPackager t).WriteIOMultipointBit address value).accepted
      ∧ (∃ r, dataBlockAVListTraced address value = .ok r
          ∧ dataBlockAVList address value = .ok r.data ∧ r.wroteEachOnce
          ∧ r.data.length = 4 * address.length)
      ∧ (∃ r, dataBlockAVByteListTraced address value = .ok r
          ∧ dataBlockAVByteList address value = .ok r.data ∧ r.wroteEachOnce
          ∧ r.data.length = 3 * address.length)) := by
  refine ⟨?_, ?_, ?_, ?_⟩
  · intro hacc
    obtain ⟨heq, h1, h80⟩ := (WriteIOMultipointWord_checks _ address value).1.mp hacc
    have hlen := length_avWords address value heq
    have hsmall : 1 + (avWords address value).length < 65536 := by omega
    obtain ⟨adu, henc, hsent, hfield⟩ := request_tcp_frame p t FunIOWriteMultipointWord
      (avWords address value) (fun _ => (.ok () : Res Unit)) hsmall
    refine ⟨_, adu, dataBlockAVListTraced_eq address value heq,
      dataBlockAVList_eq address value heq, wroteEachOnce_range _ _ hlen, hlen, henc, ?_,
      hfield, hsmall⟩
    rw [← hsent]
    unfold client.WriteIOMultipointWord
    simp only []
    rw [if_neg (not_not.mpr heq), if_neg (by omega), dataBlockAVList_eq _ _ heq]
  · intro hacc
    obtain ⟨heq, h1, h80⟩ := (WriteIOMultipointByte_checks _ address value).1.mp hacc
    have hlen := length_avBytes address value heq
    have hsmall : 1 + (avBytes address value).length < 65536 := by omega
    obtain ⟨adu, henc, hsent, hfield⟩ := request_tcp_frame p t FunIOWriteMultipointByte
      (avBytes address value) (fun _ => (.ok () : Res Unit)) hsmall
    refine ⟨_, adu, dataBlockAVByteListTraced_eq address value heq,
      dataBlockAVByteList_eq address value heq, wroteEachOnce_range _ _ hlen, hlen, henc, ?_,
      hfield, hsmall⟩
    rw [← hsent]
    unfold client.WriteIOMultipointByte
    simp only []
    rw [if_neg (not_not.mpr heq), if_neg (by omega), dataBlockAVByteList_eq _ _ heq]
  · intro hacc
    obtain ⟨heq, h1, h80⟩ := (WriteIOMultipointBit_checks _ address value).1.mp hacc
    have hlen := length_avBytes address value heq
    have hsmall : 1 + (avBytes address value).length < 65536 := by omega
    obtain ⟨adu, henc, hsent, hfield⟩ := request_tcp_frame p t FunIOWriteMultipointBit
      (avBytes address value) (fun _ => (.ok () : Res Unit)) hsmall
    refine ⟨_, adu, dataBlockAVByteListTraced_eq address value heq,
      dataBlockAVByteList_eq address value heq, wroteEachOnce_range _ _ hlen, hlen, henc, ?_,
      hfield, hsmall⟩
    rw [← hsent]
    unfold client.WriteIOMultipointBit
    simp only []
    rw [if_neg (not_not.mpr heq), if_neg (by omega), dataBlockAVByteList_eq _ _ heq]
  · intro hvalid
    exact ⟨(WriteIOMultipointWord_checks _ address value).1.mpr hvalid,
      (WriteIOMultipointByte_checks _ address value).1.mpr hvalid,
      (WriteIOMultipointBit_checks _ address value).1.mpr hvalid,
      ⟨_, dataBlockAVListTraced_eq address value hvalid.1,
        dataBlockAVList_eq address value hvalid.1,
        wroteEachOnce_range _ _ (length_avWords address value hvalid.1),
        length_avWords address value hvalid.1⟩,
      ⟨_, dataBlockAVByteListTraced_eq address value hvalid.1,
        dataBlockAVByteList_eq address value hvalid.1,
        wroteEachOnce_range _ _ (length_avBytes address value hvalid.1),
        length_avBytes address value hvalid.1⟩⟩

/-- C31 at the word write of the points (0x0102, 0x0506) and (0x0304, 0x0708)
with the default markers: the two lists have the same length 2, the call is
accepted, the builder stores to the offsets 0..7 once each, the payload is
02 01 06 05 04 03 08 07 and the frame sent is 00 00 09 00 23 followed by the
payload, its length field 9 = 1 + 8. -/
theorem C31_multipoint_write_builders_witness :
    ((NewClient2 defaultPackager.toPackager
        (stubTransporter [])).WriteIOMultipointWord [0x0102, 0x0304] [0x0506, 0x0708]).accepted
    ∧ dataBlockAVListTraced [0x0102, 0x0304] [0x0506, 0x0708]
        = .ok ⟨[0x02, 0x01, 0x06, 0x05, 0x04, 0x03, 0x08, 0x07], [0, 1, 2, 3, 4, 5, 6, 7]⟩
    ∧ (⟨[0x02, 0x01, 0x06, 0x05, 0x04, 0x03, 0x08, 0x07], [0, 1, 2, 3, 4, 5, 6, 7]⟩ :
        Traced).wroteEachOnce
    ∧ sentFrames ((NewClient2 defaultPackager.toPackager
          (stubTransporter [])).WriteIOMultipointWord [0x0102, 0x0304] [0x0506, 0x0708]).calls
        = [[0x00, 0x00, 0x09, 0x00, 0x23, 0x02, 0x01, 0x06, 0x05, 0x04, 0x03, 0x08, 0x07]]
    ∧ lengthField [0x00, 0x00, 0x09, 0x00, 0x23, 0x02, 0x01, 0x06, 0x05, 0x04, 0x03, 0x08, 0x07]
        = 1 + 8 := by
  have hacc := ((C31_multipoint_write_builders defaultPackager (stubTransporter [])
    [0x0102, 0x0304] [0x0506, 0x0708]).2.2.2 (by decide)).1
  obtain ⟨r, adu, hr, _, honce, _, henc, hsent, hfield, _⟩ :=
    (C31_multipoint_write_builders defaultPackager (stubTransporter []) [0x0102, 0x0304]
      [0x0506, 0x0708]).1 hacc
  have hr0 : dataBlockAVListTraced [0x0102, 0x0304] [0x0506, 0x0708]
      = .ok ⟨[0x02, 0x01, 0x06, 0x05, 0x04, 0x03, 0x08, 0x07], [0, 1, 2, 3, 4, 5, 6, 7]⟩ := by
    decide
  rw [hr0] at hr
  simp only [Res.ok.injEq] at hr
  subst hr
  have he0 : defaultPackager.Encode
      ⟨FunIOWriteMultipointWord, [0x02, 0x01, 0x06, 0x05, 0x04, 0x03, 0x08, 0x07], 0⟩
      = .ok [0x00, 0x00, 0x09, 0x00, 0x23, 0x02, 0x01, 0x06, 0x05, 0x04, 0x03, 0x08, 0x07] := by
    decide
  rw [he0] at henc
  simp only [Res.ok.injEq] at henc
  subst henc
  exact ⟨hacc, hr0, honce, hsent, hfield⟩

/-! ## Frames the TCP transporter hands on -/

theorem ReadFull_ok_length (conn conn1 : Conn) (n : Nat) (body : List Nat)
    (h : conn.ReadFull n = (.ok body, conn1)) : body.length = n := by
  unfold Conn.ReadFull at h
  split at h
  · rename_i hn
    simp only [Prod.mk.injEq, Res.ok.injEq] at h
    rw [← h.1, List.length_take]
    omega
  · simp at h

/-- A frame that `readBody` returns has at least 5 octets: the header and a
body of the declared length, which is at least 1. -/
theorem readBody_ok_length (t : tcpTransporter) (conn : Conn) (data : List Nat)
    (events : List NetEvent) (resp : List Nat)
    (h : (t.readBody conn data events).res = .ok resp) : 5 ≤ resp.length := by
  unfold tcpTransporter.readBody at h
  split at h
  · rename_i b0 b1 _ _
    simp only [] at h
    split_ifs at h with h1 h2 h3
    split at h
    · rename_i body conn1 hrf
      simp only [Res.ok.injEq] at h
      have hb := ReadFull_ok_length _ _ _ _ hrf
      rw [← h]
      simp only [List.length_take, List.length_append, List.length_drop, tcpHeaderSize] at hb ⊢
      simp only [tcpHeaderSize, tcpMaxLength] at h1 h2 h3
      omega
    · simp at h
    · simp at h
  · simp at h

/-- A frame that `tcpTransporter.Send` returns has at least 5 octets. -/
theorem Send_ok_length (now : Int) (dial : Res Conn) (t : tcpTransporter)
    (aduRequest resp : List Nat) (h : (t.Send now dial aduRequest).res = .ok resp) :
    5 ≤ resp.length := by
  unfold tcpTransporter.Send at h
  simp only [] at h
  split at h
  · simp at h
  · simp at h
  · split at h
    · simp at h
    · split at h
      · simp at h
      · split at h
        · simp at h
        · split at h
          · simp at h
          · simp at h
          · exact readBody_ok_length _ _ _ _ _ h

/-! ## Frames too short to decode: the claims -/

/-- C4 fails on the code at every frame of fewer than 5 octets, for instance
the 4-octet frame 80 00 00 00: `Decode` has no length check and never assigns
its `err` result, and the unguarded index expression `adu[4]` panics, so the
call returns neither an error nor a response. `send` checks the `err` result
of `Decode` and then goes on; when its transporter hands on a frame that short
which `Verify` accepts (80 00 00 00: marker 0x80, length field 0, no octet
after the header), the call records Encode, Send, Verify, Decode and panics
inside `Decode`. The TCP transporter of the repository hands on no frame of
fewer than 5 octets. -/
theorem C4_decode_short (p : tcpPackager) (adu : List Nat) (h : adu.length < 5) :
    p.Decode adu = .panic
    ∧ (∀ pdu, p.Decode adu ≠ .ok pdu)
    ∧ (∀ (frame : List Nat) (e : GoError), p.Decode frame ≠ .err e)
    ∧ (∀ (t : Transporter) (request : ProtocolDataUnit) (aduRequest : List Nat),
        p.Encode request = .ok aduRequest → t.Send aduRequest = .ok adu →
        p.Verify aduRequest adu = .ok () →
        (NewClient2 p.toPackager t).send request
          = ⟨[.Encode request, .Send aduRequest, .Verify aduRequest adu, .Decode adu],
              .panic⟩)
    ∧ (∀ (now : Int) (dial : Res Conn) (t : tcpTransporter) (aduRequest resp : List Nat),
        (t.Send now dial aduRequest).res = .ok resp → 5 ≤ resp.length) := by
  have hp : p.Decode adu = .panic := by
    have h4 : adu[4]? = none := by
      rw [List.getElem?_eq_none_iff]; omega
    simp [tcpPackager.Decode, index, Res.bind, h4]
  refine ⟨hp, ?_, fun frame e => Decode_ne_err p frame e, ?_,
    fun now dial t aduRequest resp hs => Send_ok_length now dial t aduRequest resp hs⟩
  · intro pdu
    rw [hp]
    simp
  · intro t request aduRequest henc hsend hver
    rw [send_tcp p t request aduRequest adu henc hsend, hver, hp]

/-- C4 at the frame 80 00 00 00, handed on by a stub transporter in answer to
the word read of address 1, quantity 3: `Verify` accepts the frame, `Decode`
panics on it and returns no error, and `send` and the word read panic after
the calls Encode, Send, Verify, Decode. -/
theorem C4_decode_short_witness :
    [0x80, 0x00, 0x00, 0x00].length < 5
    ∧ defaultPackager.Verify [0x00, 0x00, 0x05, 0x00, 0x18, 0x01, 0x00, 0x03, 0x00]
        [0x80, 0x00, 0x00, 0x00] = .ok ()
    ∧ defaultPackager.Decode [0x80, 0x00, 0x00, 0x00] = .panic
    ∧ (∀ e, defaultPackager.Decode [0x80, 0x00, 0x00, 0x00] ≠ .err e)
    ∧ (stubClient [0x80, 0x00, 0x00, 0x00]).send ⟨0x18, [0x01, 0x00, 0x03, 0x00], 0⟩
        = ⟨[.Encode ⟨0x18, [0x01, 0x00, 0x03, 0x00], 0⟩,
            .Send [0x00, 0x00, 0x05, 0x00, 0x18, 0x01, 0x00, 0x03, 0x00],
            .Verify [0x00, 0x00, 0x05, 0x00, 0x18, 0x01, 0x00, 0x03, 0x00]
              [0x80, 0x00, 0x00, 0x00],
            .Decode [0x80, 0x00, 0x00, 0x00]], .panic⟩
    ∧ ((stubClient [0x80, 0x00, 0x00, 0x00]).ReadSequentialProgramWord 1 3).res = .panic :=
  ⟨by decide, by decide,
   (C4_decode_short defaultPackager [0x80, 0x00, 0x00, 0x00] (by decide)).1,
   fun e => (C4_decode_short defaultPackager [0x80, 0x00, 0x00, 0x00] (by decide)).2.2.1 _ e,
   (C4_decode_short defaultPackager [0x80, 0x00, 0x00, 0x00] (by decide)).2.2.2.1
     (stubTransporter [0x80, 0x00, 0x00, 0x00]) ⟨0x18, [0x01, 0x00, 0x03, 0x00], 0⟩
     [0x00, 0x00, 0x05, 0x00, 0x18, 0x01, 0x00, 0x03, 0x00]
     (Encode_default_four _ _ _ _ _ _) rfl (by decide),
   by decide⟩

end Toyopuc
